import Mathlib

/-!
# The duktape-sys symbol shim (wrapper.h, wrapper.c) and its preprocessing

The two files turn preprocessor macros of the Duktape headers into linkable symbols.
Each export is a block of directives around one declaration: `push_macro("N")`, then
`undef N`, then the declarator naming `N`, then `pop_macro("N")`, then the initialiser
or body that uses `N`.

The development embeds the three source files line by line, gives the directives
their preprocessor meaning as a step function on a preprocessor state, and gives the
preprocessed function bodies a call semantics over an arbitrary engine.

The headers `duktape.h` and `duk_logging.h` are not part of the source tree; the macro
table they leave behind is a parameter throughout.
-/

namespace Duk

/-- A preprocessing token: a word (identifier or keyword), a number, or a punctuator. -/
inductive Tok where
  | w (s : String)
  | n (s : String)
  | p (s : String)
  deriving DecidableEq

/-- A macro definition: object-like (a name and a replacement list) or function-like
(a name, parameters and a replacement list). -/
inductive MacroDef where
  | obj (body : List Tok)
  | fn (params : List String) (body : List Tok)
  deriving DecidableEq

/-- One logical source line: the directives `push_macro("N")`, `undef N`,
`pop_macro("N")`, `include "f"`, `pragma once`, `ifndef N`, `if !defined(N)`,
`define N ...` and `endif`, a line of C tokens, or an empty line (also a line that
holds only a comment). -/
inductive Line where
  | pushMacro (name : String)
  | undef (name : String)
  | popMacro (name : String)
  | includeFile (file : String)
  | pragmaOnce
  | ifndef (name : String)
  | ifNotDefined (name : String)
  | define (name : String) (d : MacroDef)
  | endif
  | code (ts : List Tok)
  | blank
  deriving DecidableEq

open Tok Line in
/-- The lines of `duktape/extras/duk-v1-compat/duk_v1_compat.h`; the two physical lines of the last `#define` are spliced, comments are dropped. -/
def duk_v1_compat_h : List Line := [
  ifNotDefined "DUK_V1_COMPAT_INCLUDED",
  define "DUK_V1_COMPAT_INCLUDED" (.obj []),
  blank,
  includeFile "duktape.h",
  blank,
  blank,
  define "DUK_STRING_PUSH_SAFE" (.obj [p "(", n "1", p "<<", n "0", p ")"]),
  blank,
  code [w "extern", w "void", w "duk_dump_context_stdout", p "(", w "duk_context", p "*", w "ctx", p ")", p ";"],
  code [w "extern", w "void", w "duk_dump_context_stderr", p "(", w "duk_context", p "*", w "ctx", p ")", p ";"],
  code [w "extern", w "const", w "char", p "*", w "duk_push_string_file_raw", p "(", w "duk_context", p "*", w "ctx", p ",", w "const", w "char", p "*", w "path", p ",", w "duk_uint_t", w "flags", p ")", p ";"],
  code [w "extern", w "void", w "duk_eval_file", p "(", w "duk_context", p "*", w "ctx", p ",", w "const", w "char", p "*", w "path", p ")", p ";"],
  code [w "extern", w "void", w "duk_eval_file_noresult", p "(", w "duk_context", p "*", w "ctx", p ",", w "const", w "char", p "*", w "path", p ")", p ";"],
  code [w "extern", w "duk_int_t", w "duk_peval_file", p "(", w "duk_context", p "*", w "ctx", p ",", w "const", w "char", p "*", w "path", p ")", p ";"],
  code [w "extern", w "duk_int_t", w "duk_peval_file_noresult", p "(", w "duk_context", p "*", w "ctx", p ",", w "const", w "char", p "*", w "path", p ")", p ";"],
  code [w "extern", w "void", w "duk_compile_file", p "(", w "duk_context", p "*", w "ctx", p ",", w "duk_uint_t", w "flags", p ",", w "const", w "char", p "*", w "path", p ")", p ";"],
  code [w "extern", w "duk_int_t", w "duk_pcompile_file", p "(", w "duk_context", p "*", w "ctx", p ",", w "duk_uint_t", w "flags", p ",", w "const", w "char", p "*", w "path", p ")", p ";"],
  blank,
  define "duk_push_string_file" (.fn ["ctx", "path"] [w "duk_push_string_file_raw", p "(", p "(", w "ctx", p ")", p ",", p "(", w "path", p ")", p ",", n "0", p ")"]),
  blank,
  endif,
  blank
]

open Tok Line in
/-- The lines of `src/wrapper.h`, in order. -/
def wrapper_h : List Line := [
  pragmaOnce,
  ifndef "__va_copy",
  define "__va_copy" (.fn ["d", "s"] [w "__builtin_va_copy", p "(", w "d", p ",", w "s", p ")"]),
  endif,
  includeFile "duktape.h",
  includeFile "duk_logging.h",
  blank,
  pushMacro "DUK_VERSION",
  undef "DUK_VERSION",
  code [w "const", w "duk_uint_t", w "DUK_VERSION", p ";"],
  popMacro "DUK_VERSION",
  blank,
  pushMacro "DUK_GIT_COMMIT",
  undef "DUK_GIT_COMMIT",
  code [w "const", w "char", p "*", w "const", w "DUK_GIT_COMMIT", p ";"],
  popMacro "DUK_GIT_COMMIT",
  blank,
  pushMacro "DUK_GIT_DESCRIBE",
  undef "DUK_GIT_DESCRIBE",
  code [w "const", w "char", p "*", w "const", w "DUK_GIT_DESCRIBE", p ";"],
  popMacro "DUK_GIT_DESCRIBE",
  blank,
  pushMacro "DUK_GIT_BRANCH",
  undef "DUK_GIT_BRANCH",
  code [w "const", w "char", p "*", w "const", w "DUK_GIT_BRANCH", p ";"],
  popMacro "DUK_GIT_BRANCH",
  blank,
  pushMacro "DUK_DEBUG_PROTOCOL_VERSION",
  undef "DUK_DEBUG_PROTOCOL_VERSION",
  code [w "const", w "duk_uint_t", w "DUK_DEBUG_PROTOCOL_VERSION", p ";"],
  popMacro "DUK_DEBUG_PROTOCOL_VERSION",
  blank,
  pushMacro "DUK_INVALID_INDEX",
  undef "DUK_INVALID_INDEX",
  code [w "const", w "duk_idx_t", w "DUK_INVALID_INDEX", p ";"],
  popMacro "DUK_INVALID_INDEX",
  blank,
  pushMacro "DUK_VARARGS",
  undef "DUK_VARARGS",
  code [w "const", w "duk_int_t", w "DUK_VARARGS", p ";"],
  popMacro "DUK_VARARGS",
  blank,
  pushMacro "DUK_API_ENTRY_STACK",
  undef "DUK_API_ENTRY_STACK",
  code [w "const", w "duk_size_t", w "DUK_API_ENTRY_STACK", p ";"],
  popMacro "DUK_API_ENTRY_STACK",
  blank,
  pushMacro "DUK_TYPE_MIN",
  undef "DUK_TYPE_MIN",
  code [w "const", w "duk_int_t", w "DUK_TYPE_MIN", p ";"],
  popMacro "DUK_TYPE_MIN",
  blank,
  pushMacro "DUK_TYPE_NONE",
  undef "DUK_TYPE_NONE",
  code [w "const", w "duk_int_t", w "DUK_TYPE_NONE", p ";"],
  popMacro "DUK_TYPE_NONE",
  blank,
  pushMacro "DUK_TYPE_UNDEFINED",
  undef "DUK_TYPE_UNDEFINED",
  code [w "const", w "duk_int_t", w "DUK_TYPE_UNDEFINED", p ";"],
  popMacro "DUK_TYPE_UNDEFINED",
  blank,
  pushMacro "DUK_TYPE_NULL",
  undef "DUK_TYPE_NULL",
  code [w "const", w "duk_int_t", w "DUK_TYPE_NULL", p ";"],
  popMacro "DUK_TYPE_NULL",
  blank,
  pushMacro "DUK_TYPE_BOOLEAN",
  undef "DUK_TYPE_BOOLEAN",
  code [w "const", w "duk_int_t", w "DUK_TYPE_BOOLEAN", p ";"],
  popMacro "DUK_TYPE_BOOLEAN",
  blank,
  pushMacro "DUK_TYPE_NUMBER",
  undef "DUK_TYPE_NUMBER",
  code [w "const", w "duk_int_t", w "DUK_TYPE_NUMBER", p ";"],
  popMacro "DUK_TYPE_NUMBER",
  blank,
  pushMacro "DUK_TYPE_STRING",
  undef "DUK_TYPE_STRING",
  code [w "const", w "duk_int_t", w "DUK_TYPE_STRING", p ";"],
  popMacro "DUK_TYPE_STRING",
  blank,
  pushMacro "DUK_TYPE_OBJECT",
  undef "DUK_TYPE_OBJECT",
  code [w "const", w "duk_int_t", w "DUK_TYPE_OBJECT", p ";"],
  popMacro "DUK_TYPE_OBJECT",
  blank,
  pushMacro "DUK_TYPE_BUFFER",
  undef "DUK_TYPE_BUFFER",
  code [w "const", w "duk_int_t", w "DUK_TYPE_BUFFER", p ";"],
  popMacro "DUK_TYPE_BUFFER",
  blank,
  pushMacro "DUK_TYPE_POINTER",
  undef "DUK_TYPE_POINTER",
  code [w "const", w "duk_int_t", w "DUK_TYPE_POINTER", p ";"],
  popMacro "DUK_TYPE_POINTER",
  blank,
  pushMacro "DUK_TYPE_LIGHTFUNC",
  undef "DUK_TYPE_LIGHTFUNC",
  code [w "const", w "duk_int_t", w "DUK_TYPE_LIGHTFUNC", p ";"],
  popMacro "DUK_TYPE_LIGHTFUNC",
  blank,
  pushMacro "DUK_TYPE_MAX",
  undef "DUK_TYPE_MAX",
  code [w "const", w "duk_int_t", w "DUK_TYPE_MAX", p ";"],
  popMacro "DUK_TYPE_MAX",
  blank,
  pushMacro "DUK_TYPE_MASK_NONE",
  undef "DUK_TYPE_MASK_NONE",
  code [w "const", w "duk_uint_t", w "DUK_TYPE_MASK_NONE", p ";"],
  popMacro "DUK_TYPE_MASK_NONE",
  blank,
  pushMacro "DUK_TYPE_MASK_UNDEFINED",
  undef "DUK_TYPE_MASK_UNDEFINED",
  code [w "const", w "duk_uint_t", w "DUK_TYPE_MASK_UNDEFINED", p ";"],
  popMacro "DUK_TYPE_MASK_UNDEFINED",
  blank,
  pushMacro "DUK_TYPE_MASK_NULL",
  undef "DUK_TYPE_MASK_NULL",
  code [w "const", w "duk_uint_t", w "DUK_TYPE_MASK_NULL", p ";"],
  popMacro "DUK_TYPE_MASK_NULL",
  blank,
  pushMacro "DUK_TYPE_MASK_BOOLEAN",
  undef "DUK_TYPE_MASK_BOOLEAN",
  code [w "const", w "duk_uint_t", w "DUK_TYPE_MASK_BOOLEAN", p ";"],
  popMacro "DUK_TYPE_MASK_BOOLEAN",
  blank,
  pushMacro "DUK_TYPE_MASK_NUMBER",
  undef "DUK_TYPE_MASK_NUMBER",
  code [w "const", w "duk_uint_t", w "DUK_TYPE_MASK_NUMBER", p ";"],
  popMacro "DUK_TYPE_MASK_NUMBER",
  blank,
  pushMacro "DUK_TYPE_MASK_STRING",
  undef "DUK_TYPE_MASK_STRING",
  code [w "const", w "duk_uint_t", w "DUK_TYPE_MASK_STRING", p ";"],
  popMacro "DUK_TYPE_MASK_STRING",
  blank,
  pushMacro "DUK_TYPE_MASK_OBJECT",
  undef "DUK_TYPE_MASK_OBJECT",
  code [w "const", w "duk_uint_t", w "DUK_TYPE_MASK_OBJECT", p ";"],
  popMacro "DUK_TYPE_MASK_OBJECT",
  blank,
  pushMacro "DUK_TYPE_MASK_BUFFER",
  undef "DUK_TYPE_MASK_BUFFER",
  code [w "const", w "duk_uint_t", w "DUK_TYPE_MASK_BUFFER", p ";"],
  popMacro "DUK_TYPE_MASK_BUFFER",
  blank,
  pushMacro "DUK_TYPE_MASK_POINTER",
  undef "DUK_TYPE_MASK_POINTER",
  code [w "const", w "duk_uint_t", w "DUK_TYPE_MASK_POINTER", p ";"],
  popMacro "DUK_TYPE_MASK_POINTER",
  blank,
  pushMacro "DUK_TYPE_MASK_LIGHTFUNC",
  undef "DUK_TYPE_MASK_LIGHTFUNC",
  code [w "const", w "duk_uint_t", w "DUK_TYPE_MASK_LIGHTFUNC", p ";"],
  popMacro "DUK_TYPE_MASK_LIGHTFUNC",
  blank,
  pushMacro "DUK_TYPE_MASK_THROW",
  undef "DUK_TYPE_MASK_THROW",
  code [w "const", w "duk_uint_t", w "DUK_TYPE_MASK_THROW", p ";"],
  popMacro "DUK_TYPE_MASK_THROW",
  blank,
  pushMacro "DUK_HINT_NONE",
  undef "DUK_HINT_NONE",
  code [w "const", w "duk_int_t", w "DUK_HINT_NONE", p ";"],
  popMacro "DUK_HINT_NONE",
  blank,
  pushMacro "DUK_HINT_STRING",
  undef "DUK_HINT_STRING",
  code [w "const", w "duk_int_t", w "DUK_HINT_STRING", p ";"],
  popMacro "DUK_HINT_STRING",
  blank,
  pushMacro "DUK_HINT_NUMBER",
  undef "DUK_HINT_NUMBER",
  code [w "const", w "duk_int_t", w "DUK_HINT_NUMBER", p ";"],
  popMacro "DUK_HINT_NUMBER",
  blank,
  pushMacro "DUK_ENUM_INCLUDE_NONENUMERABLE",
  undef "DUK_ENUM_INCLUDE_NONENUMERABLE",
  code [w "const", w "duk_uint_t", w "DUK_ENUM_INCLUDE_NONENUMERABLE", p ";"],
  popMacro "DUK_ENUM_INCLUDE_NONENUMERABLE",
  blank,
  pushMacro "DUK_ENUM_INCLUDE_INTERNAL",
  undef "DUK_ENUM_INCLUDE_INTERNAL",
  code [w "const", w "duk_uint_t", w "DUK_ENUM_INCLUDE_INTERNAL", p ";"],
  popMacro "DUK_ENUM_INCLUDE_INTERNAL",
  blank,
  pushMacro "DUK_ENUM_OWN_PROPERTIES_ONLY",
  undef "DUK_ENUM_OWN_PROPERTIES_ONLY",
  code [w "const", w "duk_uint_t", w "DUK_ENUM_OWN_PROPERTIES_ONLY", p ";"],
  popMacro "DUK_ENUM_OWN_PROPERTIES_ONLY",
  blank,
  pushMacro "DUK_ENUM_ARRAY_INDICES_ONLY",
  undef "DUK_ENUM_ARRAY_INDICES_ONLY",
  code [w "const", w "duk_uint_t", w "DUK_ENUM_ARRAY_INDICES_ONLY", p ";"],
  popMacro "DUK_ENUM_ARRAY_INDICES_ONLY",
  blank,
  pushMacro "DUK_ENUM_SORT_ARRAY_INDICES",
  undef "DUK_ENUM_SORT_ARRAY_INDICES",
  code [w "const", w "duk_uint_t", w "DUK_ENUM_SORT_ARRAY_INDICES", p ";"],
  popMacro "DUK_ENUM_SORT_ARRAY_INDICES",
  blank,
  pushMacro "DUK_ENUM_NO_PROXY_BEHAVIOR",
  undef "DUK_ENUM_NO_PROXY_BEHAVIOR",
  code [w "const", w "duk_uint_t", w "DUK_ENUM_NO_PROXY_BEHAVIOR", p ";"],
  popMacro "DUK_ENUM_NO_PROXY_BEHAVIOR",
  blank,
  pushMacro "DUK_COMPILE_EVAL",
  undef "DUK_COMPILE_EVAL",
  code [w "const", w "duk_uint_t", w "DUK_COMPILE_EVAL", p ";"],
  popMacro "DUK_COMPILE_EVAL",
  blank,
  pushMacro "DUK_COMPILE_FUNCTION",
  undef "DUK_COMPILE_FUNCTION",
  code [w "const", w "duk_uint_t", w "DUK_COMPILE_FUNCTION", p ";"],
  popMacro "DUK_COMPILE_FUNCTION",
  blank,
  pushMacro "DUK_COMPILE_STRICT",
  undef "DUK_COMPILE_STRICT",
  code [w "const", w "duk_uint_t", w "DUK_COMPILE_STRICT", p ";"],
  popMacro "DUK_COMPILE_STRICT",
  blank,
  pushMacro "DUK_COMPILE_SAFE",
  undef "DUK_COMPILE_SAFE",
  code [w "const", w "duk_uint_t", w "DUK_COMPILE_SAFE", p ";"],
  popMacro "DUK_COMPILE_SAFE",
  blank,
  pushMacro "DUK_COMPILE_NORESULT",
  undef "DUK_COMPILE_NORESULT",
  code [w "const", w "duk_uint_t", w "DUK_COMPILE_NORESULT", p ";"],
  popMacro "DUK_COMPILE_NORESULT",
  blank,
  pushMacro "DUK_COMPILE_NOSOURCE",
  undef "DUK_COMPILE_NOSOURCE",
  code [w "const", w "duk_uint_t", w "DUK_COMPILE_NOSOURCE", p ";"],
  popMacro "DUK_COMPILE_NOSOURCE",
  blank,
  pushMacro "DUK_COMPILE_STRLEN",
  undef "DUK_COMPILE_STRLEN",
  code [w "const", w "duk_uint_t", w "DUK_COMPILE_STRLEN", p ";"],
  popMacro "DUK_COMPILE_STRLEN",
  blank,
  pushMacro "DUK_COMPILE_NOFILENAME",
  undef "DUK_COMPILE_NOFILENAME",
  code [w "const", w "duk_uint_t", w "DUK_COMPILE_NOFILENAME", p ";"],
  popMacro "DUK_COMPILE_NOFILENAME",
  blank,
  pushMacro "DUK_DEFPROP_WRITABLE",
  undef "DUK_DEFPROP_WRITABLE",
  code [w "const", w "duk_uint_t", w "DUK_DEFPROP_WRITABLE", p ";"],
  popMacro "DUK_DEFPROP_WRITABLE",
  blank,
  pushMacro "DUK_DEFPROP_ENUMERABLE",
  undef "DUK_DEFPROP_ENUMERABLE",
  code [w "const", w "duk_uint_t", w "DUK_DEFPROP_ENUMERABLE", p ";"],
  popMacro "DUK_DEFPROP_ENUMERABLE",
  blank,
  pushMacro "DUK_DEFPROP_CONFIGURABLE",
  undef "DUK_DEFPROP_CONFIGURABLE",
  code [w "const", w "duk_uint_t", w "DUK_DEFPROP_CONFIGURABLE", p ";"],
  popMacro "DUK_DEFPROP_CONFIGURABLE",
  blank,
  pushMacro "DUK_DEFPROP_HAVE_WRITABLE",
  undef "DUK_DEFPROP_HAVE_WRITABLE",
  code [w "const", w "duk_uint_t", w "DUK_DEFPROP_HAVE_WRITABLE", p ";"],
  popMacro "DUK_DEFPROP_HAVE_WRITABLE",
  blank,
  pushMacro "DUK_DEFPROP_HAVE_ENUMERABLE",
  undef "DUK_DEFPROP_HAVE_ENUMERABLE",
  code [w "const", w "duk_uint_t", w "DUK_DEFPROP_HAVE_ENUMERABLE", p ";"],
  popMacro "DUK_DEFPROP_HAVE_ENUMERABLE",
  blank,
  pushMacro "DUK_DEFPROP_HAVE_CONFIGURABLE",
  undef "DUK_DEFPROP_HAVE_CONFIGURABLE",
  code [w "const", w "duk_uint_t", w "DUK_DEFPROP_HAVE_CONFIGURABLE", p ";"],
  popMacro "DUK_DEFPROP_HAVE_CONFIGURABLE",
  blank,
  pushMacro "DUK_DEFPROP_HAVE_VALUE",
  undef "DUK_DEFPROP_HAVE_VALUE",
  code [w "const", w "duk_uint_t", w "DUK_DEFPROP_HAVE_VALUE", p ";"],
  popMacro "DUK_DEFPROP_HAVE_VALUE",
  blank,
  pushMacro "DUK_DEFPROP_HAVE_GETTER",
  undef "DUK_DEFPROP_HAVE_GETTER",
  code [w "const", w "duk_uint_t", w "DUK_DEFPROP_HAVE_GETTER", p ";"],
  popMacro "DUK_DEFPROP_HAVE_GETTER",
  blank,
  pushMacro "DUK_DEFPROP_HAVE_SETTER",
  undef "DUK_DEFPROP_HAVE_SETTER",
  code [w "const", w "duk_uint_t", w "DUK_DEFPROP_HAVE_SETTER", p ";"],
  popMacro "DUK_DEFPROP_HAVE_SETTER",
  blank,
  pushMacro "DUK_DEFPROP_FORCE",
  undef "DUK_DEFPROP_FORCE",
  code [w "const", w "duk_uint_t", w "DUK_DEFPROP_FORCE", p ";"],
  popMacro "DUK_DEFPROP_FORCE",
  blank,
  pushMacro "DUK_DEFPROP_SET_WRITABLE",
  undef "DUK_DEFPROP_SET_WRITABLE",
  code [w "const", w "duk_uint_t", w "DUK_DEFPROP_SET_WRITABLE", p ";"],
  popMacro "DUK_DEFPROP_SET_WRITABLE",
  blank,
  pushMacro "DUK_DEFPROP_CLEAR_WRITABLE",
  undef "DUK_DEFPROP_CLEAR_WRITABLE",
  code [w "const", w "duk_uint_t", w "DUK_DEFPROP_CLEAR_WRITABLE", p ";"],
  popMacro "DUK_DEFPROP_CLEAR_WRITABLE",
  blank,
  pushMacro "DUK_DEFPROP_SET_ENUMERABLE",
  undef "DUK_DEFPROP_SET_ENUMERABLE",
  code [w "const", w "duk_uint_t", w "DUK_DEFPROP_SET_ENUMERABLE", p ";"],
  popMacro "DUK_DEFPROP_SET_ENUMERABLE",
  blank,
  pushMacro "DUK_DEFPROP_CLEAR_ENUMERABLE",
  undef "DUK_DEFPROP_CLEAR_ENUMERABLE",
  code [w "const", w "duk_uint_t", w "DUK_DEFPROP_CLEAR_ENUMERABLE", p ";"],
  popMacro "DUK_DEFPROP_CLEAR_ENUMERABLE",
  blank,
  pushMacro "DUK_DEFPROP_SET_CONFIGURABLE",
  undef "DUK_DEFPROP_SET_CONFIGURABLE",
  code [w "const", w "duk_uint_t", w "DUK_DEFPROP_SET_CONFIGURABLE", p ";"],
  popMacro "DUK_DEFPROP_SET_CONFIGURABLE",
  blank,
  pushMacro "DUK_DEFPROP_CLEAR_CONFIGURABLE",
  undef "DUK_DEFPROP_CLEAR_CONFIGURABLE",
  code [w "const", w "duk_uint_t", w "DUK_DEFPROP_CLEAR_CONFIGURABLE", p ";"],
  popMacro "DUK_DEFPROP_CLEAR_CONFIGURABLE",
  blank,
  pushMacro "DUK_THREAD_NEW_GLOBAL_ENV",
  undef "DUK_THREAD_NEW_GLOBAL_ENV",
  code [w "const", w "duk_uint_t", w "DUK_THREAD_NEW_GLOBAL_ENV", p ";"],
  popMacro "DUK_THREAD_NEW_GLOBAL_ENV",
  blank,
  pushMacro "DUK_ERR_NONE",
  undef "DUK_ERR_NONE",
  code [w "const", w "duk_errcode_t", w "DUK_ERR_NONE", p ";"],
  popMacro "DUK_ERR_NONE",
  blank,
  pushMacro "DUK_ERR_ERROR",
  undef "DUK_ERR_ERROR",
  code [w "const", w "duk_errcode_t", w "DUK_ERR_ERROR", p ";"],
  popMacro "DUK_ERR_ERROR",
  blank,
  pushMacro "DUK_ERR_EVAL_ERROR",
  undef "DUK_ERR_EVAL_ERROR",
  code [w "const", w "duk_errcode_t", w "DUK_ERR_EVAL_ERROR", p ";"],
  popMacro "DUK_ERR_EVAL_ERROR",
  blank,
  pushMacro "DUK_ERR_RANGE_ERROR",
  undef "DUK_ERR_RANGE_ERROR",
  code [w "const", w "duk_errcode_t", w "DUK_ERR_RANGE_ERROR", p ";"],
  popMacro "DUK_ERR_RANGE_ERROR",
  blank,
  pushMacro "DUK_ERR_REFERENCE_ERROR",
  undef "DUK_ERR_REFERENCE_ERROR",
  code [w "const", w "duk_errcode_t", w "DUK_ERR_REFERENCE_ERROR", p ";"],
  popMacro "DUK_ERR_REFERENCE_ERROR",
  blank,
  pushMacro "DUK_ERR_SYNTAX_ERROR",
  undef "DUK_ERR_SYNTAX_ERROR",
  code [w "const", w "duk_errcode_t", w "DUK_ERR_SYNTAX_ERROR", p ";"],
  popMacro "DUK_ERR_SYNTAX_ERROR",
  blank,
  pushMacro "DUK_ERR_TYPE_ERROR",
  undef "DUK_ERR_TYPE_ERROR",
  code [w "const", w "duk_errcode_t", w "DUK_ERR_TYPE_ERROR", p ";"],
  popMacro "DUK_ERR_TYPE_ERROR",
  blank,
  pushMacro "DUK_ERR_URI_ERROR",
  undef "DUK_ERR_URI_ERROR",
  code [w "const", w "duk_errcode_t", w "DUK_ERR_URI_ERROR", p ";"],
  popMacro "DUK_ERR_URI_ERROR",
  blank,
  pushMacro "DUK_RET_ERROR",
  undef "DUK_RET_ERROR",
  code [w "const", w "duk_ret_t", w "DUK_RET_ERROR", p ";"],
  popMacro "DUK_RET_ERROR",
  blank,
  pushMacro "DUK_RET_EVAL_ERROR",
  undef "DUK_RET_EVAL_ERROR",
  code [w "const", w "duk_ret_t", w "DUK_RET_EVAL_ERROR", p ";"],
  popMacro "DUK_RET_EVAL_ERROR",
  blank,
  pushMacro "DUK_RET_RANGE_ERROR",
  undef "DUK_RET_RANGE_ERROR",
  code [w "const", w "duk_ret_t", w "DUK_RET_RANGE_ERROR", p ";"],
  popMacro "DUK_RET_RANGE_ERROR",
  blank,
  pushMacro "DUK_RET_REFERENCE_ERROR",
  undef "DUK_RET_REFERENCE_ERROR",
  code [w "const", w "duk_ret_t", w "DUK_RET_REFERENCE_ERROR", p ";"],
  popMacro "DUK_RET_REFERENCE_ERROR",
  blank,
  pushMacro "DUK_RET_SYNTAX_ERROR",
  undef "DUK_RET_SYNTAX_ERROR",
  code [w "const", w "duk_ret_t", w "DUK_RET_SYNTAX_ERROR", p ";"],
  popMacro "DUK_RET_SYNTAX_ERROR",
  blank,
  pushMacro "DUK_RET_TYPE_ERROR",
  undef "DUK_RET_TYPE_ERROR",
  code [w "const", w "duk_ret_t", w "DUK_RET_TYPE_ERROR", p ";"],
  popMacro "DUK_RET_TYPE_ERROR",
  blank,
  pushMacro "DUK_RET_URI_ERROR",
  undef "DUK_RET_URI_ERROR",
  code [w "const", w "duk_ret_t", w "DUK_RET_URI_ERROR", p ";"],
  popMacro "DUK_RET_URI_ERROR",
  blank,
  pushMacro "DUK_EXEC_SUCCESS",
  undef "DUK_EXEC_SUCCESS",
  code [w "const", w "duk_int_t", w "DUK_EXEC_SUCCESS", p ";"],
  popMacro "DUK_EXEC_SUCCESS",
  blank,
  pushMacro "DUK_EXEC_ERROR",
  undef "DUK_EXEC_ERROR",
  code [w "const", w "duk_int_t", w "DUK_EXEC_ERROR", p ";"],
  popMacro "DUK_EXEC_ERROR",
  blank,
  pushMacro "DUK_LEVEL_DEBUG",
  undef "DUK_LEVEL_DEBUG",
  code [w "const", w "long", w "DUK_LEVEL_DEBUG", p ";"],
  popMacro "DUK_LEVEL_DEBUG",
  blank,
  pushMacro "DUK_LEVEL_DDEBUG",
  undef "DUK_LEVEL_DDEBUG",
  code [w "const", w "long", w "DUK_LEVEL_DDEBUG", p ";"],
  popMacro "DUK_LEVEL_DDEBUG",
  blank,
  pushMacro "DUK_LEVEL_DDDEBUG",
  undef "DUK_LEVEL_DDDEBUG",
  code [w "const", w "long", w "DUK_LEVEL_DDDEBUG", p ";"],
  popMacro "DUK_LEVEL_DDDEBUG",
  blank,
  pushMacro "DUK_LOG_TRACE",
  undef "DUK_LOG_TRACE",
  code [w "const", w "duk_int_t", w "DUK_LOG_TRACE", p ";"],
  popMacro "DUK_LOG_TRACE",
  blank,
  pushMacro "DUK_LOG_DEBUG",
  undef "DUK_LOG_DEBUG",
  code [w "const", w "duk_int_t", w "DUK_LOG_DEBUG", p ";"],
  popMacro "DUK_LOG_DEBUG",
  blank,
  pushMacro "DUK_LOG_INFO",
  undef "DUK_LOG_INFO",
  code [w "const", w "duk_int_t", w "DUK_LOG_INFO", p ";"],
  popMacro "DUK_LOG_INFO",
  blank,
  pushMacro "DUK_LOG_WARN",
  undef "DUK_LOG_WARN",
  code [w "const", w "duk_int_t", w "DUK_LOG_WARN", p ";"],
  popMacro "DUK_LOG_WARN",
  blank,
  pushMacro "DUK_LOG_ERROR",
  undef "DUK_LOG_ERROR",
  code [w "const", w "duk_int_t", w "DUK_LOG_ERROR", p ";"],
  popMacro "DUK_LOG_ERROR",
  blank,
  pushMacro "DUK_LOG_FATAL",
  undef "DUK_LOG_FATAL",
  code [w "const", w "duk_int_t", w "DUK_LOG_FATAL", p ";"],
  popMacro "DUK_LOG_FATAL",
  blank,
  pushMacro "duk_create_heap_default",
  undef "duk_create_heap_default",
  code [w "duk_context", p "*", w "duk_create_heap_default", p "(", p ")", p ";"],
  popMacro "duk_create_heap_default",
  blank,
  pushMacro "duk_xmove_top",
  undef "duk_xmove_top",
  code [w "void", w "duk_xmove_top", p "(", w "duk_context", p "*", w "to_ctx", p ",", w "duk_context", p "*", w "from_ctx", p ",", w "duk_idx_t", w "count", p ")", p ";"],
  popMacro "duk_xmove_top",
  blank,
  pushMacro "duk_xcopy_top",
  undef "duk_xcopy_top",
  code [w "void", w "duk_xcopy_top", p "(", w "duk_context", p "*", w "to_ctx", p ",", w "duk_context", p "*", w "from_ctx", p ",", w "duk_idx_t", w "count", p ")", p ";"],
  popMacro "duk_xcopy_top",
  blank,
  pushMacro "duk_push_string_file",
  undef "duk_push_string_file",
  code [w "const", w "char", p "*", w "duk_push_string_file", p "(", w "duk_context", p "*", w "ctx", p ",", w "const", w "char", p "*", w "path", p ")", p ";"],
  popMacro "duk_push_string_file",
  blank,
  pushMacro "duk_push_thread",
  undef "duk_push_thread",
  code [w "duk_idx_t", w "duk_push_thread", p "(", w "duk_context", p "*", w "ctx", p ")", p ";"],
  popMacro "duk_push_thread",
  blank,
  pushMacro "duk_push_thread_new_globalenv",
  undef "duk_push_thread_new_globalenv",
  code [w "duk_idx_t", w "duk_push_thread_new_globalenv", p "(", w "duk_context", p "*", w "ctx", p ")", p ";"],
  popMacro "duk_push_thread_new_globalenv",
  blank,
  pushMacro "duk_push_error_object",
  undef "duk_push_error_object",
  code [w "duk_idx_t", w "duk_push_error_object", p "(", w "duk_context", p "*", w "ctx", p ",", w "duk_errcode_t", w "err_code", p ",", w "const", w "char", p "*", w "fmt", p ")", p ";"],
  popMacro "duk_push_error_object",
  blank,
  pushMacro "duk_push_buffer",
  undef "duk_push_buffer",
  code [w "void", p "*", w "duk_push_buffer", p "(", w "duk_context", p "*", w "ctx", p ",", w "duk_size_t", w "size", p ",", w "duk_bool_t", w "dynamic", p ")", p ";"],
  popMacro "duk_push_buffer",
  blank,
  pushMacro "duk_push_fixed_buffer",
  undef "duk_push_fixed_buffer",
  code [w "void", p "*", w "duk_push_fixed_buffer", p "(", w "duk_context", p "*", w "ctx", p ",", w "duk_size_t", w "size", p ")", p ";"],
  popMacro "duk_push_fixed_buffer",
  blank,
  pushMacro "duk_push_dynamic_buffer",
  undef "duk_push_dynamic_buffer",
  code [w "void", p "*", w "duk_push_dynamic_buffer", p "(", w "duk_context", p "*", w "ctx", p ",", w "duk_size_t", w "size", p ")", p ";"],
  popMacro "duk_push_dynamic_buffer",
  blank,
  pushMacro "duk_push_external_buffer",
  undef "duk_push_external_buffer",
  code [w "void", w "duk_push_external_buffer", p "(", w "duk_context", p "*", w "ctx", p ")", p ";"],
  popMacro "duk_push_external_buffer",
  blank,
  pushMacro "duk_is_callable",
  undef "duk_is_callable",
  code [w "duk_bool_t", w "duk_is_callable", p "(", w "duk_context", p "*", w "ctx", p ",", w "duk_idx_t", w "index", p ")", p ";"],
  popMacro "duk_is_callable",
  blank,
  pushMacro "duk_is_primitive",
  undef "duk_is_primitive",
  code [w "duk_bool_t", w "duk_is_primitive", p "(", w "duk_context", p "*", w "ctx", p ",", w "duk_idx_t", w "index", p ")", p ";"],
  popMacro "duk_is_primitive",
  blank,
  pushMacro "duk_is_object_coercible",
  undef "duk_is_object_coercible",
  code [w "duk_bool_t", w "duk_is_object_coercible", p "(", w "duk_context", p "*", w "ctx", p ",", w "duk_idx_t", w "index", p ")", p ";"],
  popMacro "duk_is_object_coercible",
  blank,
  pushMacro "duk_is_error",
  undef "duk_is_error",
  code [w "duk_bool_t", w "duk_is_error", p "(", w "duk_context", p "*", w "ctx", p ",", w "duk_idx_t", w "index", p ")", p ";"],
  popMacro "duk_is_error",
  blank,
  pushMacro "duk_is_eval_error",
  undef "duk_is_eval_error",
  code [w "duk_bool_t", w "duk_is_eval_error", p "(", w "duk_context", p "*", w "ctx", p ",", w "duk_idx_t", w "index", p ")", p ";"],
  popMacro "duk_is_eval_error",
  blank,
  pushMacro "duk_is_range_error",
  undef "duk_is_range_error",
  code [w "duk_bool_t", w "duk_is_range_error", p "(", w "duk_context", p "*", w "ctx", p ",", w "duk_idx_t", w "index", p ")", p ";"],
  popMacro "duk_is_range_error",
  blank,
  pushMacro "duk_is_reference_error",
  undef "duk_is_reference_error",
  code [w "duk_bool_t", w "duk_is_reference_error", p "(", w "duk_context", p "*", w "ctx", p ",", w "duk_idx_t", w "index", p ")", p ";"],
  popMacro "duk_is_reference_error",
  blank,
  pushMacro "duk_is_syntax_error",
  undef "duk_is_syntax_error",
  code [w "duk_bool_t", w "duk_is_syntax_error", p "(", w "duk_context", p "*", w "ctx", p ",", w "duk_idx_t", w "index", p ")", p ";"],
  popMacro "duk_is_syntax_error",
  blank,
  pushMacro "duk_is_type_error",
  undef "duk_is_type_error",
  code [w "duk_bool_t", w "duk_is_type_error", p "(", w "duk_context", p "*", w "ctx", p ",", w "duk_idx_t", w "index", p ")", p ";"],
  popMacro "duk_is_type_error",
  blank,
  pushMacro "duk_is_uri_error",
  undef "duk_is_uri_error",
  code [w "duk_bool_t", w "duk_is_uri_error", p "(", w "duk_context", p "*", w "ctx", p ",", w "duk_idx_t", w "index", p ")", p ";"],
  popMacro "duk_is_uri_error",
  blank,
  pushMacro "duk_require_type_mask",
  undef "duk_require_type_mask",
  code [w "void", w "duk_require_type_mask", p "(", w "duk_context", p "*", w "ctx", p ",", w "duk_idx_t", w "index", p ",", w "duk_uint_t", w "mask", p ")", p ";"],
  popMacro "duk_require_type_mask",
  blank,
  pushMacro "duk_require_callable",
  undef "duk_require_callable",
  code [w "void", w "duk_require_callable", p "(", w "duk_context", p "*", w "ctx", p ",", w "duk_idx_t", w "index", p ")", p ";"],
  popMacro "duk_require_callable",
  blank,
  pushMacro "duk_require_object_coercible",
  undef "duk_require_object_coercible",
  code [w "void", w "duk_require_object_coercible", p "(", w "duk_context", p "*", w "ctx", p ",", w "duk_idx_t", w "index", p ")", p ";"],
  popMacro "duk_require_object_coercible",
  blank,
  pushMacro "duk_to_buffer",
  undef "duk_to_buffer",
  code [w "void", p "*", w "duk_to_buffer", p "(", w "duk_context", p "*", w "ctx", p ",", w "duk_idx_t", w "index", p ",", w "duk_size_t", p "*", w "out_size", p ")", p ";"],
  popMacro "duk_to_buffer",
  blank,
  pushMacro "duk_to_fixed_buffer",
  undef "duk_to_fixed_buffer",
  code [w "void", p "*", w "duk_to_fixed_buffer", p "(", w "duk_context", p "*", w "ctx", p ",", w "duk_idx_t", w "index", p ",", w "duk_size_t", p "*", w "out_size", p ")", p ";"],
  popMacro "duk_to_fixed_buffer",
  blank,
  pushMacro "duk_to_dynamic_buffer",
  undef "duk_to_dynamic_buffer",
  code [w "void", p "*", w "duk_to_dynamic_buffer", p "(", w "duk_context", p "*", w "ctx", p ",", w "duk_idx_t", w "index", p ",", w "duk_size_t", p "*", w "out_size", p ")", p ";"],
  popMacro "duk_to_dynamic_buffer",
  blank,
  pushMacro "duk_safe_to_string",
  undef "duk_safe_to_string",
  code [w "const", w "char", p "*", w "duk_safe_to_string", p "(", w "duk_context", p "*", w "ctx", p ",", w "duk_idx_t", w "index", p ")", p ";"],
  popMacro "duk_safe_to_string",
  blank,
  pushMacro "duk_eval",
  undef "duk_eval",
  code [w "void", w "duk_eval", p "(", w "duk_context", p "*", w "ctx", p ")", p ";"],
  popMacro "duk_eval",
  blank,
  pushMacro "duk_eval_noresult",
  undef "duk_eval_noresult",
  code [w "void", w "duk_eval_noresult", p "(", w "duk_context", p "*", w "ctx", p ")", p ";"],
  popMacro "duk_eval_noresult",
  blank,
  pushMacro "duk_peval",
  undef "duk_peval",
  code [w "duk_int_t", w "duk_peval", p "(", w "duk_context", p "*", w "ctx", p ")", p ";"],
  popMacro "duk_peval",
  blank,
  pushMacro "duk_peval_noresult",
  undef "duk_peval_noresult",
  code [w "duk_int_t", w "duk_peval_noresult", p "(", w "duk_context", p "*", w "ctx", p ")", p ";"],
  popMacro "duk_peval_noresult",
  blank,
  pushMacro "duk_compile",
  undef "duk_compile",
  code [w "void", w "duk_compile", p "(", w "duk_context", p "*", w "ctx", p ",", w "duk_uint_t", w "flags", p ")", p ";"],
  popMacro "duk_compile",
  blank,
  pushMacro "duk_pcompile",
  undef "duk_pcompile",
  code [w "duk_int_t", w "duk_pcompile", p "(", w "duk_context", p "*", w "ctx", p ",", w "duk_uint_t", w "flags", p ")", p ";"],
  popMacro "duk_pcompile",
  blank,
  pushMacro "duk_eval_string",
  undef "duk_eval_string",
  code [w "void", w "duk_eval_string", p "(", w "duk_context", p "*", w "ctx", p ",", w "const", w "char", p "*", w "src", p ")", p ";"],
  popMacro "duk_eval_string",
  blank,
  pushMacro "duk_eval_string_noresult",
  undef "duk_eval_string_noresult",
  code [w "void", w "duk_eval_string_noresult", p "(", w "duk_context", p "*", w "ctx", p ",", w "const", w "char", p "*", w "src", p ")", p ";"],
  popMacro "duk_eval_string_noresult",
  blank,
  pushMacro "duk_peval_string",
  undef "duk_peval_string",
  code [w "duk_int_t", w "duk_peval_string", p "(", w "duk_context", p "*", w "ctx", p ",", w "const", w "char", p "*", w "src", p ")", p ";"],
  popMacro "duk_peval_string",
  blank,
  pushMacro "duk_peval_string_noresult",
  undef "duk_peval_string_noresult",
  code [w "duk_int_t", w "duk_peval_string_noresult", p "(", w "duk_context", p "*", w "ctx", p ",", w "const", w "char", p "*", w "src", p ")", p ";"],
  popMacro "duk_peval_string_noresult",
  blank,
  pushMacro "duk_compile_string",
  undef "duk_compile_string",
  code [w "void", w "duk_compile_string", p "(", w "duk_context", p "*", w "ctx", p ",", w "duk_uint_t", w "flags", p ",", w "const", w "char", p "*", w "src", p ")", p ";"],
  popMacro "duk_compile_string",
  blank,
  pushMacro "duk_compile_string_filename",
  undef "duk_compile_string_filename",
  code [w "void", w "duk_compile_string_filename", p "(", w "duk_context", p "*", w "ctx", p ",", w "duk_uint_t", w "flags", p ",", w "const", w "char", p "*", w "src", p ")", p ";"],
  popMacro "duk_compile_string_filename",
  blank,
  pushMacro "duk_pcompile_string",
  undef "duk_pcompile_string",
  code [w "duk_int_t", w "duk_pcompile_string", p "(", w "duk_context", p "*", w "ctx", p ",", w "duk_uint_t", w "flags", p ",", w "const", w "char", p "*", w "src", p ")", p ";"],
  popMacro "duk_pcompile_string",
  blank,
  pushMacro "duk_pcompile_string_filename",
  undef "duk_pcompile_string_filename",
  code [w "duk_int_t", w "duk_pcompile_string_filename", p "(", w "duk_context", p "*", w "ctx", p ",", w "duk_uint_t", w "flags", p ",", w "const", w "char", p "*", w "src", p ")", p ";"],
  popMacro "duk_pcompile_string_filename",
  blank,
  pushMacro "duk_eval_lstring",
  undef "duk_eval_lstring",
  code [w "void", w "duk_eval_lstring", p "(", w "duk_context", p "*", w "ctx", p ",", w "const", w "char", p "*", w "buf", p ",", w "duk_size_t", w "len", p ")", p ";"],
  popMacro "duk_eval_lstring",
  blank,
  pushMacro "duk_eval_lstring_noresult",
  undef "duk_eval_lstring_noresult",
  code [w "void", w "duk_eval_lstring_noresult", p "(", w "duk_context", p "*", w "ctx", p ",", w "const", w "char", p "*", w "buf", p ",", w "duk_size_t", w "len", p ")", p ";"],
  popMacro "duk_eval_lstring_noresult",
  blank,
  pushMacro "duk_peval_lstring",
  undef "duk_peval_lstring",
  code [w "duk_int_t", w "duk_peval_lstring", p "(", w "duk_context", p "*", w "ctx", p ",", w "const", w "char", p "*", w "buf", p ",", w "duk_size_t", w "len", p ")", p ";"],
  popMacro "duk_peval_lstring",
  blank,
  pushMacro "duk_peval_lstring_noresult",
  undef "duk_peval_lstring_noresult",
  code [w "duk_int_t", w "duk_peval_lstring_noresult", p "(", w "duk_context", p "*", w "ctx", p ",", w "const", w "char", p "*", w "buf", p ",", w "duk_size_t", w "len", p ")", p ";"],
  popMacro "duk_peval_lstring_noresult",
  blank,
  pushMacro "duk_compile_lstring",
  undef "duk_compile_lstring",
  code [w "void", w "duk_compile_lstring", p "(", w "duk_context", p "*", w "ctx", p ",", w "duk_uint_t", w "flags", p ",", w "const", w "char", p "*", w "buf", p ",", w "duk_size_t", w "len", p ")", p ";"],
  popMacro "duk_compile_lstring",
  blank,
  pushMacro "duk_compile_lstring_filename",
  undef "duk_compile_lstring_filename",
  code [w "void", w "duk_compile_lstring_filename", p "(", w "duk_context", p "*", w "ctx", p ",", w "duk_uint_t", w "flags", p ",", w "const", w "char", p "*", w "buf", p ",", w "duk_size_t", w "len", p ")", p ";"],
  popMacro "duk_compile_lstring_filename",
  blank,
  pushMacro "duk_pcompile_lstring",
  undef "duk_pcompile_lstring",
  code [w "duk_int_t", w "duk_pcompile_lstring", p "(", w "duk_context", p "*", w "ctx", p ",", w "duk_uint_t", w "flags", p ",", w "const", w "char", p "*", w "buf", p ",", w "duk_size_t", w "len", p ")", p ";"],
  popMacro "duk_pcompile_lstring",
  blank,
  pushMacro "duk_pcompile_lstring_filename",
  undef "duk_pcompile_lstring_filename",
  code [w "duk_int_t", w "duk_pcompile_lstring_filename", p "(", w "duk_context", p "*", w "ctx", p ",", w "duk_uint_t", w "flags", p ",", w "const", w "char", p "*", w "buf", p ",", w "duk_size_t", w "len", p ")", p ";"],
  popMacro "duk_pcompile_lstring_filename",
  blank,
  pushMacro "duk_eval_file",
  undef "duk_eval_file",
  code [w "void", w "duk_eval_file", p "(", w "duk_context", p "*", w "ctx", p ",", w "const", w "char", p "*", w "path", p ")", p ";"],
  popMacro "duk_eval_file",
  blank,
  pushMacro "duk_eval_file_noresult",
  undef "duk_eval_file_noresult",
  code [w "void", w "duk_eval_file_noresult", p "(", w "duk_context", p "*", w "ctx", p ",", w "const", w "char", p "*", w "path", p ")", p ";"],
  popMacro "duk_eval_file_noresult",
  blank,
  pushMacro "duk_peval_file",
  undef "duk_peval_file",
  code [w "duk_int_t", w "duk_peval_file", p "(", w "duk_context", p "*", w "ctx", p ",", w "const", w "char", p "*", w "path", p ")", p ";"],
  popMacro "duk_peval_file",
  blank,
  pushMacro "duk_peval_file_noresult",
  undef "duk_peval_file_noresult",
  code [w "duk_int_t", w "duk_peval_file_noresult", p "(", w "duk_context", p "*", w "ctx", p ",", w "const", w "char", p "*", w "path", p ")", p ";"],
  popMacro "duk_peval_file_noresult",
  blank,
  pushMacro "duk_compile_file",
  undef "duk_compile_file",
  code [w "void", w "duk_compile_file", p "(", w "duk_context", p "*", w "ctx", p ",", w "duk_uint_t", w "flags", p ",", w "const", w "char", p "*", w "path", p ")", p ";"],
  popMacro "duk_compile_file",
  blank,
  pushMacro "duk_pcompile_file",
  undef "duk_pcompile_file",
  code [w "duk_int_t", w "duk_pcompile_file", p "(", w "duk_context", p "*", w "ctx", p ",", w "duk_uint_t", w "flags", p ",", w "const", w "char", p "*", w "path", p ")", p ";"],
  popMacro "duk_pcompile_file",
  blank,
  pushMacro "duk_dump_context_stdout",
  undef "duk_dump_context_stdout",
  code [w "void", w "duk_dump_context_stdout", p "(", w "duk_context", p "*", w "ctx", p ")", p ";"],
  popMacro "duk_dump_context_stdout",
  blank,
  pushMacro "duk_dump_context_stderr",
  undef "duk_dump_context_stderr",
  code [w "void", w "duk_dump_context_stderr", p "(", w "duk_context", p "*", w "ctx", p ")", p ";"],
  popMacro "duk_dump_context_stderr"
]

open Tok Line in
/-- The lines of `src/wrapper.c`, in order. -/
def wrapper_c : List Line := [
  includeFile "wrapper.h",
  blank,
  pushMacro "DUK_VERSION",
  undef "DUK_VERSION",
  code [w "const", w "duk_uint_t", w "DUK_VERSION", p "="],
  popMacro "DUK_VERSION",
  code [w "DUK_VERSION", p ";"],
  blank,
  pushMacro "DUK_GIT_COMMIT",
  undef "DUK_GIT_COMMIT",
  code [w "const", w "char", p "*", w "const", w "DUK_GIT_COMMIT", p "="],
  popMacro "DUK_GIT_COMMIT",
  code [w "DUK_GIT_COMMIT", p ";"],
  blank,
  pushMacro "DUK_GIT_DESCRIBE",
  undef "DUK_GIT_DESCRIBE",
  code [w "const", w "char", p "*", w "const", w "DUK_GIT_DESCRIBE", p "="],
  popMacro "DUK_GIT_DESCRIBE",
  code [w "DUK_GIT_DESCRIBE", p ";"],
  blank,
  pushMacro "DUK_GIT_BRANCH",
  undef "DUK_GIT_BRANCH",
  code [w "const", w "char", p "*", w "const", w "DUK_GIT_BRANCH", p "="],
  popMacro "DUK_GIT_BRANCH",
  code [w "DUK_GIT_BRANCH", p ";"],
  blank,
  pushMacro "DUK_DEBUG_PROTOCOL_VERSION",
  undef "DUK_DEBUG_PROTOCOL_VERSION",
  code [w "const", w "duk_uint_t", w "DUK_DEBUG_PROTOCOL_VERSION", p "="],
  popMacro "DUK_DEBUG_PROTOCOL_VERSION",
  code [w "DUK_DEBUG_PROTOCOL_VERSION", p ";"],
  blank,
  pushMacro "DUK_INVALID_INDEX",
  undef "DUK_INVALID_INDEX",
  code [w "const", w "duk_idx_t", w "DUK_INVALID_INDEX", p "="],
  popMacro "DUK_INVALID_INDEX",
  code [w "DUK_INVALID_INDEX", p ";"],
  blank,
  pushMacro "DUK_VARARGS",
  undef "DUK_VARARGS",
  code [w "const", w "duk_int_t", w "DUK_VARARGS", p "="],
  popMacro "DUK_VARARGS",
  code [w "DUK_VARARGS", p ";"],
  blank,
  pushMacro "DUK_API_ENTRY_STACK",
  undef "DUK_API_ENTRY_STACK",
  code [w "const", w "duk_size_t", w "DUK_API_ENTRY_STACK", p "="],
  popMacro "DUK_API_ENTRY_STACK",
  code [w "DUK_API_ENTRY_STACK", p ";"],
  blank,
  pushMacro "DUK_TYPE_MIN",
  undef "DUK_TYPE_MIN",
  code [w "const", w "duk_int_t", w "DUK_TYPE_MIN", p "="],
  popMacro "DUK_TYPE_MIN",
  code [w "DUK_TYPE_MIN", p ";"],
  blank,
  pushMacro "DUK_TYPE_NONE",
  undef "DUK_TYPE_NONE",
  code [w "const", w "duk_int_t", w "DUK_TYPE_NONE", p "="],
  popMacro "DUK_TYPE_NONE",
  code [w "DUK_TYPE_NONE", p ";"],
  blank,
  pushMacro "DUK_TYPE_UNDEFINED",
  undef "DUK_TYPE_UNDEFINED",
  code [w "const", w "duk_int_t", w "DUK_TYPE_UNDEFINED", p "="],
  popMacro "DUK_TYPE_UNDEFINED",
  code [w "DUK_TYPE_UNDEFINED", p ";"],
  blank,
  pushMacro "DUK_TYPE_NULL",
  undef "DUK_TYPE_NULL",
  code [w "const", w "duk_int_t", w "DUK_TYPE_NULL", p "="],
  popMacro "DUK_TYPE_NULL",
  code [w "DUK_TYPE_NULL", p ";"],
  blank,
  pushMacro "DUK_TYPE_BOOLEAN",
  undef "DUK_TYPE_BOOLEAN",
  code [w "const", w "duk_int_t", w "DUK_TYPE_BOOLEAN", p "="],
  popMacro "DUK_TYPE_BOOLEAN",
  code [w "DUK_TYPE_BOOLEAN", p ";"],
  blank,
  pushMacro "DUK_TYPE_NUMBER",
  undef "DUK_TYPE_NUMBER",
  code [w "const", w "duk_int_t", w "DUK_TYPE_NUMBER", p "="],
  popMacro "DUK_TYPE_NUMBER",
  code [w "DUK_TYPE_NUMBER", p ";"],
  blank,
  pushMacro "DUK_TYPE_STRING",
  undef "DUK_TYPE_STRING",
  code [w "const", w "duk_int_t", w "DUK_TYPE_STRING", p "="],
  popMacro "DUK_TYPE_STRING",
  code [w "DUK_TYPE_STRING", p ";"],
  blank,
  pushMacro "DUK_TYPE_OBJECT",
  undef "DUK_TYPE_OBJECT",
  code [w "const", w "duk_int_t", w "DUK_TYPE_OBJECT", p "="],
  popMacro "DUK_TYPE_OBJECT",
  code [w "DUK_TYPE_OBJECT", p ";"],
  blank,
  pushMacro "DUK_TYPE_BUFFER",
  undef "DUK_TYPE_BUFFER",
  code [w "const", w "duk_int_t", w "DUK_TYPE_BUFFER", p "="],
  popMacro "DUK_TYPE_BUFFER",
  code [w "DUK_TYPE_BUFFER", p ";"],
  blank,
  pushMacro "DUK_TYPE_POINTER",
  undef "DUK_TYPE_POINTER",
  code [w "const", w "duk_int_t", w "DUK_TYPE_POINTER", p "="],
  popMacro "DUK_TYPE_POINTER",
  code [w "DUK_TYPE_POINTER", p ";"],
  blank,
  pushMacro "DUK_TYPE_LIGHTFUNC",
  undef "DUK_TYPE_LIGHTFUNC",
  code [w "const", w "duk_int_t", w "DUK_TYPE_LIGHTFUNC", p "="],
  popMacro "DUK_TYPE_LIGHTFUNC",
  code [w "DUK_TYPE_LIGHTFUNC", p ";"],
  blank,
  pushMacro "DUK_TYPE_MAX",
  undef "DUK_TYPE_MAX",
  code [w "const", w "duk_int_t", w "DUK_TYPE_MAX", p "="],
  popMacro "DUK_TYPE_MAX",
  code [w "DUK_TYPE_MAX", p ";"],
  blank,
  pushMacro "DUK_TYPE_MASK_NONE",
  undef "DUK_TYPE_MASK_NONE",
  code [w "const", w "duk_uint_t", w "DUK_TYPE_MASK_NONE", p "="],
  popMacro "DUK_TYPE_MASK_NONE",
  code [w "DUK_TYPE_MASK_NONE", p ";"],
  blank,
  pushMacro "DUK_TYPE_MASK_UNDEFINED",
  undef "DUK_TYPE_MASK_UNDEFINED",
  code [w "const", w "duk_uint_t", w "DUK_TYPE_MASK_UNDEFINED", p "="],
  popMacro "DUK_TYPE_MASK_UNDEFINED",
  code [w "DUK_TYPE_MASK_UNDEFINED", p ";"],
  blank,
  pushMacro "DUK_TYPE_MASK_NULL",
  undef "DUK_TYPE_MASK_NULL",
  code [w "const", w "duk_uint_t", w "DUK_TYPE_MASK_NULL", p "="],
  popMacro "DUK_TYPE_MASK_NULL",
  code [w "DUK_TYPE_MASK_NULL", p ";"],
  blank,
  pushMacro "DUK_TYPE_MASK_BOOLEAN",
  undef "DUK_TYPE_MASK_BOOLEAN",
  code [w "const", w "duk_uint_t", w "DUK_TYPE_MASK_BOOLEAN", p "="],
  popMacro "DUK_TYPE_MASK_BOOLEAN",
  code [w "DUK_TYPE_MASK_BOOLEAN", p ";"],
  blank,
  pushMacro "DUK_TYPE_MASK_NUMBER",
  undef "DUK_TYPE_MASK_NUMBER",
  code [w "const", w "duk_uint_t", w "DUK_TYPE_MASK_NUMBER", p "="],
  popMacro "DUK_TYPE_MASK_NUMBER",
  code [w "DUK_TYPE_MASK_NUMBER", p ";"],
  blank,
  pushMacro "DUK_TYPE_MASK_STRING",
  undef "DUK_TYPE_MASK_STRING",
  code [w "const", w "duk_uint_t", w "DUK_TYPE_MASK_STRING", p "="],
  popMacro "DUK_TYPE_MASK_STRING",
  code [w "DUK_TYPE_MASK_STRING", p ";"],
  blank,
  pushMacro "DUK_TYPE_MASK_OBJECT",
  undef "DUK_TYPE_MASK_OBJECT",
  code [w "const", w "duk_uint_t", w "DUK_TYPE_MASK_OBJECT", p "="],
  popMacro "DUK_TYPE_MASK_OBJECT",
  code [w "DUK_TYPE_MASK_OBJECT", p ";"],
  blank,
  pushMacro "DUK_TYPE_MASK_BUFFER",
  undef "DUK_TYPE_MASK_BUFFER",
  code [w "const", w "duk_uint_t", w "DUK_TYPE_MASK_BUFFER", p "="],
  popMacro "DUK_TYPE_MASK_BUFFER",
  code [w "DUK_TYPE_MASK_BUFFER", p ";"],
  blank,
  pushMacro "DUK_TYPE_MASK_POINTER",
  undef "DUK_TYPE_MASK_POINTER",
  code [w "const", w "duk_uint_t", w "DUK_TYPE_MASK_POINTER", p "="],
  popMacro "DUK_TYPE_MASK_POINTER",
  code [w "DUK_TYPE_MASK_POINTER", p ";"],
  blank,
  pushMacro "DUK_TYPE_MASK_LIGHTFUNC",
  undef "DUK_TYPE_MASK_LIGHTFUNC",
  code [w "const", w "duk_uint_t", w "DUK_TYPE_MASK_LIGHTFUNC", p "="],
  popMacro "DUK_TYPE_MASK_LIGHTFUNC",
  code [w "DUK_TYPE_MASK_LIGHTFUNC", p ";"],
  blank,
  pushMacro "DUK_TYPE_MASK_THROW",
  undef "DUK_TYPE_MASK_THROW",
  code [w "const", w "duk_uint_t", w "DUK_TYPE_MASK_THROW", p "="],
  popMacro "DUK_TYPE_MASK_THROW",
  code [w "DUK_TYPE_MASK_THROW", p ";"],
  blank,
  pushMacro "DUK_HINT_NONE",
  undef "DUK_HINT_NONE",
  code [w "const", w "duk_int_t", w "DUK_HINT_NONE", p "="],
  popMacro "DUK_HINT_NONE",
  code [w "DUK_HINT_NONE", p ";"],
  blank,
  pushMacro "DUK_HINT_STRING",
  undef "DUK_HINT_STRING",
  code [w "const", w "duk_int_t", w "DUK_HINT_STRING", p "="],
  popMacro "DUK_HINT_STRING",
  code [w "DUK_HINT_STRING", p ";"],
  blank,
  pushMacro "DUK_HINT_NUMBER",
  undef "DUK_HINT_NUMBER",
  code [w "const", w "duk_int_t", w "DUK_HINT_NUMBER", p "="],
  popMacro "DUK_HINT_NUMBER",
  code [w "DUK_HINT_NUMBER", p ";"],
  blank,
  pushMacro "DUK_ENUM_INCLUDE_NONENUMERABLE",
  undef "DUK_ENUM_INCLUDE_NONENUMERABLE",
  code [w "const", w "duk_uint_t", w "DUK_ENUM_INCLUDE_NONENUMERABLE", p "="],
  popMacro "DUK_ENUM_INCLUDE_NONENUMERABLE",
  code [w "DUK_ENUM_INCLUDE_NONENUMERABLE", p ";"],
  blank,
  pushMacro "DUK_ENUM_OWN_PROPERTIES_ONLY",
  undef "DUK_ENUM_OWN_PROPERTIES_ONLY",
  code [w "const", w "duk_uint_t", w "DUK_ENUM_OWN_PROPERTIES_ONLY", p "="],
  popMacro "DUK_ENUM_OWN_PROPERTIES_ONLY",
  code [w "DUK_ENUM_OWN_PROPERTIES_ONLY", p ";"],
  blank,
  pushMacro "DUK_ENUM_ARRAY_INDICES_ONLY",
  undef "DUK_ENUM_ARRAY_INDICES_ONLY",
  code [w "const", w "duk_uint_t", w "DUK_ENUM_ARRAY_INDICES_ONLY", p "="],
  popMacro "DUK_ENUM_ARRAY_INDICES_ONLY",
  code [w "DUK_ENUM_ARRAY_INDICES_ONLY", p ";"],
  blank,
  pushMacro "DUK_ENUM_SORT_ARRAY_INDICES",
  undef "DUK_ENUM_SORT_ARRAY_INDICES",
  code [w "const", w "duk_uint_t", w "DUK_ENUM_SORT_ARRAY_INDICES", p "="],
  popMacro "DUK_ENUM_SORT_ARRAY_INDICES",
  code [w "DUK_ENUM_SORT_ARRAY_INDICES", p ";"],
  blank,
  pushMacro "DUK_ENUM_NO_PROXY_BEHAVIOR",
  undef "DUK_ENUM_NO_PROXY_BEHAVIOR",
  code [w "const", w "duk_uint_t", w "DUK_ENUM_NO_PROXY_BEHAVIOR", p "="],
  popMacro "DUK_ENUM_NO_PROXY_BEHAVIOR",
  code [w "DUK_ENUM_NO_PROXY_BEHAVIOR", p ";"],
  blank,
  pushMacro "DUK_COMPILE_EVAL",
  undef "DUK_COMPILE_EVAL",
  code [w "const", w "duk_uint_t", w "DUK_COMPILE_EVAL", p "="],
  popMacro "DUK_COMPILE_EVAL",
  code [w "DUK_COMPILE_EVAL", p ";"],
  blank,
  pushMacro "DUK_COMPILE_FUNCTION",
  undef "DUK_COMPILE_FUNCTION",
  code [w "const", w "duk_uint_t", w "DUK_COMPILE_FUNCTION", p "="],
  popMacro "DUK_COMPILE_FUNCTION",
  code [w "DUK_COMPILE_FUNCTION", p ";"],
  blank,
  pushMacro "DUK_COMPILE_STRICT",
  undef "DUK_COMPILE_STRICT",
  code [w "const", w "duk_uint_t", w "DUK_COMPILE_STRICT", p "="],
  popMacro "DUK_COMPILE_STRICT",
  code [w "DUK_COMPILE_STRICT", p ";"],
  blank,
  pushMacro "DUK_COMPILE_SAFE",
  undef "DUK_COMPILE_SAFE",
  code [w "const", w "duk_uint_t", w "DUK_COMPILE_SAFE", p "="],
  popMacro "DUK_COMPILE_SAFE",
  code [w "DUK_COMPILE_SAFE", p ";"],
  blank,
  pushMacro "DUK_COMPILE_NORESULT",
  undef "DUK_COMPILE_NORESULT",
  code [w "const", w "duk_uint_t", w "DUK_COMPILE_NORESULT", p "="],
  popMacro "DUK_COMPILE_NORESULT",
  code [w "DUK_COMPILE_NORESULT", p ";"],
  blank,
  pushMacro "DUK_COMPILE_NOSOURCE",
  undef "DUK_COMPILE_NOSOURCE",
  code [w "const", w "duk_uint_t", w "DUK_COMPILE_NOSOURCE", p "="],
  popMacro "DUK_COMPILE_NOSOURCE",
  code [w "DUK_COMPILE_NOSOURCE", p ";"],
  blank,
  pushMacro "DUK_COMPILE_STRLEN",
  undef "DUK_COMPILE_STRLEN",
  code [w "const", w "duk_uint_t", w "DUK_COMPILE_STRLEN", p "="],
  popMacro "DUK_COMPILE_STRLEN",
  code [w "DUK_COMPILE_STRLEN", p ";"],
  blank,
  pushMacro "DUK_COMPILE_NOFILENAME",
  undef "DUK_COMPILE_NOFILENAME",
  code [w "const", w "duk_uint_t", w "DUK_COMPILE_NOFILENAME", p "="],
  popMacro "DUK_COMPILE_NOFILENAME",
  code [w "DUK_COMPILE_NOFILENAME", p ";"],
  blank,
  pushMacro "DUK_DEFPROP_WRITABLE",
  undef "DUK_DEFPROP_WRITABLE",
  code [w "const", w "duk_uint_t", w "DUK_DEFPROP_WRITABLE", p "="],
  popMacro "DUK_DEFPROP_WRITABLE",
  code [w "DUK_DEFPROP_WRITABLE", p ";"],
  blank,
  pushMacro "DUK_DEFPROP_ENUMERABLE",
  undef "DUK_DEFPROP_ENUMERABLE",
  code [w "const", w "duk_uint_t", w "DUK_DEFPROP_ENUMERABLE", p "="],
  popMacro "DUK_DEFPROP_ENUMERABLE",
  code [w "DUK_DEFPROP_ENUMERABLE", p ";"],
  blank,
  pushMacro "DUK_DEFPROP_CONFIGURABLE",
  undef "DUK_DEFPROP_CONFIGURABLE",
  code [w "const", w "duk_uint_t", w "DUK_DEFPROP_CONFIGURABLE", p "="],
  popMacro "DUK_DEFPROP_CONFIGURABLE",
  code [w "DUK_DEFPROP_CONFIGURABLE", p ";"],
  blank,
  pushMacro "DUK_DEFPROP_HAVE_WRITABLE",
  undef "DUK_DEFPROP_HAVE_WRITABLE",
  code [w "const", w "duk_uint_t", w "DUK_DEFPROP_HAVE_WRITABLE", p "="],
  popMacro "DUK_DEFPROP_HAVE_WRITABLE",
  code [w "DUK_DEFPROP_HAVE_WRITABLE", p ";"],
  blank,
  pushMacro "DUK_DEFPROP_HAVE_ENUMERABLE",
  undef "DUK_DEFPROP_HAVE_ENUMERABLE",
  code [w "const", w "duk_uint_t", w "DUK_DEFPROP_HAVE_ENUMERABLE", p "="],
  popMacro "DUK_DEFPROP_HAVE_ENUMERABLE",
  code [w "DUK_DEFPROP_HAVE_ENUMERABLE", p ";"],
  blank,
  pushMacro "DUK_DEFPROP_HAVE_CONFIGURABLE",
  undef "DUK_DEFPROP_HAVE_CONFIGURABLE",
  code [w "const", w "duk_uint_t", w "DUK_DEFPROP_HAVE_CONFIGURABLE", p "="],
  popMacro "DUK_DEFPROP_HAVE_CONFIGURABLE",
  code [w "DUK_DEFPROP_HAVE_CONFIGURABLE", p ";"],
  blank,
  pushMacro "DUK_DEFPROP_HAVE_VALUE",
  undef "DUK_DEFPROP_HAVE_VALUE",
  code [w "const", w "duk_uint_t", w "DUK_DEFPROP_HAVE_VALUE", p "="],
  popMacro "DUK_DEFPROP_HAVE_VALUE",
  code [w "DUK_DEFPROP_HAVE_VALUE", p ";"],
  blank,
  pushMacro "DUK_DEFPROP_HAVE_GETTER",
  undef "DUK_DEFPROP_HAVE_GETTER",
  code [w "const", w "duk_uint_t", w "DUK_DEFPROP_HAVE_GETTER", p "="],
  popMacro "DUK_DEFPROP_HAVE_GETTER",
  code [w "DUK_DEFPROP_HAVE_GETTER", p ";"],
  blank,
  pushMacro "DUK_DEFPROP_HAVE_SETTER",
  undef "DUK_DEFPROP_HAVE_SETTER",
  code [w "const", w "duk_uint_t", w "DUK_DEFPROP_HAVE_SETTER", p "="],
  popMacro "DUK_DEFPROP_HAVE_SETTER",
  code [w "DUK_DEFPROP_HAVE_SETTER", p ";"],
  blank,
  pushMacro "DUK_DEFPROP_FORCE",
  undef "DUK_DEFPROP_FORCE",
  code [w "const", w "duk_uint_t", w "DUK_DEFPROP_FORCE", p "="],
  popMacro "DUK_DEFPROP_FORCE",
  code [w "DUK_DEFPROP_FORCE", p ";"],
  blank,
  pushMacro "DUK_DEFPROP_SET_WRITABLE",
  undef "DUK_DEFPROP_SET_WRITABLE",
  code [w "const", w "duk_uint_t", w "DUK_DEFPROP_SET_WRITABLE", p "="],
  popMacro "DUK_DEFPROP_SET_WRITABLE",
  code [w "DUK_DEFPROP_SET_WRITABLE", p ";"],
  blank,
  pushMacro "DUK_DEFPROP_CLEAR_WRITABLE",
  undef "DUK_DEFPROP_CLEAR_WRITABLE",
  code [w "const", w "duk_uint_t", w "DUK_DEFPROP_CLEAR_WRITABLE", p "="],
  popMacro "DUK_DEFPROP_CLEAR_WRITABLE",
  code [w "DUK_DEFPROP_CLEAR_WRITABLE", p ";"],
  blank,
  pushMacro "DUK_DEFPROP_SET_ENUMERABLE",
  undef "DUK_DEFPROP_SET_ENUMERABLE",
  code [w "const", w "duk_uint_t", w "DUK_DEFPROP_SET_ENUMERABLE", p "="],
  popMacro "DUK_DEFPROP_SET_ENUMERABLE",
  code [w "DUK_DEFPROP_SET_ENUMERABLE", p ";"],
  blank,
  pushMacro "DUK_DEFPROP_CLEAR_ENUMERABLE",
  undef "DUK_DEFPROP_CLEAR_ENUMERABLE",
  code [w "const", w "duk_uint_t", w "DUK_DEFPROP_CLEAR_ENUMERABLE", p "="],
  popMacro "DUK_DEFPROP_CLEAR_ENUMERABLE",
  code [w "DUK_DEFPROP_CLEAR_ENUMERABLE", p ";"],
  blank,
  pushMacro "DUK_DEFPROP_SET_CONFIGURABLE",
  undef "DUK_DEFPROP_SET_CONFIGURABLE",
  code [w "const", w "duk_uint_t", w "DUK_DEFPROP_SET_CONFIGURABLE", p "="],
  popMacro "DUK_DEFPROP_SET_CONFIGURABLE",
  code [w "DUK_DEFPROP_SET_CONFIGURABLE", p ";"],
  blank,
  pushMacro "DUK_DEFPROP_CLEAR_CONFIGURABLE",
  undef "DUK_DEFPROP_CLEAR_CONFIGURABLE",
  code [w "const", w "duk_uint_t", w "DUK_DEFPROP_CLEAR_CONFIGURABLE", p "="],
  popMacro "DUK_DEFPROP_CLEAR_CONFIGURABLE",
  code [w "DUK_DEFPROP_CLEAR_CONFIGURABLE", p ";"],
  blank,
  pushMacro "DUK_THREAD_NEW_GLOBAL_ENV",
  undef "DUK_THREAD_NEW_GLOBAL_ENV",
  code [w "const", w "duk_uint_t", w "DUK_THREAD_NEW_GLOBAL_ENV", p "="],
  popMacro "DUK_THREAD_NEW_GLOBAL_ENV",
  code [w "DUK_THREAD_NEW_GLOBAL_ENV", p ";"],
  blank,
  pushMacro "DUK_ERR_NONE",
  undef "DUK_ERR_NONE",
  code [w "const", w "duk_errcode_t", w "DUK_ERR_NONE", p "="],
  popMacro "DUK_ERR_NONE",
  code [w "DUK_ERR_NONE", p ";"],
  blank,
  pushMacro "DUK_ERR_ERROR",
  undef "DUK_ERR_ERROR",
  code [w "const", w "duk_errcode_t", w "DUK_ERR_ERROR", p "="],
  popMacro "DUK_ERR_ERROR",
  code [w "DUK_ERR_ERROR", p ";"],
  blank,
  pushMacro "DUK_ERR_EVAL_ERROR",
  undef "DUK_ERR_EVAL_ERROR",
  code [w "const", w "duk_errcode_t", w "DUK_ERR_EVAL_ERROR", p "="],
  popMacro "DUK_ERR_EVAL_ERROR",
  code [w "DUK_ERR_EVAL_ERROR", p ";"],
  blank,
  pushMacro "DUK_ERR_RANGE_ERROR",
  undef "DUK_ERR_RANGE_ERROR",
  code [w "const", w "duk_errcode_t", w "DUK_ERR_RANGE_ERROR", p "="],
  popMacro "DUK_ERR_RANGE_ERROR",
  code [w "DUK_ERR_RANGE_ERROR", p ";"],
  blank,
  pushMacro "DUK_ERR_REFERENCE_ERROR",
  undef "DUK_ERR_REFERENCE_ERROR",
  code [w "const", w "duk_errcode_t", w "DUK_ERR_REFERENCE_ERROR", p "="],
  popMacro "DUK_ERR_REFERENCE_ERROR",
  code [w "DUK_ERR_REFERENCE_ERROR", p ";"],
  blank,
  pushMacro "DUK_ERR_SYNTAX_ERROR",
  undef "DUK_ERR_SYNTAX_ERROR",
  code [w "const", w "duk_errcode_t", w "DUK_ERR_SYNTAX_ERROR", p "="],
  popMacro "DUK_ERR_SYNTAX_ERROR",
  code [w "DUK_ERR_SYNTAX_ERROR", p ";"],
  blank,
  pushMacro "DUK_ERR_TYPE_ERROR",
  undef "DUK_ERR_TYPE_ERROR",
  code [w "const", w "duk_errcode_t", w "DUK_ERR_TYPE_ERROR", p "="],
  popMacro "DUK_ERR_TYPE_ERROR",
  code [w "DUK_ERR_TYPE_ERROR", p ";"],
  blank,
  pushMacro "DUK_ERR_URI_ERROR",
  undef "DUK_ERR_URI_ERROR",
  code [w "const", w "duk_errcode_t", w "DUK_ERR_URI_ERROR", p "="],
  popMacro "DUK_ERR_URI_ERROR",
  code [w "DUK_ERR_URI_ERROR", p ";"],
  blank,
  pushMacro "DUK_RET_ERROR",
  undef "DUK_RET_ERROR",
  code [w "const", w "duk_ret_t", w "DUK_RET_ERROR", p "="],
  popMacro "DUK_RET_ERROR",
  code [w "DUK_RET_ERROR", p ";"],
  blank,
  pushMacro "DUK_RET_EVAL_ERROR",
  undef "DUK_RET_EVAL_ERROR",
  code [w "const", w "duk_ret_t", w "DUK_RET_EVAL_ERROR", p "="],
  popMacro "DUK_RET_EVAL_ERROR",
  code [w "DUK_RET_EVAL_ERROR", p ";"],
  blank,
  pushMacro "DUK_RET_RANGE_ERROR",
  undef "DUK_RET_RANGE_ERROR",
  code [w "const", w "duk_ret_t", w "DUK_RET_RANGE_ERROR", p "="],
  popMacro "DUK_RET_RANGE_ERROR",
  code [w "DUK_RET_RANGE_ERROR", p ";"],
  blank,
  pushMacro "DUK_RET_REFERENCE_ERROR",
  undef "DUK_RET_REFERENCE_ERROR",
  code [w "const", w "duk_ret_t", w "DUK_RET_REFERENCE_ERROR", p "="],
  popMacro "DUK_RET_REFERENCE_ERROR",
  code [w "DUK_RET_REFERENCE_ERROR", p ";"],
  blank,
  pushMacro "DUK_RET_SYNTAX_ERROR",
  undef "DUK_RET_SYNTAX_ERROR",
  code [w "const", w "duk_ret_t", w "DUK_RET_SYNTAX_ERROR", p "="],
  popMacro "DUK_RET_SYNTAX_ERROR",
  code [w "DUK_RET_SYNTAX_ERROR", p ";"],
  blank,
  pushMacro "DUK_RET_TYPE_ERROR",
  undef "DUK_RET_TYPE_ERROR",
  code [w "const", w "duk_ret_t", w "DUK_RET_TYPE_ERROR", p "="],
  popMacro "DUK_RET_TYPE_ERROR",
  code [w "DUK_RET_TYPE_ERROR", p ";"],
  blank,
  pushMacro "DUK_RET_URI_ERROR",
  undef "DUK_RET_URI_ERROR",
  code [w "const", w "duk_ret_t", w "DUK_RET_URI_ERROR", p "="],
  popMacro "DUK_RET_URI_ERROR",
  code [w "DUK_RET_URI_ERROR", p ";"],
  blank,
  pushMacro "DUK_EXEC_SUCCESS",
  undef "DUK_EXEC_SUCCESS",
  code [w "const", w "duk_int_t", w "DUK_EXEC_SUCCESS", p "="],
  popMacro "DUK_EXEC_SUCCESS",
  code [w "DUK_EXEC_SUCCESS", p ";"],
  blank,
  pushMacro "DUK_EXEC_ERROR",
  undef "DUK_EXEC_ERROR",
  code [w "const", w "duk_int_t", w "DUK_EXEC_ERROR", p "="],
  popMacro "DUK_EXEC_ERROR",
  code [w "DUK_EXEC_ERROR", p ";"],
  blank,
  pushMacro "DUK_LEVEL_DEBUG",
  undef "DUK_LEVEL_DEBUG",
  code [w "const", w "long", w "DUK_LEVEL_DEBUG", p "="],
  popMacro "DUK_LEVEL_DEBUG",
  code [w "DUK_LEVEL_DEBUG", p ";"],
  blank,
  pushMacro "DUK_LEVEL_DDEBUG",
  undef "DUK_LEVEL_DDEBUG",
  code [w "const", w "long", w "DUK_LEVEL_DDEBUG", p "="],
  popMacro "DUK_LEVEL_DDEBUG",
  code [w "DUK_LEVEL_DDEBUG", p ";"],
  blank,
  pushMacro "DUK_LEVEL_DDDEBUG",
  undef "DUK_LEVEL_DDDEBUG",
  code [w "const", w "long", w "DUK_LEVEL_DDDEBUG", p "="],
  popMacro "DUK_LEVEL_DDDEBUG",
  code [w "DUK_LEVEL_DDDEBUG", p ";"],
  blank,
  pushMacro "DUK_LOG_TRACE",
  undef "DUK_LOG_TRACE",
  code [w "const", w "duk_int_t", w "DUK_LOG_TRACE", p "="],
  popMacro "DUK_LOG_TRACE",
  code [w "DUK_LOG_TRACE", p ";"],
  blank,
  pushMacro "DUK_LOG_DEBUG",
  undef "DUK_LOG_DEBUG",
  code [w "const", w "duk_int_t", w "DUK_LOG_DEBUG", p "="],
  popMacro "DUK_LOG_DEBUG",
  code [w "DUK_LOG_DEBUG", p ";"],
  blank,
  pushMacro "DUK_LOG_INFO",
  undef "DUK_LOG_INFO",
  code [w "const", w "duk_int_t", w "DUK_LOG_INFO", p "="],
  popMacro "DUK_LOG_INFO",
  code [w "DUK_LOG_INFO", p ";"],
  blank,
  pushMacro "DUK_LOG_WARN",
  undef "DUK_LOG_WARN",
  code [w "const", w "duk_int_t", w "DUK_LOG_WARN", p "="],
  popMacro "DUK_LOG_WARN",
  code [w "DUK_LOG_WARN", p ";"],
  blank,
  pushMacro "DUK_LOG_ERROR",
  undef "DUK_LOG_ERROR",
  code [w "const", w "duk_int_t", w "DUK_LOG_ERROR", p "="],
  popMacro "DUK_LOG_ERROR",
  code [w "DUK_LOG_ERROR", p ";"],
  blank,
  pushMacro "DUK_LOG_FATAL",
  undef "DUK_LOG_FATAL",
  code [w "const", w "duk_int_t", w "DUK_LOG_FATAL", p "="],
  popMacro "DUK_LOG_FATAL",
  code [w "DUK_LOG_FATAL", p ";"],
  blank,
  pushMacro "duk_create_heap_default",
  undef "duk_create_heap_default",
  code [w "duk_context", p "*", w "duk_create_heap_default", p "(", p ")", p "\x7b"],
  popMacro "duk_create_heap_default",
  code [w "return", w "duk_create_heap_default", p "(", p ")", p ";"],
  code [p "\x7d"],
  blank,
  pushMacro "duk_xmove_top",
  undef "duk_xmove_top",
  code [w "void", w "duk_xmove_top", p "(", w "duk_context", p "*", w "to_ctx", p ",", w "duk_context", p "*", w "from_ctx", p ",", w "duk_idx_t", w "count", p ")", p "\x7b"],
  popMacro "duk_xmove_top",
  code [w "duk_xmove_top", p "(", w "to_ctx", p ",", w "from_ctx", p ",", w "count", p ")", p ";"],
  code [p "\x7d"],
  blank,
  pushMacro "duk_xcopy_top",
  undef "duk_xcopy_top",
  code [w "void", w "duk_xcopy_top", p "(", w "duk_context", p "*", w "to_ctx", p ",", w "duk_context", p "*", w "from_ctx", p ",", w "duk_idx_t", w "count", p ")", p "\x7b"],
  popMacro "duk_xcopy_top",
  code [w "duk_xcopy_top", p "(", w "to_ctx", p ",", w "from_ctx", p ",", w "count", p ")", p ";"],
  code [p "\x7d"],
  blank,
  pushMacro "duk_push_string_file",
  undef "duk_push_string_file",
  code [w "const", w "char", p "*", w "duk_push_string_file", p "(", w "duk_context", p "*", w "ctx", p ",", w "const", w "char", p "*", w "path", p ")", p "\x7b"],
  popMacro "duk_push_string_file",
  code [w "return", w "duk_push_string_file", p "(", w "ctx", p ",", w "path", p ")", p ";"],
  code [p "\x7d"],
  blank,
  pushMacro "duk_push_thread",
  undef "duk_push_thread",
  code [w "duk_idx_t", w "duk_push_thread", p "(", w "duk_context", p "*", w "ctx", p ")", p "\x7b"],
  popMacro "duk_push_thread",
  code [w "return", w "duk_push_thread", p "(", w "ctx", p ")", p ";"],
  code [p "\x7d"],
  blank,
  pushMacro "duk_push_thread_new_globalenv",
  undef "duk_push_thread_new_globalenv",
  code [w "duk_idx_t", w "duk_push_thread_new_globalenv", p "(", w "duk_context", p "*", w "ctx", p ")", p "\x7b"],
  popMacro "duk_push_thread_new_globalenv",
  code [w "return", w "duk_push_thread_new_globalenv", p "(", w "ctx", p ")", p ";"],
  code [p "\x7d"],
  blank,
  pushMacro "duk_push_error_object",
  undef "duk_push_error_object",
  code [w "duk_idx_t", w "duk_push_error_object", p "(", w "duk_context", p "*", w "ctx", p ",", w "duk_errcode_t", w "err_code", p ",", w "const", w "char", p "*", w "fmt", p ")", p "\x7b"],
  popMacro "duk_push_error_object",
  code [w "return", w "duk_push_error_object", p "(", w "ctx", p ",", w "err_code", p ",", w "fmt", p ")", p ";"],
  code [p "\x7d"],
  blank,
  pushMacro "duk_push_buffer",
  undef "duk_push_buffer",
  code [w "void", p "*", w "duk_push_buffer", p "(", w "duk_context", p "*", w "ctx", p ",", w "duk_size_t", w "size", p ",", w "duk_bool_t", w "dynamic", p ")", p "\x7b"],
  popMacro "duk_push_buffer",
  code [w "return", w "duk_push_buffer", p "(", w "ctx", p ",", w "size", p ",", w "dynamic", p ")", p ";"],
  code [p "\x7d"],
  blank,
  pushMacro "duk_push_fixed_buffer",
  undef "duk_push_fixed_buffer",
  code [w "void", p "*", w "duk_push_fixed_buffer", p "(", w "duk_context", p "*", w "ctx", p ",", w "duk_size_t", w "size", p ")", p "\x7b"],
  popMacro "duk_push_fixed_buffer",
  code [w "return", w "duk_push_fixed_buffer", p "(", w "ctx", p ",", w "size", p ")", p ";"],
  code [p "\x7d"],
  blank,
  pushMacro "duk_push_dynamic_buffer",
  undef "duk_push_dynamic_buffer",
  code [w "void", p "*", w "duk_push_dynamic_buffer", p "(", w "duk_context", p "*", w "ctx", p ",", w "duk_size_t", w "size", p ")", p "\x7b"],
  popMacro "duk_push_dynamic_buffer",
  code [w "return", w "duk_push_dynamic_buffer", p "(", w "ctx", p ",", w "size", p ")", p ";"],
  code [p "\x7d"],
  blank,
  pushMacro "duk_push_external_buffer",
  undef "duk_push_external_buffer",
  code [w "void", w "duk_push_external_buffer", p "(", w "duk_context", p "*", w "ctx", p ")", p "\x7b"],
  popMacro "duk_push_external_buffer",
  code [w "duk_push_external_buffer", p "(", w "ctx", p ")", p ";"],
  code [p "\x7d"],
  blank,
  pushMacro "duk_is_callable",
  undef "duk_is_callable",
  code [w "duk_bool_t", w "duk_is_callable", p "(", w "duk_context", p "*", w "ctx", p ",", w "duk_idx_t", w "index", p ")", p "\x7b"],
  popMacro "duk_is_callable",
  code [w "return", w "duk_is_callable", p "(", w "ctx", p ",", w "index", p ")", p ";"],
  code [p "\x7d"],
  blank,
  pushMacro "duk_is_primitive",
  undef "duk_is_primitive",
  code [w "duk_bool_t", w "duk_is_primitive", p "(", w "duk_context", p "*", w "ctx", p ",", w "duk_idx_t", w "index", p ")", p "\x7b"],
  popMacro "duk_is_primitive",
  code [w "return", w "duk_is_primitive", p "(", w "ctx", p ",", w "index", p ")", p ";"],
  code [p "\x7d"],
  blank,
  pushMacro "duk_is_object_coercible",
  undef "duk_is_object_coercible",
  code [w "duk_bool_t", w "duk_is_object_coercible", p "(", w "duk_context", p "*", w "ctx", p ",", w "duk_idx_t", w "index", p ")", p "\x7b"],
  popMacro "duk_is_object_coercible",
  code [w "return", w "duk_is_object_coercible", p "(", w "ctx", p ",", w "index", p ")", p ";"],
  code [p "\x7d"],
  blank,
  pushMacro "duk_is_error",
  undef "duk_is_error",
  code [w "duk_bool_t", w "duk_is_error", p "(", w "duk_context", p "*", w "ctx", p ",", w "duk_idx_t", w "index", p ")", p "\x7b"],
  popMacro "duk_is_error",
  code [w "return", w "duk_is_error", p "(", w "ctx", p ",", w "index", p ")", p ";"],
  code [p "\x7d"],
  blank,
  pushMacro "duk_is_eval_error",
  undef "duk_is_eval_error",
  code [w "duk_bool_t", w "duk_is_eval_error", p "(", w "duk_context", p "*", w "ctx", p ",", w "duk_idx_t", w "index", p ")", p "\x7b"],
  popMacro "duk_is_eval_error",
  code [w "return", w "duk_is_eval_error", p "(", w "ctx", p ",", w "index", p ")", p ";"],
  code [p "\x7d"],
  blank,
  pushMacro "duk_is_range_error",
  undef "duk_is_range_error",
  code [w "duk_bool_t", w "duk_is_range_error", p "(", w "duk_context", p "*", w "ctx", p ",", w "duk_idx_t", w "index", p ")", p "\x7b"],
  popMacro "duk_is_range_error",
  code [w "return", w "duk_is_range_error", p "(", w "ctx", p ",", w "index", p ")", p ";"],
  code [p "\x7d"],
  blank,
  pushMacro "duk_is_reference_error",
  undef "duk_is_reference_error",
  code [w "duk_bool_t", w "duk_is_reference_error", p "(", w "duk_context", p "*", w "ctx", p ",", w "duk_idx_t", w "index", p ")", p "\x7b"],
  popMacro "duk_is_reference_error",
  code [w "return", w "duk_is_reference_error", p "(", w "ctx", p ",", w "index", p ")", p ";"],
  code [p "\x7d"],
  blank,
  pushMacro "duk_is_syntax_error",
  undef "duk_is_syntax_error",
  code [w "duk_bool_t", w "duk_is_syntax_error", p "(", w "duk_context", p "*", w "ctx", p ",", w "duk_idx_t", w "index", p ")", p "\x7b"],
  popMacro "duk_is_syntax_error",
  code [w "return", w "duk_is_syntax_error", p "(", w "ctx", p ",", w "index", p ")", p ";"],
  code [p "\x7d"],
  blank,
  pushMacro "duk_is_type_error",
  undef "duk_is_type_error",
  code [w "duk_bool_t", w "duk_is_type_error", p "(", w "duk_context", p "*", w "ctx", p ",", w "duk_idx_t", w "index", p ")", p "\x7b"],
  popMacro "duk_is_type_error",
  code [w "return", w "duk_is_type_error", p "(", w "ctx", p ",", w "index", p ")", p ";"],
  code [p "\x7d"],
  blank,
  pushMacro "duk_is_uri_error",
  undef "duk_is_uri_error",
  code [w "duk_bool_t", w "duk_is_uri_error", p "(", w "duk_context", p "*", w "ctx", p ",", w "duk_idx_t", w "index", p ")", p "\x7b"],
  popMacro "duk_is_uri_error",
  code [w "return", w "duk_is_uri_error", p "(", w "ctx", p ",", w "index", p ")", p ";"],
  code [p "\x7d"],
  blank,
  pushMacro "duk_require_type_mask",
  undef "duk_require_type_mask",
  code [w "void", w "duk_require_type_mask", p "(", w "duk_context", p "*", w "ctx", p ",", w "duk_idx_t", w "index", p ",", w "duk_uint_t", w "mask", p ")", p "\x7b"],
  popMacro "duk_require_type_mask",
  code [w "duk_require_type_mask", p "(", w "ctx", p ",", w "index", p ",", w "mask", p ")", p ";"],
  code [p "\x7d"],
  blank,
  pushMacro "duk_require_callable",
  undef "duk_require_callable",
  code [w "void", w "duk_require_callable", p "(", w "duk_context", p "*", w "ctx", p ",", w "duk_idx_t", w "index", p ")", p "\x7b"],
  popMacro "duk_require_callable",
  code [w "duk_require_callable", p "(", w "ctx", p ",", w "index", p ")", p ";"],
  code [p "\x7d"],
  blank,
  pushMacro "duk_require_object_coercible",
  undef "duk_require_object_coercible",
  code [w "void", w "duk_require_object_coercible", p "(", w "duk_context", p "*", w "ctx", p ",", w "duk_idx_t", w "index", p ")", p "\x7b"],
  popMacro "duk_require_object_coercible",
  code [w "duk_require_object_coercible", p "(", w "ctx", p ",", w "index", p ")", p ";"],
  code [p "\x7d"],
  blank,
  pushMacro "duk_to_buffer",
  undef "duk_to_buffer",
  code [w "void", p "*", w "duk_to_buffer", p "(", w "duk_context", p "*", w "ctx", p ",", w "duk_idx_t", w "index", p ",", w "duk_size_t", p "*", w "out_size", p ")", p "\x7b"],
  popMacro "duk_to_buffer",
  code [w "return", w "duk_to_buffer", p "(", w "ctx", p ",", w "index", p ",", w "out_size", p ")", p ";"],
  code [p "\x7d"],
  blank,
  pushMacro "duk_to_fixed_buffer",
  undef "duk_to_fixed_buffer",
  code [w "void", p "*", w "duk_to_fixed_buffer", p "(", w "duk_context", p "*", w "ctx", p ",", w "duk_idx_t", w "index", p ",", w "duk_size_t", p "*", w "out_size", p ")", p "\x7b"],
  popMacro "duk_to_fixed_buffer",
  code [w "return", w "duk_to_fixed_buffer", p "(", w "ctx", p ",", w "index", p ",", w "out_size", p ")", p ";"],
  code [p "\x7d"],
  blank,
  pushMacro "duk_to_dynamic_buffer",
  undef "duk_to_dynamic_buffer",
  code [w "void", p "*", w "duk_to_dynamic_buffer", p "(", w "duk_context", p "*", w "ctx", p ",", w "duk_idx_t", w "index", p ",", w "duk_size_t", p "*", w "out_size", p ")", p "\x7b"],
  popMacro "duk_to_dynamic_buffer",
  code [w "return", w "duk_to_dynamic_buffer", p "(", w "ctx", p ",", w "index", p ",", w "out_size", p ")", p ";"],
  code [p "\x7d"],
  blank,
  pushMacro "duk_safe_to_string",
  undef "duk_safe_to_string",
  code [w "const", w "char", p "*", w "duk_safe_to_string", p "(", w "duk_context", p "*", w "ctx", p ",", w "duk_idx_t", w "index", p ")", p "\x7b"],
  popMacro "duk_safe_to_string",
  code [w "return", w "duk_safe_to_string", p "(", w "ctx", p ",", w "index", p ")", p ";"],
  code [p "\x7d"],
  blank,
  pushMacro "duk_eval",
  undef "duk_eval",
  code [w "void", w "duk_eval", p "(", w "duk_context", p "*", w "ctx", p ")", p "\x7b"],
  popMacro "duk_eval",
  code [w "duk_eval", p "(", w "ctx", p ")", p ";"],
  code [p "\x7d"],
  blank,
  pushMacro "duk_eval_noresult",
  undef "duk_eval_noresult",
  code [w "void", w "duk_eval_noresult", p "(", w "duk_context", p "*", w "ctx", p ")", p "\x7b"],
  popMacro "duk_eval_noresult",
  code [w "duk_eval_noresult", p "(", w "ctx", p ")", p ";"],
  code [p "\x7d"],
  blank,
  pushMacro "duk_peval",
  undef "duk_peval",
  code [w "duk_int_t", w "duk_peval", p "(", w "duk_context", p "*", w "ctx", p ")", p "\x7b"],
  popMacro "duk_peval",
  code [w "return", w "duk_peval", p "(", w "ctx", p ")", p ";"],
  code [p "\x7d"],
  blank,
  pushMacro "duk_peval_noresult",
  undef "duk_peval_noresult",
  code [w "duk_int_t", w "duk_peval_noresult", p "(", w "duk_context", p "*", w "ctx", p ")", p "\x7b"],
  popMacro "duk_peval_noresult",
  code [w "return", w "duk_peval_noresult", p "(", w "ctx", p ")", p ";"],
  code [p "\x7d"],
  blank,
  pushMacro "duk_compile",
  undef "duk_compile",
  code [w "void", w "duk_compile", p "(", w "duk_context", p "*", w "ctx", p ",", w "duk_uint_t", w "flags", p ")", p "\x7b"],
  popMacro "duk_compile",
  code [w "duk_compile", p "(", w "ctx", p ",", w "flags", p ")", p ";"],
  code [p "\x7d"],
  blank,
  pushMacro "duk_pcompile",
  undef "duk_pcompile",
  code [w "duk_int_t", w "duk_pcompile", p "(", w "duk_context", p "*", w "ctx", p ",", w "duk_uint_t", w "flags", p ")", p "\x7b"],
  popMacro "duk_pcompile",
  code [w "return", w "duk_pcompile", p "(", w "ctx", p ",", w "flags", p ")", p ";"],
  code [p "\x7d"],
  blank,
  pushMacro "duk_eval_string",
  undef "duk_eval_string",
  code [w "void", w "duk_eval_string", p "(", w "duk_context", p "*", w "ctx", p ",", w "const", w "char", p "*", w "src", p ")", p "\x7b"],
  popMacro "duk_eval_string",
  code [w "duk_eval_string", p "(", w "ctx", p ",", w "src", p ")", p ";"],
  code [p "\x7d"],
  blank,
  pushMacro "duk_eval_string_noresult",
  undef "duk_eval_string_noresult",
  code [w "void", w "duk_eval_string_noresult", p "(", w "duk_context", p "*", w "ctx", p ",", w "const", w "char", p "*", w "src", p ")", p "\x7b"],
  popMacro "duk_eval_string_noresult",
  code [w "duk_eval_string_noresult", p "(", w "ctx", p ",", w "src", p ")", p ";"],
  code [p "\x7d"],
  blank,
  pushMacro "duk_peval_string",
  undef "duk_peval_string",
  code [w "duk_int_t", w "duk_peval_string", p "(", w "duk_context", p "*", w "ctx", p ",", w "const", w "char", p "*", w "src", p ")", p "\x7b"],
  popMacro "duk_peval_string",
  code [w "return", w "duk_peval_string", p "(", w "ctx", p ",", w "src", p ")", p ";"],
  code [p "\x7d"],
  blank,
  pushMacro "duk_peval_string_noresult",
  undef "duk_peval_string_noresult",
  code [w "duk_int_t", w "duk_peval_string_noresult", p "(", w "duk_context", p "*", w "ctx", p ",", w "const", w "char", p "*", w "src", p ")", p "\x7b"],
  popMacro "duk_peval_string_noresult",
  code [w "return", w "duk_peval_string_noresult", p "(", w "ctx", p ",", w "src", p ")", p ";"],
  code [p "\x7d"],
  blank,
  pushMacro "duk_compile_string",
  undef "duk_compile_string",
  code [w "void", w "duk_compile_string", p "(", w "duk_context", p "*", w "ctx", p ",", w "duk_uint_t", w "flags", p ",", w "const", w "char", p "*", w "src", p ")", p "\x7b"],
  popMacro "duk_compile_string",
  code [w "duk_compile_string", p "(", w "ctx", p ",", w "flags", p ",", w "src", p ")", p ";"],
  code [p "\x7d"],
  blank,
  pushMacro "duk_compile_string_filename",
  undef "duk_compile_string_filename",
  code [w "void", w "duk_compile_string_filename", p "(", w "duk_context", p "*", w "ctx", p ",", w "duk_uint_t", w "flags", p ",", w "const", w "char", p "*", w "src", p ")", p "\x7b"],
  popMacro "duk_compile_string_filename",
  code [w "duk_compile_string_filename", p "(", w "ctx", p ",", w "flags", p ",", w "src", p ")", p ";"],
  code [p "\x7d"],
  blank,
  pushMacro "duk_pcompile_string",
  undef "duk_pcompile_string",
  code [w "duk_int_t", w "duk_pcompile_string", p "(", w "duk_context", p "*", w "ctx", p ",", w "duk_uint_t", w "flags", p ",", w "const", w "char", p "*", w "src", p ")", p "\x7b"],
  popMacro "duk_pcompile_string",
  code [w "return", w "duk_pcompile_string", p "(", w "ctx", p ",", w "flags", p ",", w "src", p ")", p ";"],
  code [p "\x7d"],
  blank,
  pushMacro "duk_pcompile_string_filename",
  undef "duk_pcompile_string_filename",
  code [w "duk_int_t", w "duk_pcompile_string_filename", p "(", w "duk_context", p "*", w "ctx", p ",", w "duk_uint_t", w "flags", p ",", w "const", w "char", p "*", w "src", p ")", p "\x7b"],
  popMacro "duk_pcompile_string_filename",
  code [w "return", w "duk_pcompile_string_filename", p "(", w "ctx", p ",", w "flags", p ",", w "src", p ")", p ";"],
  code [p "\x7d"],
  blank,
  pushMacro "duk_eval_lstring",
  undef "duk_eval_lstring",
  code [w "void", w "duk_eval_lstring", p "(", w "duk_context", p "*", w "ctx", p ",", w "const", w "char", p "*", w "buf", p ",", w "duk_size_t", w "len", p ")", p "\x7b"],
  popMacro "duk_eval_lstring",
  code [w "duk_eval_lstring", p "(", w "ctx", p ",", w "buf", p ",", w "len", p ")", p ";"],
  code [p "\x7d"],
  blank,
  pushMacro "duk_eval_lstring_noresult",
  undef "duk_eval_lstring_noresult",
  code [w "void", w "duk_eval_lstring_noresult", p "(", w "duk_context", p "*", w "ctx", p ",", w "const", w "char", p "*", w "buf", p ",", w "duk_size_t", w "len", p ")", p "\x7b"],
  popMacro "duk_eval_lstring_noresult",
  code [w "duk_eval_lstring_noresult", p "(", w "ctx", p ",", w "buf", p ",", w "len", p ")", p ";"],
  code [p "\x7d"],
  blank,
  pushMacro "duk_peval_lstring",
  undef "duk_peval_lstring",
  code [w "duk_int_t", w "duk_peval_lstring", p "(", w "duk_context", p "*", w "ctx", p ",", w "const", w "char", p "*", w "buf", p ",", w "duk_size_t", w "len", p ")", p "\x7b"],
  popMacro "duk_peval_lstring",
  code [w "return", w "duk_peval_lstring", p "(", w "ctx", p ",", w "buf", p ",", w "len", p ")", p ";"],
  code [p "\x7d"],
  blank,
  pushMacro "duk_peval_lstring_noresult",
  undef "duk_peval_lstring_noresult",
  code [w "duk_int_t", w "duk_peval_lstring_noresult", p "(", w "duk_context", p "*", w "ctx", p ",", w "const", w "char", p "*", w "buf", p ",", w "duk_size_t", w "len", p ")", p "\x7b"],
  popMacro "duk_peval_lstring_noresult",
  code [w "return", w "duk_peval_lstring_noresult", p "(", w "ctx", p ",", w "buf", p ",", w "len", p ")", p ";"],
  code [p "\x7d"],
  blank,
  pushMacro "duk_compile_lstring",
  undef "duk_compile_lstring",
  code [w "void", w "duk_compile_lstring", p "(", w "duk_context", p "*", w "ctx", p ",", w "duk_uint_t", w "flags", p ",", w "const", w "char", p "*", w "buf", p ",", w "duk_size_t", w "len", p ")", p "\x7b"],
  popMacro "duk_compile_lstring",
  code [w "duk_compile_lstring", p "(", w "ctx", p ",", w "flags", p ",", w "buf", p ",", w "len", p ")", p ";"],
  code [p "\x7d"],
  blank,
  pushMacro "duk_compile_lstring_filename",
  undef "duk_compile_lstring_filename",
  code [w "void", w "duk_compile_lstring_filename", p "(", w "duk_context", p "*", w "ctx", p ",", w "duk_uint_t", w "flags", p ",", w "const", w "char", p "*", w "buf", p ",", w "duk_size_t", w "len", p ")", p "\x7b"],
  popMacro "duk_compile_lstring_filename",
  code [w "duk_compile_lstring_filename", p "(", w "ctx", p ",", w "flags", p ",", w "buf", p ",", w "len", p ")", p ";"],
  code [p "\x7d"],
  blank,
  pushMacro "duk_pcompile_lstring",
  undef "duk_pcompile_lstring",
  code [w "duk_int_t", w "duk_pcompile_lstring", p "(", w "duk_context", p "*", w "ctx", p ",", w "duk_uint_t", w "flags", p ",", w "const", w "char", p "*", w "buf", p ",", w "duk_size_t", w "len", p ")", p "\x7b"],
  popMacro "duk_pcompile_lstring",
  code [w "return", w "duk_pcompile_lstring", p "(", w "ctx", p ",", w "flags", p ",", w "buf", p ",", w "len", p ")", p ";"],
  code [p "\x7d"],
  blank,
  pushMacro "duk_pcompile_lstring_filename",
  undef "duk_pcompile_lstring_filename",
  code [w "duk_int_t", w "duk_pcompile_lstring_filename", p "(", w "duk_context", p "*", w "ctx", p ",", w "duk_uint_t", w "flags", p ",", w "const", w "char", p "*", w "buf", p ",", w "duk_size_t", w "len", p ")", p "\x7b"],
  popMacro "duk_pcompile_lstring_filename",
  code [w "return", w "duk_pcompile_lstring_filename", p "(", w "ctx", p ",", w "flags", p ",", w "buf", p ",", w "len", p ")", p ";"],
  code [p "\x7d"],
  blank,
  pushMacro "duk_eval_file",
  undef "duk_eval_file",
  code [w "void", w "duk_eval_file", p "(", w "duk_context", p "*", w "ctx", p ",", w "const", w "char", p "*", w "path", p ")", p "\x7b"],
  popMacro "duk_eval_file",
  code [w "duk_eval_file", p "(", w "ctx", p ",", w "path", p ")", p ";"],
  code [p "\x7d"],
  blank,
  pushMacro "duk_eval_file_noresult",
  undef "duk_eval_file_noresult",
  code [w "void", w "duk_eval_file_noresult", p "(", w "duk_context", p "*", w "ctx", p ",", w "const", w "char", p "*", w "path", p ")", p "\x7b"],
  popMacro "duk_eval_file_noresult",
  code [w "duk_eval_file_noresult", p "(", w "ctx", p ",", w "path", p ")", p ";"],
  code [p "\x7d"],
  blank,
  pushMacro "duk_peval_file",
  undef "duk_peval_file",
  code [w "duk_int_t", w "duk_peval_file", p "(", w "duk_context", p "*", w "ctx", p ",", w "const", w "char", p "*", w "path", p ")", p "\x7b"],
  popMacro "duk_peval_file",
  code [w "return", w "duk_peval_file", p "(", w "ctx", p ",", w "path", p ")", p ";"],
  code [p "\x7d"],
  blank,
  pushMacro "duk_peval_file_noresult",
  undef "duk_peval_file_noresult",
  code [w "duk_int_t", w "duk_peval_file_noresult", p "(", w "duk_context", p "*", w "ctx", p ",", w "const", w "char", p "*", w "path", p ")", p "\x7b"],
  popMacro "duk_peval_file_noresult",
  code [w "return", w "duk_peval_file_noresult", p "(", w "ctx", p ",", w "path", p ")", p ";"],
  code [p "\x7d"],
  blank,
  pushMacro "duk_compile_file",
  undef "duk_compile_file",
  code [w "void", w "duk_compile_file", p "(", w "duk_context", p "*", w "ctx", p ",", w "duk_uint_t", w "flags", p ",", w "const", w "char", p "*", w "path", p ")", p "\x7b"],
  popMacro "duk_compile_file",
  code [w "duk_compile_file", p "(", w "ctx", p ",", w "flags", p ",", w "path", p ")", p ";"],
  code [p "\x7d"],
  blank,
  pushMacro "duk_pcompile_file",
  undef "duk_pcompile_file",
  code [w "duk_int_t", w "duk_pcompile_file", p "(", w "duk_context", p "*", w "ctx", p ",", w "duk_uint_t", w "flags", p ",", w "const", w "char", p "*", w "path", p ")", p "\x7b"],
  popMacro "duk_pcompile_file",
  code [w "return", w "duk_pcompile_file", p "(", w "ctx", p ",", w "flags", p ",", w "path", p ")", p ";"],
  code [p "\x7d"],
  blank,
  pushMacro "duk_dump_context_stdout",
  undef "duk_dump_context_stdout",
  code [w "void", w "duk_dump_context_stdout", p "(", w "duk_context", p "*", w "ctx", p ")", p "\x7b"],
  popMacro "duk_dump_context_stdout",
  code [w "duk_dump_context_stdout", p "(", w "ctx", p ")", p ";"],
  code [p "\x7d"],
  blank,
  pushMacro "duk_dump_context_stderr",
  undef "duk_dump_context_stderr",
  code [w "void", w "duk_dump_context_stderr", p "(", w "duk_context", p "*", w "ctx", p ")", p "\x7b"],
  popMacro "duk_dump_context_stderr",
  code [w "duk_dump_context_stderr", p "(", w "ctx", p ")", p ";"],
  code [p "\x7d"],
  blank
]

/-! ## Macro expansion -/

/-- The macro table: the definition in force for each name, if any. -/
abbrev MacroTable := String → Option MacroDef

/-- Point update of a function on names. -/
def upd {α : Type} (f : String → α) (k : String) (v : α) : String → α :=
  fun x => if x = k then v else f x

/-- Replacement of parameters by arguments in a function-like macro's body. -/
def subst (ps : List String) (args : List (List Tok)) (body : List Tok) : List Tok :=
  body.flatMap fun t =>
    match t with
    | .w x => ((ps.zip args).lookup x).getD [t]
    | _ => [t]

/-- A word that is the macro parameter at some position is replaced by the word at that
position of `xs`; every other token is kept. -/
def renameTok (ps xs : List String) : Tok → Tok
  | .w x => .w (((ps.zip xs).lookup x).getD x)
  | t => t

/-- State of the scan of one token line. -/
inductive Mode where
  /-- between macro invocations -/
  | normal
  /-- the name of a function-like macro was read; a `(` must follow for an invocation -/
  | pending (name : String) (ps : List String) (body : List Tok)
  /-- inside the argument list of an invocation: nesting depth, finished arguments,
  the argument being read, and the tokens read since the macro's name -/
  | collect (name : String) (ps : List String) (body : List Tok) (depth : Nat)
      (args : List (List Tok)) (cur : List Tok) (raw : List Tok)

/-- Scanner state: the mode and the tokens emitted so far. -/
structure Scan where
  mode : Mode
  out : List Tok

/-- A token read between invocations: the name of an object-like macro is replaced by
its rescanned body, the name of a function-like macro waits for its `(`, a hidden name
(one being expanded) and anything else is copied. -/
def scanNormal (E : MacroTable) (rescan : List String → List Tok → List Tok)
    (hide : List String) (out : List Tok) (t : Tok) : Scan :=
  match t with
  | .w x =>
    if x ∈ hide then ⟨.normal, out ++ [t]⟩
    else match E x with
      | some (.obj body) => ⟨.normal, out ++ rescan (x :: hide) body⟩
      | some (.fn ps body) => ⟨.pending x ps body, out⟩
      | none => ⟨.normal, out ++ [t]⟩
  | _ => ⟨.normal, out ++ [t]⟩

/-- The arguments of a finished invocation: none for `F()` of a macro without parameters. -/
def closeArgs (ps : List String) (args : List (List Tok)) (cur : List Tok) :
    List (List Tok) :=
  if ps.isEmpty && args.isEmpty && cur.isEmpty then [] else args ++ [cur]

/-- One scanner step. -/
def scanStep (E : MacroTable) (rescan : List String → List Tok → List Tok)
    (hide : List String) (s : Scan) (t : Tok) : Scan :=
  match s.mode with
  | .normal => scanNormal E rescan hide s.out t
  | .pending x ps body =>
    if t = .p "(" then ⟨.collect x ps body 0 [] [] [.w x, t], s.out⟩
    else scanNormal E rescan hide (s.out ++ [.w x]) t
  | .collect x ps body d args cur raw =>
    if t = .p "(" then ⟨.collect x ps body (d + 1) args (cur ++ [t]) (raw ++ [t]), s.out⟩
    else if t = .p ")" then
      match d with
      | 0 =>
        let as := closeArgs ps args cur
        if as.length = ps.length then
          ⟨.normal, s.out ++ rescan (x :: hide) (subst ps (as.map (rescan hide)) body)⟩
        else ⟨.normal, s.out ++ raw ++ [t]⟩
      | d + 1 => ⟨.collect x ps body d args (cur ++ [t]) (raw ++ [t]), s.out⟩
    else if t = .p "," ∧ d = 0 then ⟨.collect x ps body d (args ++ [cur]) [] (raw ++ [t]), s.out⟩
    else ⟨.collect x ps body d args (cur ++ [t]) (raw ++ [t]), s.out⟩

/-- Tokens left over when the line ends inside an unfinished invocation are copied. -/
def scanFinish (s : Scan) : List Tok :=
  match s.mode with
  | .normal => s.out
  | .pending x _ _ => s.out ++ [.w x]
  | .collect _ _ _ _ _ _ raw => s.out ++ raw

/-- Macro expansion of a token line under the table `E`.  `depth` bounds the nesting of
rescans (a replacement list is rescanned with the macro's own name hidden); at depth 0
tokens are copied. -/
def expand (E : MacroTable) : Nat → List String → List Tok → List Tok
  | 0, _, ts => ts
  | d + 1, hide, ts => scanFinish (ts.foldl (scanStep E (expand E d) hide) ⟨.normal, []⟩)

/-- The tokens of an argument list made of the given words: `a , b , c`. -/
def argToks : List String → List Tok
  | [] => []
  | [a] => [.w a]
  | a :: b :: r => .w a :: .p "," :: argToks (b :: r)

/-! ## The preprocessor as a state machine -/

/-- Preprocessor state: the macro table, the stack of saved definitions of each name
(`push_macro`/`pop_macro`), the stack of conditional groups being read (each marked
with whether its lines are processed), and the expanded code lines emitted so far. -/
structure PP where
  defs : MacroTable
  saved : String → List (Option MacroDef)
  conds : List Bool
  out : List (List Tok)

/-- Lines are processed unless the innermost conditional group is skipped. -/
def PP.active (s : PP) : Bool := s.conds.headD true

/-- One line of preprocessing.  `push_macro` saves the definition in force for the name
(or the fact that there is none) on the name's stack, `undef` removes the definition,
`pop_macro` puts the saved definition back and drops it from the stack (and does
nothing on an empty stack); a code line is emitted macro-expanded.  `hdr f` is the
effect on the macro table of including a header `f` that is not part of the source
tree; `depth` bounds rescans. -/
def step (hdr : String → MacroTable → MacroTable) (depth : Nat) (s : PP) : Line → PP
  | .ifndef x => { s with conds := (s.active && (s.defs x).isNone) :: s.conds }
  | .ifNotDefined x => { s with conds := (s.active && (s.defs x).isNone) :: s.conds }
  | .endif => { s with conds := s.conds.tail }
  | .pushMacro x =>
    if s.active then { s with saved := upd s.saved x (s.defs x :: s.saved x) } else s
  | .undef x => if s.active then { s with defs := upd s.defs x none } else s
  | .popMacro x =>
    if s.active then
      match s.saved x with
      | [] => s
      | d :: r => { s with defs := upd s.defs x d, saved := upd s.saved x r }
    else s
  | .define x d => if s.active then { s with defs := upd s.defs x (some d) } else s
  | .includeFile f => if s.active then { s with defs := hdr f s.defs } else s
  | .pragmaOnce => s
  | .code ts => if s.active then { s with out := s.out ++ [expand s.defs depth [] ts] } else s
  | .blank => s

/-- A line that is neither `push_macro` nor `pop_macro`. -/
def Line.noStack : Line → Bool
  | .pushMacro _ => false
  | .popMacro _ => false
  | _ => true

/-- Preprocessing of a list of lines. -/
def run (hdr : String → MacroTable → MacroTable) (depth : Nat) (s : PP) (ls : List Line) : PP :=
  ls.foldl (step hdr depth) s

/-- The state in which a translation unit starts under the macro table `E`. -/
def PP.start (E : MacroTable) : PP := ⟨E, fun _ => [], [], []⟩

/-! ## Export blocks -/

/-- The groups of lines between empty lines. -/
def splitBlank : List Line → List (List Line)
  | [] => [[]]
  | l :: rest =>
    if l = .blank then [] :: splitBlank rest
    else match splitBlank rest with
      | [] => [[l]]
      | g :: gs => (l :: g) :: gs

/-- An export block: the names of its three directives, the code line between `#undef`
and `pop_macro`, and the code lines after `pop_macro`. -/
structure Block where
  pushed : String
  undefd : String
  pre : List Tok
  popped : String
  post : List (List Tok)
  deriving DecidableEq

/-- The token lines of a list of lines that are all code. -/
def codeLines : List Line → Option (List (List Tok))
  | [] => some []
  | .code ts :: r => (codeLines r).map (ts :: ·)
  | _ => none

/-- A group of lines read as an export block. -/
def toBlock : List Line → Option Block
  | .pushMacro a :: .undef b :: .code pre :: .popMacro c :: r =>
    (codeLines r).map fun post => ⟨a, b, pre, c, post⟩
  | _ => none

/-- The lines of a block. -/
def Block.lines (b : Block) : List Line :=
  .pushMacro b.pushed :: .undef b.undefd :: .code b.pre :: .popMacro b.popped ::
    b.post.map .code

/-- The code lines a block contributes to the preprocessed unit when the table before
the block is `E`: the declarator is expanded with the block's name undefined, the
lines after `pop_macro` are expanded under `E`. -/
def Block.emit (E : MacroTable) (depth : Nat) (b : Block) : List (List Tok) :=
  expand (upd E b.undefd none) depth [] b.pre :: b.post.map (expand E depth [])

/-- The export blocks among the groups of a list of lines. -/
def blocksOf (ls : List Line) : List Block := (splitBlank ls).filterMap toBlock

/-- A group is an export block whose three directives name one and the same macro. -/
def groupOK (g : List Line) : Bool :=
  match toBlock g with
  | some b => b.pushed = b.undefd && b.undefd = b.popped
  | none => false

/-- Every group of the lines is empty or an export block around one name. -/
def allBlocks (ls : List Line) : Bool := (splitBlank ls).all fun g => g.isEmpty || groupOK g

/-! ## Declarations -/

/-- The pieces of a token list between commas. -/
def splitCommas : List Tok → List (List Tok)
  | [] => [[]]
  | t :: r =>
    if t = .p "," then [] :: splitCommas r
    else match splitCommas r with
      | [] => [[t]]
      | g :: gs => (t :: g) :: gs

/-- All the values of a list of options, if none is missing. -/
def allSome {α : Type} : List (Option α) → Option (List α)
  | [] => some []
  | none :: _ => none
  | some a :: r => (allSome r).map (a :: ·)

/-- A parameter declaration: type tokens and the parameter's name. -/
def parseParam (ts : List Tok) : Option (List Tok × String) :=
  match ts.getLast? with
  | some (.w x) => some (ts.dropLast, x)
  | _ => none

/-- A declared symbol: its type (the return type for a function), its name, its
parameters if it is a function, and the token that ends the declarator
(`;` declaration, `=` initialised definition, `{` function definition). -/
structure Decl where
  type : List Tok
  name : String
  params : Option (List (List Tok × String))
  stop : Tok
  deriving DecidableEq

/-- A declarator line `T N ;`, `T N =`, `T N ( params ) ;` or `T N ( params ) {`. -/
def parseDecl (ts : List Tok) : Option Decl :=
  match ts.getLast? with
  | none => none
  | some stop =>
    let d := ts.dropLast
    let hd := d.takeWhile (· ≠ .p "(")
    match hd.getLast? with
    | some (.w name) =>
      if hd.length = d.length then some ⟨hd.dropLast, name, none, stop⟩
      else
        match d.getLast? with
        | some (.p ")") =>
          let inner := (d.drop (hd.length + 1)).dropLast
          let ps := if inner.isEmpty then some [] else allSome ((splitCommas inner).map parseParam)
          ps.map fun ps => ⟨hd.dropLast, name, some ps, stop⟩
        | _ => none
    | _ => none

/-- The parameter types of a function declaration, in order. -/
def Decl.paramTypes (d : Decl) : List (List Tok) := (d.params.getD []).map Prod.fst

/-- The entry points that a header declares as real functions (`extern T F(...);`). -/
def realFunctionDecls (ls : List Line) : List Decl :=
  ls.filterMap fun l =>
    match l with
    | .code (.w "extern" :: ts) => parseDecl ts
    | _ => none

/-- The object-like macros a header defines with a non-empty replacement list. -/
def macroConstants (ls : List Line) : List String :=
  ls.filterMap fun l =>
    match l with
    | .define x (.obj (_ :: _)) => some x
    | _ => none

/-- The function-like macros a header defines. -/
def macroFunctions (ls : List Line) : List String :=
  ls.filterMap fun l =>
    match l with
    | .define x (.fn _ _) => some x
    | _ => none

/-- The files a file includes, in order. -/
def includesOf (ls : List Line) : List String :=
  ls.filterMap fun l =>
    match l with
    | .includeFile f => some f
    | _ => none

/-- The declarations of the export blocks of a file. -/
def declsOf (ls : List Line) : List Decl := (blocksOf ls).filterMap fun b => parseDecl b.pre

/-! ## The preprocessed unit -/

/-- The code lines that a group of source lines emits from state `s`. -/
def emitted (hdr : String → MacroTable → MacroTable) (depth : Nat) (s : PP)
    (g : List Line) : List (List Tok) :=
  (run hdr depth { s with out := [] } g).out

/-- The emitted lines of each group in turn, the state threaded through. -/
def itemsFrom (hdr : String → MacroTable → MacroTable) (depth : Nat) :
    PP → List (List Line) → List (List (List Tok))
  | _, [] => []
  | s, g :: gs => emitted hdr depth s g :: itemsFrom hdr depth (run hdr depth s g) gs

/-- A function definition of the preprocessed unit. -/
structure FuncDef where
  name : String
  params : List String
  body : List Tok
  deriving DecidableEq

/-- Three emitted lines `T F ( params ) {`, `body`, `}` read as a function definition. -/
def parseFuncDef : List (List Tok) → Option FuncDef
  | [sig, body, close] =>
    (parseDecl sig).bind fun d =>
      if d.stop = .p "\x7b" ∧ close = [.p "\x7d"] then
        d.params.map fun ps => ⟨d.name, ps.map Prod.snd, body⟩
      else none
  | _ => none

/-- A constant definition of the preprocessed unit. -/
structure ConstDef where
  type : List Tok
  name : String
  init : List Tok
  deriving DecidableEq

/-- Two emitted lines `T K =`, `init ;` read as the definition of an object. -/
def parseConstDef : List (List Tok) → Option ConstDef
  | [decl, init] =>
    (parseDecl decl).bind fun d =>
      if d.stop = .p "=" ∧ d.params.isNone ∧ init.getLast? = some (.p ";") then
        some ⟨d.type, d.name, init.dropLast⟩
      else none
  | _ => none

/-! ## Calls -/

/-- How an engine operation ends: it returns (with a value, or none for `void`), it
signals an error through the engine's error mechanism, or it does not return. -/
inductive Outcome (σ Val Err : Type) where
  | ret (v : Option Val) (s : σ)
  | err (e : Err) (s : σ)
  | hang

/-- The engine behind the headers: the value of a number token, the real functions of
the engine library, the meaning of any other expression (what an engine macro expands
to) under given values of the variables, and the value an object of a given type
receives from a constant initialiser. -/
structure Engine (σ Val Err : Type) where
  num : String → Val
  lib : String → List Val → σ → Outcome σ Val Err
  expr : List Tok → (String → Option Val) → σ → Outcome σ Val Err
  init : List Tok → List Tok → Val

/-- The result of running a call with bounded call depth. -/
inductive Res (σ Val Err : Type) where
  | done (o : Outcome σ Val Err)
  | outOfFuel
  | stuck

/-- An expression statement discards the value, a `return` statement keeps it. -/
def Outcome.keep {σ Val Err : Type} (isRet : Bool) : Outcome σ Val Err → Outcome σ Val Err
  | .ret v s => .ret (if isRet then v else none) s
  | o => o

/-- Lifts `Outcome.keep` to results. -/
def Res.keep {σ Val Err : Type} (isRet : Bool) : Res σ Val Err → Res σ Val Err
  | .done o => .done (o.keep isRet)
  | r => r

/-- A simple argument: a variable or a number, possibly in parentheses. -/
inductive Atom where
  | var (x : String)
  | lit (k : String)
  deriving DecidableEq

/-- Tokens read as a simple argument. -/
def parseAtom : List Tok → Option Atom
  | [.w x] => some (.var x)
  | [.n k] => some (.lit k)
  | [.p l, .w x, .p r] => if l = "(" ∧ r = ")" then some (.var x) else none
  | [.p l, .n k, .p r] => if l = "(" ∧ r = ")" then some (.lit k) else none
  | _ => none

/-- The pieces of a token list between commas outside parentheses; the state is the
nesting depth, the finished pieces and the piece being read. -/
def splitTopStep (st : Nat × List (List Tok) × List Tok) (t : Tok) :
    Nat × List (List Tok) × List Tok :=
  match st with
  | (d, done, cur) =>
    if t = .p "(" then (d + 1, done, cur ++ [t])
    else if t = .p ")" then (d - 1, done, cur ++ [t])
    else if t = .p "," ∧ d = 0 then (d, done ++ [cur], [])
    else (d, done, cur ++ [t])

/-- The arguments of an argument list, as token lists. -/
def splitTop (ts : List Tok) : List (List Tok) :=
  if ts.isEmpty then []
  else
    match ts.foldl splitTopStep (0, [], []) with
    | (_, done, cur) => done ++ [cur]

/-- Tokens read as a call `g ( a , ... )` of a named function on simple arguments. -/
def parseCall : List Tok → Option (String × List Atom)
  | .w g :: .p l :: r =>
    if l = "(" ∧ r.getLast? = some (.p ")") then
      (allSome ((splitTop r.dropLast).map parseAtom)).map fun as => (g, as)
    else none
  | _ => none

/-- A statement `return e ;` or `e ;`. -/
def parseStmt : List Tok → Option (Bool × List Tok)
  | .w x :: r =>
    if x = "return" then
      (if r.getLast? = some (.p ";") then some (true, r.dropLast) else none)
    else if (Tok.w x :: r).getLast? = some (.p ";") then some (false, (Tok.w x :: r).dropLast)
    else none
  | ts => if ts.getLast? = some (.p ";") then some (false, ts.dropLast) else none

/-- The variables of a call: each parameter bound to the argument at its position. -/
def bindArgs {Val : Type} (ps : List String) (vs : List Val) : String → Option Val :=
  fun x => (ps.zip vs).lookup x

/-- The value of a simple argument. -/
def evalAtom {σ Val Err : Type} (eng : Engine σ Val Err) (ρ : String → Option Val) :
    Atom → Option Val
  | .var x => ρ x
  | .lit k => some (eng.num k)

/-- Evaluation of an expression: a call of a named function on simple arguments goes to
the definition of that name in the unit if there is one, and to the engine library
otherwise; any other expression is the engine's. -/
def evalExpr {σ Val Err : Type} (eng : Engine σ Val Err) (funs : String → Option FuncDef)
    (callFn : FuncDef → List Val → σ → Res σ Val Err)
    (e : List Tok) (ρ : String → Option Val) (s : σ) : Res σ Val Err :=
  match parseCall e with
  | some (g, atoms) =>
    match allSome (atoms.map (evalAtom eng ρ)) with
    | some vs =>
      match funs g with
      | some f => callFn f vs s
      | none => .done (eng.lib g vs s)
    | none => .done (eng.expr e ρ s)
  | none => .done (eng.expr e ρ s)

/-- Evaluation of an expression in a unit built against the engine headers alone, with
no function of the shim in scope: a call of a named function on simple arguments is a
call of the engine library, any other expression is the engine's. -/
def engineEval {σ Val Err : Type} (eng : Engine σ Val Err) (e : List Tok)
    (ρ : String → Option Val) (s : σ) : Outcome σ Val Err :=
  match parseCall e with
  | some (g, atoms) =>
    match allSome (atoms.map (evalAtom eng ρ)) with
    | some vs => eng.lib g vs s
    | none => eng.expr e ρ s
  | none => eng.expr e ρ s

/-- A call of a function definition of the unit, with bounded call depth. -/
def call {σ Val Err : Type} (eng : Engine σ Val Err) (funs : String → Option FuncDef) :
    Nat → FuncDef → List Val → σ → Res σ Val Err
  | 0, _, _, _ => .outOfFuel
  | k + 1, f, vs, s =>
    match parseStmt f.body with
    | none => .stuck
    | some (isRet, e) =>
      (evalExpr eng funs (call eng funs k) e (bindArgs f.params vs) s).keep isRet

/-- The words of the shim's own lines other than the exported names: keywords, type
names and parameter names. -/
def plainWords : List String :=
  ["buf", "char", "const", "count", "ctx", "duk_bool_t", "duk_context", "duk_errcode_t",
   "duk_idx_t", "duk_int_t", "duk_ret_t", "duk_size_t", "duk_uint_t", "dynamic", "err_code",
   "flags", "fmt", "from_ctx", "index", "len", "long", "mask", "out_size", "path", "return",
   "size", "src", "to_ctx", "void"]

/-- The engine headers define none of the shim's own words as a macro. -/
def Plain (E : MacroTable) : Prop := ∀ x ∈ plainWords, E x = none

instance decidablePlain (E : MacroTable) : Decidable (Plain E) := by
  unfold Plain
  infer_instance

/-- A small engine for evaluating calls on concrete inputs: values and states are
numbers, the state counts the calls made to the engine library; a library function
signals error 2 when its last argument is 0 (a path that names no file) and returns its
first argument otherwise; every other expression signals error 1. -/
def sampleEngine : Engine Nat Nat Nat where
  num := fun k => k.toNat?.getD 0
  lib := fun _ vs s => if vs.getLast? = some 0 then .err 2 s else .ret vs.head? (s + 1)
  expr := fun _ _ s => .err 1 s
  init := fun _ ts => ts.length

/-- A second small engine for evaluating calls on concrete inputs: a number token has
its decimal value; a library function returns the number whose decimal digits are a
leading 1 followed by its arguments in order, and the state counts the calls made to the
engine library; every other expression signals error 1. -/
def echoEngine : Engine Nat Nat Nat where
  num := fun k => k.toList.foldl (fun a c => 10 * a + (c.toNat - 48)) 0
  lib := fun _ vs s => .ret (some (vs.foldl (fun a v => 10 * a + v) 1)) (s + 1)
  expr := fun _ _ s => .err 1 s
  init := fun _ ts => ts.length

/-! ## The shape of the shim's blocks -/

/-- The words of a token list. -/
def wordsOf (ts : List Tok) : List String :=
  ts.filterMap fun t =>
    match t with
    | .w x => some x
    | _ => none

/-- Every word of the declarator line is the block's own name or one of the shim's plain
words, and the lines after the first line behind `pop_macro` hold no word at all. -/
def Block.inertOK (b : Block) : Bool :=
  ((wordsOf b.pre).all fun x => decide (x = b.undefd ∨ x ∈ plainWords)) &&
    ((b.post.drop 1).all fun l => (wordsOf l).isEmpty)

/-- The call `F ( p1 , ... , pn )` of a declared function on its own parameters. -/
def forwardCall (d : Decl) : List Tok :=
  .w d.name :: .p "(" :: (argToks ((d.params.getD []).map Prod.snd) ++ [.p ")"])

/-- The forwarding statement of a declared function: the call on its own parameters,
returned unless the return type is `void`. -/
def forwardBody (d : Decl) : List Tok :=
  (if d.type = [.w "void"] then [] else [.w "return"]) ++ forwardCall d ++ [.p ";"]

/-- The shape of a block of `wrapper.c`: the declarator names the block's macro; a
constant is initialised by the one word that is its own name, a function has the
forwarding statement as its whole body. -/
def Block.defOK (b : Block) : Bool :=
  match parseDecl b.pre with
  | some d =>
    decide (d.name = b.undefd) &&
      (if d.params.isSome then decide (d.stop = .p "\x7b" ∧ b.post = [forwardBody d, [.p "\x7d"]])
       else decide (d.stop = .p "=" ∧ b.post = [[.w d.name, .p ";"]]))
  | none => false

/-- The shape of a block of `wrapper.h`: a declaration of the block's macro name, and
nothing behind `pop_macro`. -/
def Block.declOK (b : Block) : Bool :=
  match parseDecl b.pre with
  | some d => decide (d.name = b.undefd ∧ d.stop = .p ";" ∧ b.post = [])
  | none => false

/-- The forwarding statement of a function definition: the call of its own name on
its own parameters, in order, as a `return` statement or as an expression statement. -/
def FuncDef.forward (f : FuncDef) (isRet : Bool) : List Tok :=
  (if isRet then [.w "return"] else []) ++
    .w f.name :: .p "(" :: (argToks f.params ++ [.p ")", .p ";"])

/-- The function definition a block of source lines holds, read without expansion. -/
def rawFunc (b : Block) : Option FuncDef := parseFuncDef (b.pre :: b.post)

/-- The constant definition a block of source lines holds, read without expansion. -/
def rawConst (b : Block) : Option ConstDef := parseConstDef (b.pre :: b.post)

/-- A string starts with the given characters. -/
def startsWith (p s : String) : Bool := p.toList.isPrefixOf s.toList

/-! ## The three files -/

/-- The macro table that `duk_v1_compat.h` leaves behind when read after headers that
define no macro of their own. -/
def compatTable : MacroTable :=
  (run (fun _ E => E) 8 (PP.start fun _ => none) duk_v1_compat_h).defs

/-- Lines 8 to 751 of `wrapper.h`: what follows the include lines. -/
def exports_h : List Line := wrapper_h.drop 7

/-- Lines 2 to 948 of `wrapper.c`: what follows `#include "wrapper.h"`. -/
def exports_c : List Line := wrapper_c.drop 1

/-- The constants declared by `wrapper.h`. -/
def constDecls_h : List Decl := (declsOf exports_h).filter fun d => d.params.isNone

/-- The functions declared by `wrapper.h`. -/
def funDecls_h : List Decl := (declsOf exports_h).filter fun d => d.params.isSome

/-- The constants defined by `wrapper.c`. -/
def constDefs_c : List Decl := (declsOf exports_c).filter fun d => d.params.isNone

/-- The functions defined by `wrapper.c`. -/
def funDefs_c : List Decl := (declsOf exports_c).filter fun d => d.params.isSome

/-- The lines of the translation unit of `wrapper.c` after the engine headers: line 1
of `wrapper.c` includes `wrapper.h`, whose lines 1 to 6 include the engine headers. -/
def unitLines : List Line := exports_h ++ exports_c

/-- The export blocks of `wrapper.h`. -/
def blocks_h : List Block := blocksOf exports_h

/-- The export blocks of `wrapper.c`. -/
def blocks_c : List Block := blocksOf exports_c

/-- What the export blocks of the unit emit, block by block, when the engine headers
leave the macro table `E` behind. -/
def unitItems (E : MacroTable) (depth : Nat) : List (List (List Tok)) :=
  itemsFrom (fun _ T => T) depth (PP.start E) (splitBlank unitLines)

/-- The function definitions of the preprocessed unit. -/
def unitFuncs (E : MacroTable) (depth : Nat) : List FuncDef :=
  (unitItems E depth).filterMap parseFuncDef

/-- The constant definitions of the preprocessed unit. -/
def unitConsts (E : MacroTable) (depth : Nat) : List ConstDef :=
  (unitItems E depth).filterMap parseConstDef

/-- The definition the unit gives to a function name. -/
def lookupFun (E : MacroTable) (depth : Nat) (g : String) : Option FuncDef :=
  (unitFuncs E depth).find? fun f => f.name = g

/-- A call of the exported function `g` on the values `vs` in engine state `s`. -/
def callWrapper {σ Val Err : Type} (eng : Engine σ Val Err) (E : MacroTable) (depth : Nat)
    (fuel : Nat) (g : String) (vs : List Val) (s : σ) : Res σ Val Err :=
  match lookupFun E depth g with
  | some f => call eng (lookupFun E depth) fuel f vs s
  | none => .stuck

/-- The function definitions of the unit as the source lines spell them. -/
def srcFuncs : List FuncDef := (blocksOf unitLines).filterMap rawFunc

/-- The constant definitions of the unit as the source lines spell them. -/
def srcConsts : List ConstDef := (blocksOf unitLines).filterMap rawConst

/-- The three constants that hold strings. -/
def gitNames : List String := ["DUK_GIT_COMMIT", "DUK_GIT_DESCRIBE", "DUK_GIT_BRANCH"]

/-- Modelled from the spec: the integer type names the exported constants use.  `long`
is the C type; the `duk_*_t` names are the engine's typedefs for its integer types
("integer width variants, signed/unsigned"), declared in engine headers that are not
part of the source tree. -/
def integerTypes : List String :=
  ["long", "duk_int_t", "duk_uint_t", "duk_idx_t", "duk_size_t", "duk_errcode_t", "duk_ret_t"]

/-- The entry points for which `wrapper.c` defines a function although
`duk_v1_compat.h` declares them as real functions of the engine library. -/
def fileEntryPoints : List String :=
  ["duk_eval_file", "duk_eval_file_noresult", "duk_peval_file", "duk_peval_file_noresult",
   "duk_compile_file", "duk_pcompile_file", "duk_dump_context_stdout",
   "duk_dump_context_stderr"]

/-- A direct invocation `F ( x1 , ... , xn )` of the name `F` on the argument words `xs`
in a unit built against the engine headers without the shim, under the values `ρ` of
the variables: the tokens of the invocation are macro-expanded under the engine
headers' table `E`, and the result is evaluated by the engine alone (no function of
`wrapper.c` is in scope). -/
def invokeMacro {σ Val Err : Type} (eng : Engine σ Val Err) (E : MacroTable) (depth : Nat)
    (F : String) (xs : List String) (ρ : String → Option Val) (s : σ) : Outcome σ Val Err :=
  engineEval eng (expand E depth [] (Tok.w F :: Tok.p "(" :: (argToks xs ++ [Tok.p ")"]))) ρ s

/-- The expression is not a call of a function that `wrapper.c` defines: it reaches the
engine without passing through the shim again. -/
def callsNoWrapper (e : List Tok) : Bool :=
  match parseCall e with
  | some (g, _) => srcFuncs.all fun f => decide (f.name ≠ g)
  | none => true

/-- A sample macro table for evaluating calls on concrete inputs: the table that
`duk_v1_compat.h` leaves behind, with `duk_create_heap_default` defined as a macro
without parameters (a call of `duk_create_heap` on five null pointers, written `0`) and
`duk_push_error_object` as a macro whose third parameter takes the trailing arguments.
The two definitions stand in for those of `duktape.h`, which is not part of the source
tree. -/
def sampleTable : MacroTable :=
  upd
    (upd compatTable "duk_create_heap_default"
      (some (.fn []
        [Tok.w "duk_create_heap", Tok.p "(", Tok.n "0", Tok.p ",", Tok.n "0", Tok.p ",",
          Tok.n "0", Tok.p ",", Tok.n "0", Tok.p ",", Tok.n "0", Tok.p ")"])))
    "duk_push_error_object"
    (some (.fn ["ctx", "err_code", "__VA_ARGS__"]
      [Tok.w "duk_push_error_object_raw", Tok.p "(", Tok.p "(", Tok.w "ctx", Tok.p ")",
        Tok.p ",", Tok.p "(", Tok.w "err_code", Tok.p ")", Tok.p ",", Tok.w "__VA_ARGS__",
        Tok.p ")"]))

/-- The three file variants among the protected entry points. -/
def protectedFileEntryPoints : List String :=
  ["duk_peval_file", "duk_peval_file_noresult", "duk_pcompile_file"]

/-- The protected entry points: the names that start with `duk_peval` or `duk_pcompile`. -/
def isProtected (name : String) : Bool :=
  startsWith "duk_peval" name || startsWith "duk_pcompile" name

/-- The parameters of the declared functions that have the given name, with the
function they belong to. -/
def paramsNamed (ds : List Decl) (x : String) : List (String × List Tok) :=
  ds.flatMap fun d => ((d.params.getD []).filter fun p => p.2 = x).map fun p => (d.name, p.1)

/-- A sample macro table in which the exported constants are macros: `DUK_RET_ERROR` is
defined as `( - DUK_ERR_ERROR )`, a replacement list that names another macro, every
other name that starts with `DUK_` is defined as `1`, and every other name is as
`duk_v1_compat.h` leaves it.  The definitions stand in for those of `duktape.h` and
`duk_logging.h`, which are not part of the source tree. -/
def constTable : MacroTable := fun x =>
  if x = "DUK_RET_ERROR" then
    some (.obj [Tok.p "(", Tok.p "-", Tok.w "DUK_ERR_ERROR", Tok.p ")"])
  else if startsWith "DUK_" x then some (.obj [Tok.n "1"])
  else compatTable x

/-- The macro table in force where the export blocks of the unit begin: lines 1 to 7 of
`wrapper.h` read from the empty table, `hdr f` being the effect on the macro table of
including the engine header `f`. -/
def unitTable (hdr : String → MacroTable → MacroTable) : MacroTable :=
  (run hdr 8 (PP.start fun _ => none) (wrapper_h.take 7)).defs
/-! ## Preservation of the macro table -/

section Preprocessor

variable (hdr : String → MacroTable → MacroTable) (depth : Nat)

theorem upd_upd_self {α : Type} (f : String → α) (x : String) (a : α) :
    upd (upd f x a) x (f x) = f := by
  funext y
  by_cases h : y = x <;> simp [upd, h]

theorem PP.active_eq (d : MacroTable) (sv : String → List (Option MacroDef)) (c : List Bool)
    (o : List (List Tok)) : PP.active ⟨d, sv, c, o⟩ = c.headD true := rfl

theorem run_nil (s : PP) : run hdr depth s [] = s := rfl

theorem run_cons (s : PP) (l : Line) (ls : List Line) :
    run hdr depth s (l :: ls) = run hdr depth (step hdr depth s l) ls := rfl

theorem run_append (s : PP) (l₁ l₂ : List Line) :
    run hdr depth s (l₁ ++ l₂) = run hdr depth (run hdr depth s l₁) l₂ := by
  simp [run, List.foldl_append]

/-- Code lines change nothing but the output. -/
theorem run_codes (s : PP) (post : List (List Tok)) :
    run hdr depth s (post.map .code) =
      { s with out := s.out ++ if s.active then post.map (expand s.defs depth []) else [] } := by
  induction post generalizing s with
  | nil => simp [run]
  | cons t r ih =>
    rw [List.map_cons, run_cons, ih]
    obtain ⟨d, sv, c, o⟩ := s
    by_cases h : c.head?.getD true = true
    · simp [step, PP.active, h]
    · simp [step, PP.active, h]

/-- The state after an export block around one name `x`: only the output has grown, by
the declarator expanded with `x` undefined and the following lines expanded with the
table as it was before the block. -/
theorem run_block (s : PP) (x : String) (pre : List Tok) (post : List (List Tok)) :
    run hdr depth s (Block.lines ⟨x, x, pre, x, post⟩) =
      { s with out := s.out ++
          if s.active then
            expand (upd s.defs x none) depth [] pre :: post.map (expand s.defs depth [])
          else [] } := by
  unfold Block.lines
  simp only [run_cons]
  rw [run_codes]
  obtain ⟨d, sv, c, o⟩ := s
  have hs : upd sv x (d x :: sv x) x = d x :: sv x := by simp [upd]
  by_cases h : c.head?.getD true = true
  · simp [step, PP.active, h, hs, upd_upd_self]
  · simp [step, PP.active, h]

theorem codeLines_map {ls : List Line} {post : List (List Tok)}
    (h : codeLines ls = some post) : ls = post.map .code := by
  induction ls generalizing post with
  | nil => simp [codeLines] at h; simp [← h]
  | cons l r ih =>
    cases l <;> simp [codeLines] at h
    obtain ⟨a, ha, rfl⟩ := h
    simp [ih ha]

/-- A group accepted by `toBlock` is the line sequence of its block. -/
theorem toBlock_lines {g : List Line} {b : Block} (h : toBlock g = some b) : g = b.lines := by
  match g, h with
  | .pushMacro a :: .undef c :: .code pre :: .popMacro e :: r, h =>
    simp only [toBlock, Option.map_eq_some'] at h
    obtain ⟨post, hpost, rfl⟩ := h
    simp [Block.lines, codeLines_map hpost]

theorem splitBlank_ne_nil (ls : List Line) : splitBlank ls ≠ [] := by
  cases ls with
  | nil => simp [splitBlank]
  | cons l r =>
    unfold splitBlank
    split
    · simp
    · split <;> simp

/-- Empty lines do nothing: preprocessing a file is preprocessing its groups in turn. -/
theorem run_splitBlank (s : PP) (ls : List Line) :
    run hdr depth s ls = (splitBlank ls).foldl (run hdr depth) s := by
  induction ls generalizing s with
  | nil => simp [splitBlank, run]
  | cons l r ih =>
    unfold splitBlank
    split
    · next h =>
      subst h
      simp only [List.foldl_cons, run_nil, run_cons]
      rw [ih]
      rfl
    · have hne := splitBlank_ne_nil r
      split
      · next h => exact absurd h hne
      · next g gs h =>
        simp only [List.foldl_cons, run_cons]
        rw [ih, h]
        simp [List.foldl_cons]

/-- A group accepted by `groupOK` is a block around one name. -/
theorem groupOK_lines {g : List Line} (h : groupOK g = true) :
    ∃ b : Block, toBlock g = some b ∧ g = Block.lines ⟨b.undefd, b.undefd, b.pre, b.undefd, b.post⟩ := by
  unfold groupOK at h
  split at h
  · next b hb =>
    simp at h
    refine ⟨b, hb, ?_⟩
    have := toBlock_lines hb
    obtain ⟨a, u, pre, c, post⟩ := b
    simp at h
    obtain ⟨rfl, rfl⟩ := h
    simpa using this
  · simp at h

/-- Preprocessing well-formed groups: the macro table, the saved definitions and the
conditional stack are as before; the output has grown by what each block emits. -/
theorem foldl_run_groups (gs : List (List Line))
    (h : gs.all (fun g => g.isEmpty || groupOK g) = true) (s : PP) :
    gs.foldl (run hdr depth) s =
      { s with out := s.out ++
          if s.active then (gs.filterMap toBlock).flatMap (Block.emit s.defs depth) else [] } := by
  induction gs generalizing s with
  | nil => simp
  | cons g gs ih =>
    simp only [List.all_cons, Bool.and_eq_true, Bool.or_eq_true] at h
    obtain ⟨hg, hgs⟩ := h
    rw [List.foldl_cons, ih hgs]
    rcases hg with hg | hg
    · have : g = [] := by simpa using hg
      subst this
      simp [run, toBlock]
    · obtain ⟨b, hb, hl⟩ := groupOK_lines hg
      rw [hl, run_block]
      obtain ⟨d, sv, c, o⟩ := s
      have hb2 : toBlock (Block.lines ⟨b.undefd, b.undefd, b.pre, b.undefd, b.post⟩) = some b := by
        rw [← hl]; exact hb
      by_cases ha : c.head?.getD true = true
      · simp [PP.active, ha, hb2, Block.emit, List.flatMap_cons]
      · simp [PP.active, ha]

/-- Preprocessing a list of lines made of export blocks. -/
theorem run_allBlocks {ls : List Line} (h : allBlocks ls = true) (s : PP) :
    run hdr depth s ls =
      { s with out := s.out ++
          if s.active then (blocksOf ls).flatMap (Block.emit s.defs depth) else [] } := by
  rw [run_splitBlank]
  exact foldl_run_groups hdr depth _ h s

end Preprocessor


section Expansion

variable (E : MacroTable) (rescan : List String → List Tok → List Tok) (hide : List String)

/-- A word is left alone by the scanner when it is hidden or names no macro. -/
def Inert (E : MacroTable) (hide : List String) (t : Tok) : Prop :=
  ∀ x, t = Tok.w x → x ∈ hide ∨ E x = none

theorem scanNormal_inert {t : Tok} (h : Inert E hide t) (out : List Tok) :
    scanNormal E rescan hide out t = ⟨.normal, out ++ [t]⟩ := by
  cases t with
  | w x =>
    rcases h x rfl with h | h
    · simp [scanNormal, h]
    · by_cases hx : x ∈ hide <;> simp [scanNormal, h, hx]
  | n k => rfl
  | p k => rfl

theorem foldl_scan_inert (ts : List Tok) (h : ∀ t ∈ ts, Inert E hide t) (out : List Tok) :
    ts.foldl (scanStep E rescan hide) ⟨.normal, out⟩ = ⟨.normal, out ++ ts⟩ := by
  induction ts generalizing out with
  | nil => simp
  | cons t r ih =>
    have ht := h t (by simp)
    rw [List.foldl_cons]
    have : scanStep E rescan hide ⟨.normal, out⟩ t = ⟨.normal, out ++ [t]⟩ := by
      simp [scanStep, scanNormal_inert E rescan hide ht]
    rw [this, ih (fun t ht => h t (by simp [ht]))]
    simp

/-- Tokens none of which names a macro expand to themselves. -/
theorem expand_inert (depth : Nat) (ts : List Tok) (h : ∀ t ∈ ts, Inert E hide t) :
    expand E depth hide ts = ts := by
  cases depth with
  | zero => rfl
  | succ d => simp [expand, foldl_scan_inert E _ hide ts h, scanFinish]

/-- What the scanner has emitted is never changed again. -/
theorem foldl_scan_out (ts : List Tok) (m : Mode) (out : List Tok) :
    ts.foldl (scanStep E rescan hide) ⟨m, out⟩ =
      ⟨(ts.foldl (scanStep E rescan hide) ⟨m, []⟩).mode,
        out ++ (ts.foldl (scanStep E rescan hide) ⟨m, []⟩).out⟩ := by
  induction ts generalizing m out with
  | nil => simp
  | cons t r ih =>
    have key : ∀ o, scanStep E rescan hide ⟨m, o⟩ t =
        ⟨(scanStep E rescan hide ⟨m, []⟩ t).mode, o ++ (scanStep E rescan hide ⟨m, []⟩ t).out⟩ := by
      intro o
      cases m with
      | normal =>
        cases t with
        | w x =>
          simp only [scanStep, scanNormal]
          split
          · simp
          · split <;> simp
        | n k => simp [scanStep, scanNormal]
        | p k => simp [scanStep, scanNormal]
      | pending x ps body =>
        simp only [scanStep]
        split
        · simp
        · cases t with
          | w y =>
            simp only [scanNormal]
            split
            · simp
            · split <;> simp
          | n k => simp [scanNormal]
          | p k => simp [scanNormal]
      | collect x ps body d args cur raw =>
        simp only [scanStep]
        split
        · simp
        · split
          · cases d with
            | zero =>
              simp only []
              split <;> simp
            | succ d => simp
          · split <;> simp
    rw [List.foldl_cons, List.foldl_cons, key out]
    rcases scanStep E rescan hide ⟨m, []⟩ t with ⟨m', o'⟩
    simp only []
    rw [ih m' (out ++ o'), ih m' o']
    simp

theorem expand_succ (d : Nat) (ts : List Tok) :
    expand E (d + 1) hide ts =
      scanFinish (ts.foldl (scanStep E (expand E d) hide) ⟨.normal, []⟩) := rfl

/-- When the scan of a prefix ends between invocations, the rest is expanded on its own. -/
theorem expand_append_of_normal (d : Nat) (ts rest out : List Tok)
    (h : ts.foldl (scanStep E (expand E d) hide) ⟨.normal, []⟩ = ⟨.normal, out⟩) :
    expand E (d + 1) hide (ts ++ rest) = out ++ expand E (d + 1) hide rest := by
  rw [expand_succ, expand_succ, List.foldl_append, h, foldl_scan_out]
  cases hr : List.foldl (scanStep E (expand E d) hide) ⟨.normal, []⟩ rest with
  | mk m o =>
    cases m <;> simp [scanFinish]

/-- A token that names no macro is copied. -/
theorem expand_cons_inert (d : Nat) (t : Tok) (rest : List Tok) (h : Inert E hide t) :
    expand E (d + 1) hide (t :: rest) = t :: expand E (d + 1) hide rest := by
  have := expand_append_of_normal E hide d [t] rest [t]
    (by simp [scanStep, scanNormal_inert E _ hide h])
  simpa using this

/-- The name of an object-like macro is replaced by its rescanned replacement list. -/
theorem expand_cons_obj (d : Nat) (x : String) (body rest : List Tok)
    (hx : E x = some (.obj body)) (hh : x ∉ hide) :
    expand E (d + 1) hide (Tok.w x :: rest) =
      expand E d (x :: hide) body ++ expand E (d + 1) hide rest := by
  have := expand_append_of_normal E hide d [Tok.w x] rest (expand E d (x :: hide) body)
    (by simp [scanStep, scanNormal, hx, hh])
  simpa using this

/-- Reading the arguments `a , b , c )` of an invocation whose arity fits. -/
theorem foldl_collect (x : String) (ps : List String) (body : List Tok) (xs : List String)
    (hne : xs ≠ []) (args : List (List Tok)) (raw out : List Tok)
    (hlen : args.length + xs.length = ps.length) :
    (argToks xs ++ [Tok.p ")"]).foldl (scanStep E rescan hide)
        ⟨.collect x ps body 0 args [] raw, out⟩ =
      ⟨.normal, out ++ rescan (x :: hide)
        (subst ps ((args ++ xs.map fun a => [Tok.w a]).map (rescan hide)) body)⟩ := by
  induction xs generalizing args raw with
  | nil => exact absurd rfl hne
  | cons a r ih =>
    cases r with
    | nil =>
      simp [argToks, scanStep, closeArgs]
      intro h
      simp at hlen
      omega
    | cons b r =>
      simp only [argToks, List.cons_append, List.foldl_cons]
      have h1 : scanStep E rescan hide ⟨.collect x ps body 0 args [] raw, out⟩ (Tok.w a) =
          ⟨.collect x ps body 0 args [Tok.w a] (raw ++ [Tok.w a]), out⟩ := by
        simp [scanStep]
      have h2 : scanStep E rescan hide ⟨.collect x ps body 0 args [Tok.w a] (raw ++ [Tok.w a]), out⟩
          (Tok.p ",") = ⟨.collect x ps body 0 (args ++ [[Tok.w a]]) [] (raw ++ [Tok.w a] ++ [Tok.p ","]), out⟩ := by
        simp [scanStep]
      rw [h1, h2, ih (by simp) (args ++ [[Tok.w a]]) _ (by simp at hlen ⊢; omega)]
      simp

/-- A function-like macro invoked on as many words as it has parameters is replaced by
its replacement list, the parameters replaced by the (expanded) arguments, rescanned. -/
theorem expand_call (d : Nat) (x : String) (ps : List String) (body : List Tok)
    (xs : List String) (rest : List Tok)
    (hx : E x = some (.fn ps body)) (hh : x ∉ hide) (hlen : xs.length = ps.length) :
    expand E (d + 1) hide (Tok.w x :: Tok.p "(" :: (argToks xs ++ Tok.p ")" :: rest)) =
      expand E d (x :: hide) (subst ps ((xs.map fun a => [Tok.w a]).map (expand E d hide)) body) ++
        expand E (d + 1) hide rest := by
  have key : (Tok.w x :: Tok.p "(" :: (argToks xs ++ [Tok.p ")"])).foldl
      (scanStep E (expand E d) hide) ⟨.normal, []⟩ =
      ⟨.normal, expand E d (x :: hide)
        (subst ps ((xs.map fun a => [Tok.w a]).map (expand E d hide)) body)⟩ := by
    simp only [List.foldl_cons]
    have h1 : scanStep E (expand E d) hide ⟨.normal, []⟩ (Tok.w x) = ⟨.pending x ps body, []⟩ := by
      simp [scanStep, scanNormal, hx, hh]
    have h2 : scanStep E (expand E d) hide ⟨.pending x ps body, []⟩ (Tok.p "(") =
        ⟨.collect x ps body 0 [] [] [Tok.w x, Tok.p "("], []⟩ := by
      simp [scanStep]
    rw [h1, h2]
    cases xs with
    | nil =>
      have hps : ps = [] := by
        cases ps with
        | nil => rfl
        | cons _ _ => simp at hlen
      subst hps
      simp [argToks, scanStep, closeArgs]
    | cons a r =>
      rw [foldl_collect E _ hide x ps body (a :: r) (by simp) [] _ [] (by simpa using hlen)]
      simp
  have := expand_append_of_normal E hide d _ rest _ key
  simpa using this

end Expansion

section Unit

variable (hdr : String → MacroTable → MacroTable) (depth : Nat)

/-- What a group emits. -/
theorem emitted_group {g : List Line} (hg : (g.isEmpty || groupOK g) = true) (s : PP)
    (ha : s.active = true) :
    emitted hdr depth s g = ((toBlock g).map (Block.emit s.defs depth)).getD [] ∧
      (run hdr depth s g).defs = s.defs ∧ (run hdr depth s g).active = true := by
  have h1 := foldl_run_groups hdr depth [g] (by simpa using hg)
  obtain ⟨d, sv, c, o⟩ := s
  have ha2 : c.head?.getD true = true := by simpa [PP.active] using ha
  have e1 := h1 ⟨d, sv, c, []⟩
  have e2 := h1 ⟨d, sv, c, o⟩
  simp only [List.foldl_cons, List.foldl_nil] at e1 e2
  refine ⟨?_, ?_, ?_⟩
  · simp only [emitted, e1]
    cases hb : toBlock g <;> simp [PP.active, ha2, hb]
  · rw [e2]
  · rw [e2]; simpa [PP.active] using ha2

/-- The items of well-formed groups are what their blocks emit under the unchanged table. -/
theorem itemsFrom_groups (gs : List (List Line))
    (h : gs.all (fun g => g.isEmpty || groupOK g) = true) (s : PP) (ha : s.active = true) :
    itemsFrom hdr depth s gs =
      gs.map fun g => ((toBlock g).map (Block.emit s.defs depth)).getD [] := by
  induction gs generalizing s with
  | nil => rfl
  | cons g gs ih =>
    simp only [List.all_cons, Bool.and_eq_true] at h
    obtain ⟨hg, hgs⟩ := h
    obtain ⟨e1, e2, e3⟩ := emitted_group hdr depth hg s ha
    simp only [itemsFrom, List.map_cons, e1]
    rw [ih hgs _ e3, e2]

/-- Reading items with a reader that rejects the empty item is reading what the blocks emit. -/
theorem filterMap_items {α : Type} (P : List (List Tok) → Option α) (hP : P [] = none)
    (E : MacroTable) (gs : List (List Line)) :
    (gs.map fun g => ((toBlock g).map (Block.emit E depth)).getD []).filterMap P =
      (gs.filterMap toBlock).filterMap fun b => P (b.emit E depth) := by
  induction gs with
  | nil => rfl
  | cons g gs ih =>
    cases hb : toBlock g with
    | none => simp [List.filterMap_cons, hb, hP, ih]
    | some b =>
      simp only [List.map_cons, hb, Option.map_some', Option.getD_some]
      cases hp : P (b.emit E depth) <;> simp [List.filterMap_cons, hb, hp, ih]

end Unit

section Shapes

variable (E : MacroTable) (depth : Nat)

theorem inert_of_mem_wordsOf_nil {hide : List String} (l : List Tok) (h : (wordsOf l).isEmpty = true) :
    ∀ t ∈ l, Inert E hide t := by
  intro t ht x hx
  subst hx
  have : x ∈ wordsOf l := by
    simp only [wordsOf, List.mem_filterMap]
    exact ⟨_, ht, rfl⟩
  simp [List.isEmpty_iff] at h
  simp [h] at this

/-- The lines a well-shaped block emits when the engine headers leave the shim's own
words alone: the declarator as written, the first line behind `pop_macro` expanded,
the rest as written. -/
theorem emit_of_inertOK (hE : Plain E) (b : Block) (hb : b.inertOK = true) :
    b.emit E depth =
      b.pre :: (match b.post with
        | [] => []
        | l :: r => expand E depth [] l :: r) := by
  simp only [Block.inertOK, Bool.and_eq_true, List.all_eq_true, decide_eq_true_eq] at hb
  obtain ⟨h1, h2⟩ := hb
  have hpre : expand (upd E b.undefd none) depth [] b.pre = b.pre := by
    apply expand_inert
    intro t ht x hx
    subst hx
    right
    have hm : x ∈ wordsOf b.pre := by
      simp only [wordsOf, List.mem_filterMap]
      exact ⟨_, ht, rfl⟩
    rcases h1 x hm with h | h
    · simp [upd, h]
    · by_cases hx : x = b.undefd
      · simp [upd, hx]
      · simp [upd, hx, hE x h]
  simp only [Block.emit, hpre]
  cases hp : b.post with
  | nil => simp
  | cons l r =>
    simp only [List.map_cons, List.cons.injEq, true_and]
    rw [hp] at h2
    simp only [List.drop_succ_cons, List.drop_zero] at h2
    have : ∀ l' ∈ r, expand E depth [] l' = l' := by
      intro l' hl'
      exact expand_inert E [] depth l' (inert_of_mem_wordsOf_nil E l' (h2 l' hl'))
    calc List.map (expand E depth []) r = List.map id r := List.map_congr_left (by simpa using this)
      _ = r := List.map_id r

/-- The body of a function definition passes through the reader unchanged. -/
theorem parseFuncDef_emit (hE : Plain E) (b : Block) (hb : b.inertOK = true) :
    parseFuncDef (b.emit E depth) =
      (rawFunc b).map fun f => { f with body := expand E depth [] f.body } := by
  rw [emit_of_inertOK E depth hE b hb, rawFunc]
  rcases hp : b.post with _ | ⟨l, _ | ⟨c, _ | ⟨x, r⟩⟩⟩
  · simp [parseFuncDef]
  · simp [parseFuncDef]
  · simp only [parseFuncDef]
    cases parseDecl b.pre with
    | none => simp
    | some d =>
      simp only [Option.some_bind]
      split
      · cases d.params <;> simp
      · simp
  · simp [parseFuncDef]

/-- A word followed by `;` expands to the expansion of the word, followed by `;`. -/
theorem expand_word_semi (x : String) :
    expand E depth [] [Tok.w x, Tok.p ";"] = expand E depth [] [Tok.w x] ++ [Tok.p ";"] := by
  cases depth with
  | zero => rfl
  | succ d =>
    cases hx : E x with
    | none => simp [expand, scanStep, scanNormal, scanFinish, hx]
    | some m =>
      cases m with
      | obj body => simp [expand, scanStep, scanNormal, scanFinish, hx]
      | fn ps body => simp [expand, scanStep, scanNormal, scanFinish, hx]

/-- The initialiser of a constant definition is the expansion of the constant's own name. -/
theorem parseConstDef_emit (hE : Plain E) (b : Block) (hb : b.inertOK = true)
    (hs : b.defOK = true ∨ b.declOK = true) :
    parseConstDef (b.emit E depth) =
      (rawConst b).map fun c => { c with init := expand E depth [] [Tok.w c.name] } := by
  rw [emit_of_inertOK E depth hE b hb, rawConst]
  rcases hs with hs | hs
  · unfold Block.defOK at hs
    cases hd : parseDecl b.pre with
    | none => simp [hd] at hs
    | some d =>
      simp only [hd, Bool.and_eq_true, decide_eq_true_eq] at hs
      obtain ⟨_, hs⟩ := hs
      cases hps : d.params with
      | some ps =>
        simp only [hps, Option.isSome_some, if_true, decide_eq_true_eq] at hs
        simp [hs.2, parseConstDef]
      | none =>
        simp only [hps, Option.isSome_none, Bool.false_eq_true, if_false, decide_eq_true_eq] at hs
        simp [hs.2, parseConstDef, hd, expand_word_semi, hs.1, hps]
  · unfold Block.declOK at hs
    cases hd : parseDecl b.pre with
    | none => simp [hd] at hs
    | some d =>
      simp only [hd, decide_eq_true_eq] at hs
      simp [hs.2.2, parseConstDef]

end Shapes

section Tables

variable (E : MacroTable) (depth : Nat)

/-- The function definitions of a preprocessed list of export blocks are those the
source spells, their bodies expanded. -/
theorem funcs_of_lines (hE : Plain E) (ls : List Line) (h : allBlocks ls = true)
    (hs : ∀ b ∈ blocksOf ls, b.inertOK = true) :
    (itemsFrom (fun _ T => T) depth (PP.start E) (splitBlank ls)).filterMap parseFuncDef =
      ((blocksOf ls).filterMap rawFunc).map fun f =>
        { f with body := expand E depth [] f.body } := by
  rw [itemsFrom_groups _ depth _ h (PP.start E) rfl]
  rw [filterMap_items depth parseFuncDef rfl]
  show (blocksOf ls).filterMap _ = _
  rw [List.map_filterMap]
  apply List.filterMap_congr
  intro b hb
  exact parseFuncDef_emit E depth hE b (hs b hb)

/-- The constant definitions of a preprocessed list of export blocks are those the
source spells, each initialiser being the expansion of the constant's own name. -/
theorem consts_of_lines (hE : Plain E) (ls : List Line) (h : allBlocks ls = true)
    (hs : ∀ b ∈ blocksOf ls, b.inertOK = true ∧ (b.defOK = true ∨ b.declOK = true)) :
    (itemsFrom (fun _ T => T) depth (PP.start E) (splitBlank ls)).filterMap parseConstDef =
      ((blocksOf ls).filterMap rawConst).map fun c =>
        { c with init := expand E depth [] [Tok.w c.name] } := by
  rw [itemsFrom_groups _ depth _ h (PP.start E) rfl]
  rw [filterMap_items depth parseConstDef rfl]
  show (blocksOf ls).filterMap _ = _
  rw [List.map_filterMap]
  apply List.filterMap_congr
  intro b hb
  exact parseConstDef_emit E depth hE b (hs b hb).1 (hs b hb).2

/-- Looking a function up by name does not depend on the bodies. -/
theorem find_map_body (fs : List FuncDef) (h : List Tok → List Tok) (g : String) :
    (fs.map fun f => { f with body := h f.body }).find? (fun f => f.name = g) =
      (fs.find? fun f => f.name = g).map fun f => { f with body := h f.body } := by
  induction fs with
  | nil => rfl
  | cons f fs ih =>
    by_cases hf : f.name = g
    · simp [List.find?_cons, hf]
    · simp [List.find?_cons, hf, ih]

end Tables


section Calls

variable {σ Val Err : Type} (eng : Engine σ Val Err) (funs : String → Option FuncDef)

/-- A function whose body is a call of its own name on arguments that evaluate to the
values it was called with, and whose name the unit resolves to itself, exhausts every
call depth: it never returns. -/
theorem call_loops (f : FuncDef) (isRet : Bool) (e : List Tok) (atoms : List Atom)
    (hs : parseStmt f.body = some (isRet, e)) (hc : parseCall e = some (f.name, atoms))
    (hf : funs f.name = some f) (vs : List Val)
    (hv : allSome (atoms.map (evalAtom eng (bindArgs f.params vs))) = some vs)
    (k : Nat) (s : σ) : call eng funs k f vs s = .outOfFuel := by
  induction k with
  | zero => rfl
  | succ k ih =>
    simp [call, hs, evalExpr, hc, hv, hf, ih, Res.keep]

end Calls

section Frames

variable (hdr : String → MacroTable → MacroTable) (depth : Nat)

/-- Only `push_macro` and `pop_macro` touch the stacks of saved definitions. -/
theorem run_saved (ls : List Line) (h : ls.all Line.noStack = true) (s : PP) :
    (run hdr depth s ls).saved = s.saved := by
  induction ls generalizing s with
  | nil => rfl
  | cons l r ih =>
    simp only [List.all_cons, Bool.and_eq_true] at h
    rw [run_cons, ih h.2]
    cases l <;> simp [step, Line.noStack] at h ⊢ <;> split <;> rfl

/-- A block around one name leaves the macro table and the saved definitions as they were. -/
theorem run_block_frame (s : PP) (b : Block) (h1 : b.pushed = b.undefd)
    (h2 : b.undefd = b.popped) :
    (run hdr depth s b.lines).defs = s.defs ∧ (run hdr depth s b.lines).saved = s.saved := by
  obtain ⟨a, u, pre, c, post⟩ := b
  simp only at h1 h2
  subst h1 h2
  rw [run_block]
  exact ⟨rfl, rfl⟩

end Frames

section Forwarding

variable (E : MacroTable)

/-- The forwarding statement of a wrapper whose name is a function-like macro with as
many parameters expands to the macro's replacement list, each macro parameter
replaced by the wrapper's parameter at its position, rescanned with the macro's name
hidden; `return` and `;` stay around it. -/
theorem forward_expands (hE : Plain E) (d : Nat) (f : FuncDef) (isRet : Bool)
    (ps : List String) (body : List Tok) (hF : E f.name = some (.fn ps body))
    (hlen : f.params.length = ps.length) (hp : ∀ x ∈ f.params, x ∈ plainWords) :
    expand E (d + 1) [] (f.forward isRet) =
      (if isRet then [Tok.w "return"] else []) ++
        expand E d [f.name] (subst ps (f.params.map fun a => [Tok.w a]) body) ++
        [Tok.p ";"] := by
  have hargs : (f.params.map fun a => [Tok.w a]).map (expand E d []) =
      f.params.map fun a => [Tok.w a] := by
    rw [List.map_map]
    apply List.map_congr_left
    intro a ha
    apply expand_inert
    intro t ht x hx
    subst hx
    simp at ht
    subst ht
    exact Or.inr (hE _ (hp _ ha))
  have hsemi : expand E (d + 1) [] [Tok.p ";"] = [Tok.p ";"] :=
    expand_inert E [] _ _ (by intro t ht x hx; subst hx; simp at ht)
  have hcall : expand E (d + 1) []
      (Tok.w f.name :: Tok.p "(" :: (argToks f.params ++ [Tok.p ")", Tok.p ";"])) =
      expand E d [f.name] (subst ps (f.params.map fun a => [Tok.w a]) body) ++ [Tok.p ";"] := by
    have := expand_call E [] d f.name ps body f.params [Tok.p ";"] hF (by simp) hlen
    rw [hargs, hsemi] at this
    exact this
  cases isRet with
  | false => simp [FuncDef.forward, hcall]
  | true =>
    have hr : Inert E [] (Tok.w "return") := by
      intro x hx
      cases hx
      exact Or.inr (hE _ (by decide))
    simp only [FuncDef.forward, if_true, List.singleton_append]
    rw [expand_cons_inert E [] d _ _ hr, hcall]
    simp

theorem mem_argToks {xs : List String} {t : Tok} (h : t ∈ argToks xs) :
    t = Tok.p "," ∨ ∃ x ∈ xs, t = Tok.w x := by
  induction xs with
  | nil => simp [argToks] at h
  | cons a r ih =>
    cases r with
    | nil =>
      simp [argToks] at h
      exact Or.inr ⟨a, by simp, h⟩
    | cons b r =>
      simp only [argToks, List.mem_cons] at h
      rcases h with h | h | h
      · exact Or.inr ⟨a, by simp, h⟩
      · exact Or.inl h
      · rcases ih (by simpa [List.mem_cons] using h) with h | ⟨x, hx, h⟩
        · exact Or.inl h
        · exact Or.inr ⟨x, by simp [hx], h⟩

/-- The forwarding statement of a wrapper whose name is no macro is left as written. -/
theorem forward_inert (hE : Plain E) (depth : Nat) (f : FuncDef) (isRet : Bool)
    (hF : E f.name = none) (hp : ∀ x ∈ f.params, x ∈ plainWords) :
    expand E depth [] (f.forward isRet) = f.forward isRet := by
  apply expand_inert
  intro t ht x hx
  subst hx
  right
  simp only [FuncDef.forward, List.mem_append, List.mem_cons] at ht
  rcases ht with ht | ht | ht | ht
  · cases isRet
    · simp at ht
    · simp at ht
      subst ht
      exact hE _ (by decide)
  · cases ht
    exact hF
  · cases ht
  · rcases ht with ht | ht
    · rcases mem_argToks ht with h | ⟨y, hy, h⟩
      · cases h
      · cases h
        exact hE _ (hp _ hy)
    · simp at ht

end Forwarding

section Statements

variable {σ Val Err : Type} (eng : Engine σ Val Err) (funs : String → Option FuncDef)

/-- A `return` statement keeps the whole outcome. -/
theorem Res.keep_true (r : Res σ Val Err) : r.keep true = r := by
  cases r with
  | done o => cases o <;> rfl
  | outOfFuel => rfl
  | stuck => rfl

/-- The statement `return X ;`. -/
theorem parseStmt_return (X : List Tok) :
    parseStmt (Tok.w "return" :: (X ++ [Tok.p ";"])) = some (true, X) := by
  simp [parseStmt]

/-- A function whose body is `return X ;` returns what `X` evaluates to under the
values it was called with. -/
theorem call_return (k : Nat) (f : FuncDef) (X : List Tok)
    (hb : f.body = Tok.w "return" :: (X ++ [Tok.p ";"])) (vs : List Val) (s : σ) :
    call eng funs (k + 1) f vs s =
      evalExpr eng funs (call eng funs k) X (bindArgs f.params vs) s := by
  simp only [call, hb, parseStmt_return, Res.keep_true]

/-- Each parameter, looked up among the values a call binds, is the value at its
position. -/
theorem evalAtoms_params (ps : List String) (vs : List Val) (hnd : ps.Nodup)
    (hlen : vs.length = ps.length) :
    allSome ((ps.map Atom.var).map (evalAtom eng (bindArgs ps vs))) = some vs := by
  induction ps generalizing vs with
  | nil =>
    cases vs with
    | nil => rfl
    | cons _ _ => simp at hlen
  | cons a r ih =>
    cases vs with
    | nil => simp at hlen
    | cons v vr =>
      have hnd2 := List.nodup_cons.1 hnd
      have hrest : (r.map Atom.var).map (evalAtom eng (bindArgs (a :: r) (v :: vr))) =
          (r.map Atom.var).map (evalAtom eng (bindArgs r vr)) := by
        rw [List.map_map, List.map_map]
        apply List.map_congr_left
        intro x hx
        have hne : x ≠ a := fun h => hnd2.1 (h ▸ hx)
        have hb : (x == a) = false := by simpa using hne
        simp [evalAtom, bindArgs, List.lookup, hb, List.zip]
      have ih2 := ih vr hnd2.2 (by simpa using hlen)
      have h0 : evalAtom eng (bindArgs (a :: r) (v :: vr)) (Atom.var a) = some v := by
        simp [evalAtom, bindArgs, List.lookup]
      rw [List.map_cons, List.map_cons, hrest, h0, allSome, ih2]
      rfl

end Statements

section Reference

/-- Looking a parameter up among mapped arguments. -/
theorem lookup_zip_map {β γ : Type} (f : β → γ) (ps : List String) (xs : List β) (x : String) :
    (ps.zip (xs.map f)).lookup x = ((ps.zip xs).lookup x).map f := by
  induction ps generalizing xs with
  | nil => simp
  | cons a r ih =>
    cases xs with
    | nil => simp
    | cons b bs =>
      simp only [List.map_cons, List.zip_cons_cons, List.lookup]
      cases h : (x == a) with
      | true => simp
      | false => simpa using ih bs

/-- Replacing the parameters of a macro by argument words renames the words of its
replacement list. -/
theorem subst_words (ps xs : List String) (body : List Tok) :
    subst ps (xs.map fun a => [Tok.w a]) body = body.map (renameTok ps xs) := by
  induction body with
  | nil => rfl
  | cons t r ih =>
    simp only [subst, List.flatMap_cons, List.map_cons] at ih ⊢
    rw [ih]
    cases t with
    | w x =>
      simp only [renameTok, lookup_zip_map]
      cases (ps.zip xs).lookup x <;> simp
    | n k => simp [renameTok]
    | p k => simp [renameTok]

/-- Renaming no parameter changes no token. -/
theorem map_renameTok_nil (body : List Tok) : body.map (renameTok [] []) = body := by
  induction body with
  | nil => rfl
  | cons t r ih =>
    rw [List.map_cons, ih]
    cases t <;> simp [renameTok]

variable {σ Val Err : Type} (eng : Engine σ Val Err)

/-- An expression that calls no function defined in the unit is evaluated by the engine
alone. -/
theorem evalExpr_engine (funs : String → Option FuncDef)
    (callFn : FuncDef → List Val → σ → Res σ Val Err) (e : List Tok)
    (ρ : String → Option Val) (s : σ)
    (h : ∀ g atoms, parseCall e = some (g, atoms) → funs g = none) :
    evalExpr eng funs callFn e ρ s = Res.done (engineEval eng e ρ s) := by
  unfold evalExpr engineEval
  cases hp : parseCall e with
  | none => rfl
  | some p =>
    obtain ⟨g, atoms⟩ := p
    simp only
    cases allSome (atoms.map (evalAtom eng ρ)) with
    | none => rfl
    | some vs => simp [h g atoms hp]

end Reference
/-! ## The two files are made of export blocks -/

set_option maxRecDepth 100000 in
theorem allBlocks_h : allBlocks exports_h = true := by decide

set_option maxRecDepth 100000 in
theorem allBlocks_c : allBlocks exports_c = true := by decide

set_option maxRecDepth 100000 in
theorem allBlocks_unit : allBlocks unitLines = true := by decide

set_option maxRecDepth 100000 in
theorem blocks_unit : blocksOf unitLines = blocks_h ++ blocks_c := by decide

set_option maxRecDepth 100000 in
theorem shape_h : ∀ b ∈ blocks_h, b.inertOK = true ∧ b.declOK = true := by decide

set_option maxRecDepth 100000 in
theorem shape_c : ∀ b ∈ blocks_c, b.inertOK = true ∧ b.defOK = true := by decide

theorem shape_unit :
    ∀ b ∈ blocksOf unitLines, b.inertOK = true ∧ (b.defOK = true ∨ b.declOK = true) := by
  intro b hb
  rw [blocks_unit, List.mem_append] at hb
  rcases hb with hb | hb
  · exact ⟨(shape_h b hb).1, Or.inr (shape_h b hb).2⟩
  · exact ⟨(shape_c b hb).1, Or.inl (shape_c b hb).2⟩

/-- The function definitions of the preprocessed unit. -/
theorem unitFuncs_eq (E : MacroTable) (depth : Nat) (hE : Plain E) :
    unitFuncs E depth = srcFuncs.map fun f => { f with body := expand E depth [] f.body } :=
  funcs_of_lines E depth hE unitLines allBlocks_unit fun b hb => (shape_unit b hb).1

/-- The constant definitions of the preprocessed unit. -/
theorem unitConsts_eq (E : MacroTable) (depth : Nat) (hE : Plain E) :
    unitConsts E depth =
      srcConsts.map fun c => { c with init := expand E depth [] [Tok.w c.name] } :=
  consts_of_lines E depth hE unitLines allBlocks_unit shape_unit

/-- The definition the preprocessed unit gives to a function name. -/
theorem lookupFun_eq (E : MacroTable) (depth : Nat) (hE : Plain E) (g : String) :
    lookupFun E depth g =
      (srcFuncs.find? fun f => f.name = g).map fun f =>
        { f with body := expand E depth [] f.body } := by
  rw [lookupFun, unitFuncs_eq E depth hE, find_map_body]

set_option maxRecDepth 100000 in
theorem srcConsts_names : srcConsts.map (fun c => c.name) = constDefs_c.map (fun d => d.name) := by
  decide

/-- A wrapper whose body calls the wrapper's own name, each parameter passed on, and
whose name is not a macro of the engine headers: the name in the body is not expanded, it
resolves to the wrapper being defined, and no call depth is enough for the call to
return. -/
theorem wrapper_loops {σ Val Err : Type} (eng : Engine σ Val Err) (E : MacroTable)
    (hE : Plain E) (depth : Nat) (g : String) (hF : E g = none) (f : FuncDef)
    (hfind : srcFuncs.find? (fun f => f.name = g) = some f) (hn : f.name = g)
    (hw : ∀ x ∈ wordsOf f.body, x = g ∨ x ∈ plainWords)
    (isRet : Bool) (e : List Tok) (atoms : List Atom)
    (hs : parseStmt f.body = some (isRet, e)) (hc : parseCall e = some (g, atoms))
    (vs : List Val) (hv : allSome (atoms.map (evalAtom eng (bindArgs f.params vs))) = some vs)
    (fuel : Nat) (s : σ) :
    callWrapper eng E depth fuel g vs s = Res.outOfFuel := by
  have hbody : expand E depth [] f.body = f.body := by
    apply expand_inert
    intro t ht x hx
    subst hx
    right
    have hm : x ∈ wordsOf f.body := by
      simp only [wordsOf, List.mem_filterMap]
      exact ⟨_, ht, rfl⟩
    rcases hw x hm with h | h
    · rw [h]; exact hF
    · exact hE x h
  have hl := lookupFun_eq E depth hE g
  rw [hfind] at hl
  simp only [Option.map_some', hbody] at hl
  have hl2 : lookupFun E depth f.name = some f := by rw [hn]; exact hl
  unfold callWrapper
  rw [hl]
  exact call_loops eng (lookupFun E depth) f isRet e atoms hs (by rw [hn]; exact hc) hl2 vs hv
    fuel s

set_option maxRecDepth 100000 in
/-- Every function `wrapper.c` defines has the forwarding statement as its body, has
parameters named by plain words, and is the one definition of its name. -/
theorem srcFuncs_forward :
    ∀ f ∈ srcFuncs,
      (f.body = f.forward false ∨ f.body = f.forward true) ∧
        (∀ x ∈ f.params, x ∈ plainWords) ∧
        srcFuncs.find? (fun g => g.name = f.name) = some f := by
  decide

/-- A wrapper whose name is a function-like macro of the engine headers with as many
parameters: in the preprocessed unit its body is the macro's replacement list, the
macro's parameters replaced by the wrapper's own in order, returned if the source
returns. -/
theorem lookupFun_of_macro (E : MacroTable) (hE : Plain E) (d : Nat) (f : FuncDef)
    (hf : f ∈ srcFuncs) (ps : List String) (body : List Tok)
    (hF : E f.name = some (.fn ps body)) (hlen : f.params.length = ps.length) :
    ∃ isRet : Bool, f.body = f.forward isRet ∧
      lookupFun E (d + 1) f.name =
        some ⟨f.name, f.params,
          (if isRet then [Tok.w "return"] else []) ++
            expand E d [f.name] (subst ps (f.params.map fun a => [Tok.w a]) body) ++
            [Tok.p ";"]⟩ := by
  obtain ⟨hb, hp, hfind⟩ := srcFuncs_forward f hf
  have key : ∀ isRet : Bool, f.body = f.forward isRet →
      lookupFun E (d + 1) f.name =
        some ⟨f.name, f.params,
          (if isRet then [Tok.w "return"] else []) ++
            expand E d [f.name] (subst ps (f.params.map fun a => [Tok.w a]) body) ++
            [Tok.p ";"]⟩ := by
    intro isRet h
    rw [lookupFun_eq E (d + 1) hE, hfind]
    simp only [Option.map_some']
    rw [h, forward_expands E hE d f isRet ps body hF hlen hp]
  rcases hb with hb | hb
  · exact ⟨false, hb, key false hb⟩
  · exact ⟨true, hb, key true hb⟩

/-- A wrapper whose name is no macro of the engine headers: in the preprocessed unit
its body is the forwarding statement as written, a call of the wrapper's own name. -/
theorem lookupFun_of_no_macro (E : MacroTable) (hE : Plain E) (depth : Nat) (f : FuncDef)
    (hf : f ∈ srcFuncs) (hF : E f.name = none) :
    lookupFun E depth f.name = some f := by
  obtain ⟨hb, hp, hfind⟩ := srcFuncs_forward f hf
  rw [lookupFun_eq E depth hE, hfind]
  simp only [Option.map_some']
  rcases hb with hb | hb
  · have := forward_inert E hE depth f false hF hp
    rw [← hb] at this
    rw [this]
  · have := forward_inert E hE depth f true hF hp
    rw [← hb] at this
    rw [this]

/-! ## The claims -/

set_option maxRecDepth 100000 in
/-- C1 (fails on the code at `duk_eval_file`).  When `duk_eval_file` is not a macro of the
engine headers, as `duk_v1_compat.h` has it by declaring a real function of that name, a
call of the exported `duk_eval_file(ctx, path)` yields no return value and no resulting
state from any engine state, whatever the engine's `duk_eval_file` does there: the
call in the wrapper's body is a call of the wrapper itself, and every call depth is
exhausted. -/
theorem duk_eval_file_wrapper_never_returns {σ Val Err : Type} (eng : Engine σ Val Err)
    (E : MacroTable) (hE : Plain E) (hF : E "duk_eval_file" = none) (depth fuel : Nat)
    (ctx path : Val) (s : σ) :
    callWrapper eng E depth fuel "duk_eval_file" [ctx, path] s = Res.outOfFuel :=
  wrapper_loops eng E hE depth "duk_eval_file" hF
    ⟨"duk_eval_file", ["ctx", "path"],
      [Tok.w "duk_eval_file", Tok.p "(", Tok.w "ctx", Tok.p ",", Tok.w "path", Tok.p ")",
        Tok.p ";"]⟩
    (by decide) rfl (by decide) false
    [Tok.w "duk_eval_file", Tok.p "(", Tok.w "ctx", Tok.p ",", Tok.w "path", Tok.p ")"]
    [Atom.var "ctx", Atom.var "path"] (by decide) (by decide) [ctx, path]
    (by simp [allSome, evalAtom, bindArgs, List.lookup]) fuel s

/-- The macro table of `duk_v1_compat.h` and the sample engine satisfy the hypotheses. -/
theorem duk_eval_file_wrapper_never_returns_witness :
    Plain compatTable ∧ compatTable "duk_eval_file" = none ∧
      callWrapper sampleEngine compatTable 4 1000 "duk_eval_file" [7, 1] 0 = Res.outOfFuel :=
  ⟨by decide, by decide,
    duk_eval_file_wrapper_never_returns sampleEngine compatTable (by decide) (by decide)
      4 1000 7 1 0⟩

/-- C2.  Under any macro table `E` the engine headers leave behind (one that does not
define the shim's own keywords, type names and parameter names), the preprocessed unit
defines exactly the constants `wrapper.c` names, and the initialiser of each constant
`K` is the expansion of the word `K` under `E`: the macro was put back by `pop_macro`
before the initialiser line.  When `K` is an object-like macro of `E`, the initialiser
is its (rescanned) replacement list; the value stored in `K` is therefore the value of
the macro as an initialiser of `K`'s type. -/
theorem constant_initialiser_expands_name (E : MacroTable) (depth : Nat) (hE : Plain E) :
    (unitConsts E depth).map (fun c => c.name) = constDefs_c.map (fun d => d.name) ∧
      ∀ c ∈ unitConsts E depth,
        c.init = expand E depth [] [Tok.w c.name] ∧
        (∀ d body, depth = d + 1 → E c.name = some (.obj body) →
          c.init = expand E d [c.name] body) ∧
        ∀ (σ Val Err : Type) (eng : Engine σ Val Err),
          eng.init c.type c.init = eng.init c.type (expand E depth [] [Tok.w c.name]) := by
  rw [unitConsts_eq E depth hE]
  refine ⟨?_, ?_⟩
  · rw [List.map_map, ← srcConsts_names]
    rfl
  · intro c hc
    obtain ⟨c0, _, rfl⟩ := List.mem_map.1 hc
    refine ⟨rfl, ?_, fun _ _ _ _ => rfl⟩
    intro d body hd hb
    subst hd
    have := expand_cons_obj E [] d c0.name body [] hb (by simp)
    simpa [expand, scanFinish] using this

set_option maxRecDepth 100000 in
/-- In the sample table of constants every constant `wrapper.c` defines is an object-like
macro; the initialiser of `DUK_RET_ERROR` in the preprocessed unit is the macro's
replacement list with the macro `DUK_ERR_ERROR` it names replaced in turn, and the
initialiser of every other constant is the replacement list `1` of its macro. -/
theorem constant_initialiser_expands_name_witness :
    Plain constTable ∧
      (∀ d ∈ constDefs_c, ∃ body, constTable d.name = some (.obj body)) ∧
      "DUK_RET_ERROR" ∈ (unitConsts constTable 4).map (fun c => c.name) ∧
      ∀ c ∈ unitConsts constTable 4,
        (c.name = "DUK_RET_ERROR" →
          c.init = [Tok.p "(", Tok.p "-", Tok.n "1", Tok.p ")"]) ∧
        (c.name ≠ "DUK_RET_ERROR" → c.init = [Tok.n "1"]) := by
  have T := constant_initialiser_expands_name constTable 4 (by decide)
  have hn : ∀ d ∈ constDefs_c, startsWith "DUK_" d.name = true := by decide
  refine ⟨by decide, ?_, ?_, ?_⟩
  · intro d hd
    by_cases h : d.name = "DUK_RET_ERROR"
    · exact ⟨[Tok.p "(", Tok.p "-", Tok.w "DUK_ERR_ERROR", Tok.p ")"],
        by simp [constTable, h]⟩
    · exact ⟨[Tok.n "1"], by simp [constTable, h, hn d hd]⟩
  · rw [T.1]
    decide
  · intro c hc
    have hmem : c.name ∈ constDefs_c.map (fun d => d.name) := by
      rw [← T.1]
      exact List.mem_map_of_mem _ hc
    obtain ⟨d, hd, hdn⟩ := List.mem_map.1 hmem
    have hs : startsWith "DUK_" c.name = true := hdn ▸ hn d hd
    refine ⟨?_, ?_⟩
    · intro h
      have hb : constTable c.name =
          some (.obj [Tok.p "(", Tok.p "-", Tok.w "DUK_ERR_ERROR", Tok.p ")"]) := by
        simp [constTable, h]
      rw [(T.2 c hc).2.1 3 _ rfl hb, h]
      decide
    · intro h
      have hb : constTable c.name = some (.obj [Tok.n "1"]) := by
        simp [constTable, h, hs]
      rw [(T.2 c hc).2.1 3 _ rfl hb]
      exact expand_inert constTable _ 3 _ (by
        intro t ht x hx
        subst hx
        simp at ht)

set_option maxRecDepth 100000 in
/-- C3 (fails on the code at `DUK_ENUM_INCLUDE_INTERNAL`).  `wrapper.h` declares the
constant `DUK_ENUM_INCLUDE_INTERNAL` and `wrapper.c` has no definition of that name;
for every other name the two files agree: each other symbol declared in `wrapper.h`
is defined in `wrapper.c`, and each symbol defined in `wrapper.c` is declared in
`wrapper.h`. -/
theorem enum_include_internal_declared_not_defined :
    (∃ d ∈ constDecls_h, d.name = "DUK_ENUM_INCLUDE_INTERNAL") ∧
      (∀ d ∈ declsOf exports_c, d.name ≠ "DUK_ENUM_INCLUDE_INTERNAL") ∧
      (∀ d ∈ declsOf exports_h, d.name ≠ "DUK_ENUM_INCLUDE_INTERNAL" →
        ∃ c ∈ declsOf exports_c, c.name = d.name) ∧
      (∀ c ∈ declsOf exports_c, ∃ d ∈ declsOf exports_h, d.name = c.name) := by
  decide

set_option maxRecDepth 100000 in
/-- The include lines of the two files hold no `push_macro` and no `pop_macro`. -/
theorem stack_lines :
    (wrapper_h.take 7).all Line.noStack = true ∧ (wrapper_c.take 1).all Line.noStack = true := by
  decide

set_option maxRecDepth 100000 in
/-- The three directives of every block name one and the same macro. -/
theorem block_names :
    ∀ b ∈ blocks_h ++ blocks_c, b.pushed = b.undefd ∧ b.undefd = b.popped := by
  decide

/-- C4.  The lines of `wrapper.h` after its include lines, and the lines of `wrapper.c`
after its include line, are export blocks, each `push_macro(N)`, `#undef N`, a code
line, `pop_macro(N)`, code lines, with one and the same `N`.  From every preprocessor
state, each block leaves the macro table and the saved definitions as they were; so
at the end of either file the macro table is the one the include lines produced (no
macro is left undefined) and the stack of saved definitions of every name is as at
the start of the file (empty if it was empty). -/
theorem export_blocks_restore_macros :
    allBlocks exports_h = true ∧ allBlocks exports_c = true ∧
      (∀ b ∈ blocks_h ++ blocks_c, b.pushed = b.undefd ∧ b.undefd = b.popped) ∧
      ∀ (hdr : String → MacroTable → MacroTable) (depth : Nat) (s : PP),
        (∀ b ∈ blocks_h ++ blocks_c,
          (run hdr depth s b.lines).defs = s.defs ∧ (run hdr depth s b.lines).saved = s.saved) ∧
        (run hdr depth s wrapper_h).defs = (run hdr depth s (wrapper_h.take 7)).defs ∧
        (run hdr depth s wrapper_h).saved = s.saved ∧
        (run hdr depth s wrapper_c).defs = (run hdr depth s (wrapper_c.take 1)).defs ∧
        (run hdr depth s wrapper_c).saved = s.saved := by
  refine ⟨allBlocks_h, allBlocks_c, block_names, ?_⟩
  intro hdr depth s
  have hh : wrapper_h = wrapper_h.take 7 ++ exports_h := (List.take_append_drop 7 wrapper_h).symm
  have hc : wrapper_c = wrapper_c.take 1 ++ exports_c := (List.take_append_drop 1 wrapper_c).symm
  have eh := run_allBlocks hdr depth allBlocks_h (run hdr depth s (wrapper_h.take 7))
  have ec := run_allBlocks hdr depth allBlocks_c (run hdr depth s (wrapper_c.take 1))
  have sh := run_saved hdr depth _ stack_lines.1 s
  have sc := run_saved hdr depth _ stack_lines.2 s
  refine ⟨fun b hb => run_block_frame hdr depth s b (block_names b hb).1 (block_names b hb).2,
    ?_, ?_, ?_, ?_⟩
  · conv_lhs => rw [hh, run_append, eh]
  · conv_lhs => rw [hh, run_append, eh]
    exact sh
  · conv_lhs => rw [hc, run_append, ec]
  · conv_lhs => rw [hc, run_append, ec]
    exact sc

set_option maxRecDepth 100000 in
/-- C5 (fails on the code at `duk_eval_file` and seven more names).  For each of the
eight entry points `duk_eval_file`, `duk_eval_file_noresult`, `duk_peval_file`,
`duk_peval_file_noresult`, `duk_compile_file`, `duk_pcompile_file`,
`duk_dump_context_stdout`, `duk_dump_context_stderr`, `wrapper.c` defines a function of
that name although `duk_v1_compat.h` declares it as a real (`extern`) function and
defines no function-like macro of that name. -/
theorem wrappers_defined_for_real_functions :
    fileEntryPoints.length = 8 ∧
      ∀ x ∈ fileEntryPoints,
        (∃ d ∈ funDefs_c, d.name = x) ∧ (∃ d ∈ realFunctionDecls duk_v1_compat_h, d.name = x) ∧
          x ∉ macroFunctions duk_v1_compat_h := by
  decide

set_option maxRecDepth 100000 in
/-- C6 (fails on the code at `DUK_STRING_PUSH_SAFE`).  `DUK_STRING_PUSH_SAFE` is an
object-like macro constant of `duk_v1_compat.h`, the header that defines the
function-like macro `duk_push_string_file` which `wrapper.c` exports, and neither
`wrapper.h` nor `wrapper.c` has a symbol of that name. -/
theorem push_safe_not_exported :
    "DUK_STRING_PUSH_SAFE" ∈ macroConstants duk_v1_compat_h ∧
      "duk_push_string_file" ∈ macroFunctions duk_v1_compat_h ∧
      (∃ d ∈ funDefs_c, d.name = "duk_push_string_file") ∧
      (∀ d ∈ declsOf exports_h, d.name ≠ "DUK_STRING_PUSH_SAFE") ∧
      (∀ d ∈ declsOf exports_c, d.name ≠ "DUK_STRING_PUSH_SAFE") := by
  decide

set_option maxRecDepth 100000 in
/-- Every constant `wrapper.c` defines is declared in `wrapper.h` under the same name and
type and has as its initialiser, in the source lines, the one word that is its own
name; no macro constant of `duk_v1_compat.h` is declared in `wrapper.h` or defined in
`wrapper.c`. -/
theorem constant_table_covers_declared_names :
    (∀ c ∈ constDefs_c, ∃ d ∈ constDecls_h, d.name = c.name ∧ d.type = c.type) ∧
      (∀ c ∈ srcConsts, c.init = [Tok.w c.name]) ∧
      (∀ x ∈ macroConstants duk_v1_compat_h,
        (∀ d ∈ declsOf exports_h, d.name ≠ x) ∧ (∀ d ∈ declsOf exports_c, d.name ≠ x)) := by
  decide

set_option maxRecDepth 100000 in
/-- C7.  `wrapper.c` defines 58 functions, and each has in `wrapper.h` a declaration of
the same name with the same return type and the same parameter list: the same
number of parameters, with the same types (and names), in the same order. -/
theorem signatures_agree :
    funDefs_c.length = 58 ∧
      ∀ d ∈ funDefs_c, ∃ h ∈ funDecls_h,
        h.name = d.name ∧ h.type = d.type ∧ h.paramTypes = d.paramTypes ∧
          h.params = d.params := by
  decide

set_option maxRecDepth 100000 in
/-- C8.  `wrapper.c` defines 90 constants; each has in `wrapper.h` a declaration of the
same name and the same type; the three `DUK_GIT_*` constants have type
`const char *const`, and every other constant has type `const T` for an integer type
`T`. -/
theorem constant_types_agree :
    constDefs_c.length = 90 ∧
      ∀ c ∈ constDefs_c,
        (∃ d ∈ constDecls_h, d.name = c.name ∧ d.type = c.type) ∧
        (c.name ∈ gitNames → c.type = [Tok.w "const", Tok.w "char", Tok.p "*", Tok.w "const"]) ∧
        (c.name ∉ gitNames → ∃ t ∈ integerTypes, c.type = [Tok.w "const", Tok.w t]) := by
  decide

set_option maxRecDepth 100000 in
/-- C9 (fails on the code at `duk_peval_file`).  When `duk_peval_file` is not a macro of
the engine headers, as `duk_v1_compat.h` has it, the exported
`duk_peval_file(ctx, path)` returns no status at all, neither `DUK_EXEC_SUCCESS` nor an
error status: whatever the call depth allowed, the call does not complete. -/
theorem duk_peval_file_wrapper_returns_no_status {σ Val Err : Type} (eng : Engine σ Val Err)
    (E : MacroTable) (hE : Plain E) (hF : E "duk_peval_file" = none) (depth fuel : Nat)
    (ctx path : Val) (s : σ) (o : Outcome σ Val Err) :
    callWrapper eng E depth fuel "duk_peval_file" [ctx, path] s ≠ Res.done o := by
  have h := wrapper_loops eng E hE depth "duk_peval_file" hF
    ⟨"duk_peval_file", ["ctx", "path"],
      [Tok.w "return", Tok.w "duk_peval_file", Tok.p "(", Tok.w "ctx", Tok.p ",", Tok.w "path",
        Tok.p ")", Tok.p ";"]⟩
    (by decide) rfl (by decide) true
    [Tok.w "duk_peval_file", Tok.p "(", Tok.w "ctx", Tok.p ",", Tok.w "path", Tok.p ")"]
    [Atom.var "ctx", Atom.var "path"] (by decide) (by decide) [ctx, path]
    (by simp [allSome, evalAtom, bindArgs, List.lookup]) fuel s
  rw [h]
  exact fun hne => Res.noConfusion hne

/-- The macro table of `duk_v1_compat.h` satisfies the hypotheses: the wrapper does not
return the status the sample engine's `duk_peval_file` returns. -/
theorem duk_peval_file_wrapper_returns_no_status_witness :
    Plain compatTable ∧ compatTable "duk_peval_file" = none ∧
      callWrapper sampleEngine compatTable 4 1000 "duk_peval_file" [7, 1] 0 ≠
        Res.done (sampleEngine.lib "duk_peval_file" [7, 1] 0) :=
  ⟨by decide, by decide,
    duk_peval_file_wrapper_returns_no_status sampleEngine compatTable (by decide) (by decide)
      4 1000 7 1 0 _⟩

set_option maxRecDepth 100000 in
/-- C10 (fails on the code at `duk_compile_file`).  When `duk_compile_file` is not a
macro of the engine headers, as `duk_v1_compat.h` has it, and the engine's
`duk_compile_file` signals an error `e` on given arguments and state (a path that
names no file, say), the exported `duk_compile_file` does not signal that error on
the same arguments and state, whatever the call depth allowed: the error is hidden
behind a call that does not complete. -/
theorem duk_compile_file_wrapper_hides_error {σ Val Err : Type} (eng : Engine σ Val Err)
    (E : MacroTable) (hE : Plain E) (hF : E "duk_compile_file" = none) (depth fuel : Nat)
    (ctx flags path : Val) (s s1 : σ) (e : Err)
    (herr : eng.lib "duk_compile_file" [ctx, flags, path] s = Outcome.err e s1) :
    callWrapper eng E depth fuel "duk_compile_file" [ctx, flags, path] s ≠
      Res.done (eng.lib "duk_compile_file" [ctx, flags, path] s) := by
  have h := wrapper_loops eng E hE depth "duk_compile_file" hF
    ⟨"duk_compile_file", ["ctx", "flags", "path"],
      [Tok.w "duk_compile_file", Tok.p "(", Tok.w "ctx", Tok.p ",", Tok.w "flags", Tok.p ",",
        Tok.w "path", Tok.p ")", Tok.p ";"]⟩
    (by decide) rfl (by decide) false
    [Tok.w "duk_compile_file", Tok.p "(", Tok.w "ctx", Tok.p ",", Tok.w "flags", Tok.p ",",
      Tok.w "path", Tok.p ")"]
    [Atom.var "ctx", Atom.var "flags", Atom.var "path"] (by decide) (by decide)
    [ctx, flags, path] (by simp [allSome, evalAtom, bindArgs, List.lookup]) fuel s
  rw [h, herr]
  exact fun hne => Res.noConfusion hne

/-- The macro table of `duk_v1_compat.h` and the sample engine, which signals error 2 for
the path 0, satisfy the hypotheses. -/
theorem duk_compile_file_wrapper_hides_error_witness :
    Plain compatTable ∧ compatTable "duk_compile_file" = none ∧
      sampleEngine.lib "duk_compile_file" [7, 0, 0] 3 = Outcome.err 2 3 ∧
      callWrapper sampleEngine compatTable 4 1000 "duk_compile_file" [7, 0, 0] 3 ≠
        Res.done (sampleEngine.lib "duk_compile_file" [7, 0, 0] 3) :=
  ⟨by decide, by decide, rfl,
    duk_compile_file_wrapper_hides_error sampleEngine compatTable (by decide) (by decide)
      4 1000 7 0 0 3 3 2 rfl⟩

/-- A wrapper with a `return` whose name is a function-like macro of the engine headers
with as many parameters: in the preprocessed unit its body is `return X ;` with `X` the
expansion of the invocation of the macro on the wrapper's own parameters. -/
theorem lookupFun_of_macro_return (E : MacroTable) (hE : Plain E) (d : Nat) (f : FuncDef)
    (hf : f ∈ srcFuncs) (hret : f.body = f.forward true) (ps : List String) (body : List Tok)
    (hF : E f.name = some (.fn ps body)) (hlen : f.params.length = ps.length) :
    lookupFun E (d + 1) f.name =
      some ⟨f.name, f.params,
        Tok.w "return" ::
          (expand E (d + 1) [] (Tok.w f.name :: Tok.p "(" :: (argToks f.params ++ [Tok.p ")"])) ++
            [Tok.p ";"])⟩ := by
  obtain ⟨_, hp, hfind⟩ := srcFuncs_forward f hf
  have hargs : (f.params.map fun a => [Tok.w a]).map (expand E d []) =
      f.params.map fun a => [Tok.w a] := by
    rw [List.map_map]
    apply List.map_congr_left
    intro a ha
    apply expand_inert
    intro t ht x hx
    subst hx
    simp at ht
    subst ht
    exact Or.inr (hE _ (hp _ ha))
  have hcall := expand_call E [] d f.name ps body f.params [] hF (by simp) hlen
  rw [hargs] at hcall
  have hnil : expand E (d + 1) [] [] = [] := by simp [expand, scanFinish]
  rw [hnil, List.append_nil] at hcall
  rw [lookupFun_eq E (d + 1) hE, hfind]
  simp only [Option.map_some']
  rw [hret, forward_expands E hE d f true ps body hF hlen hp, hcall]
  simp

/-- An expression that is not a call of a function `wrapper.c` defines names no
function the preprocessed unit defines. -/
theorem lookupFun_of_callsNoWrapper (E : MacroTable) (hE : Plain E) (depth : Nat)
    (e : List Tok) (h : callsNoWrapper e = true) :
    ∀ g atoms, parseCall e = some (g, atoms) → lookupFun E depth g = none := by
  intro g atoms hp
  simp only [callsNoWrapper, hp, List.all_eq_true, decide_eq_true_eq] at h
  rw [lookupFun_eq E depth hE]
  have : srcFuncs.find? (fun f => f.name = g) = none := by
    rw [List.find?_eq_none]
    intro f hf
    simpa using h f hf
  rw [this]
  rfl

/-- The invocation of a function-like macro on the parameters of the wrapper of its
name expands to the macro's replacement list, each macro parameter replaced by the
wrapper's parameter at its position, rescanned with the macro's name hidden. -/
theorem invocation_expands (E : MacroTable) (hE : Plain E) (d : Nat) (f : FuncDef)
    (hf : f ∈ srcFuncs) (ps : List String) (body : List Tok)
    (hF : E f.name = some (.fn ps body)) (hlen : f.params.length = ps.length) :
    expand E (d + 1) [] (Tok.w f.name :: Tok.p "(" :: (argToks f.params ++ [Tok.p ")"])) =
      expand E d [f.name] (body.map (renameTok ps f.params)) := by
  obtain ⟨_, hp, _⟩ := srcFuncs_forward f hf
  have hargs : (f.params.map fun a => [Tok.w a]).map (expand E d []) =
      f.params.map fun a => [Tok.w a] := by
    rw [List.map_map]
    apply List.map_congr_left
    intro a ha
    apply expand_inert
    intro t ht x hx
    subst hx
    simp at ht
    subst ht
    exact Or.inr (hE _ (hp _ ha))
  have hcall := expand_call E [] d f.name ps body f.params [] hF (by simp) hlen
  rw [hargs] at hcall
  have hnil : expand E (d + 1) [] [] = [] := by simp [expand, scanFinish]
  rw [hnil, List.append_nil, subst_words] at hcall
  exact hcall

/-- A call of a wrapper with a `return` whose name is a function-like macro of the
engine headers with as many parameters, when the macro's expansion is not a call of a
function of `wrapper.c`, yields what the direct invocation of the macro on the same
values yields in a unit without the shim: the same returned value, the same error,
the same resulting state. -/
theorem callWrapper_forwards {σ Val Err : Type} (eng : Engine σ Val Err) (E : MacroTable)
    (hE : Plain E) (d fuel : Nat) (f : FuncDef) (hf : f ∈ srcFuncs)
    (hret : f.body = f.forward true) (ps : List String) (body : List Tok)
    (hF : E f.name = some (.fn ps body)) (hlen : f.params.length = ps.length)
    (hns : callsNoWrapper (expand E d [f.name] (body.map (renameTok ps f.params))) = true)
    (vs : List Val) (s : σ) :
    callWrapper eng E (d + 1) (fuel + 1) f.name vs s =
      Res.done (engineEval eng (expand E d [f.name] (body.map (renameTok ps f.params)))
        (bindArgs f.params vs) s) := by
  have hl := lookupFun_of_macro_return E hE d f hf hret ps body hF hlen
  have hx := invocation_expands E hE d f hf ps body hF hlen
  unfold callWrapper
  rw [hl]
  refine (call_return eng _ fuel _ _ rfl vs s).trans ?_
  rw [hx]
  exact evalExpr_engine eng _ _ _ _ _ (lookupFun_of_callsNoWrapper E hE (d + 1) _ hns)

set_option maxRecDepth 100000 in
/-- Every function `wrapper.c` defines has distinct parameters, has as its body one
statement that is a call of the function's own name on its own parameters in order, and
uses no word but its own name and plain words. -/
theorem srcFuncs_calls :
    ∀ f ∈ srcFuncs,
      f.params.Nodup ∧
        (parseStmt f.body).bind (fun p => parseCall p.2) =
          some (f.name, f.params.map Atom.var) ∧
        ∀ x ∈ wordsOf f.body, x = f.name ∨ x ∈ plainWords := by
  decide

/-- A wrapper whose name is no macro of the engine headers never returns, whatever the
values it is called with. -/
theorem wrapper_without_macro_loops {σ Val Err : Type} (eng : Engine σ Val Err)
    (E : MacroTable) (hE : Plain E) (depth : Nat) (f : FuncDef) (hf : f ∈ srcFuncs)
    (hF : E f.name = none) (vs : List Val) (hlen : vs.length = f.params.length)
    (fuel : Nat) (s : σ) :
    callWrapper eng E depth fuel f.name vs s = Res.outOfFuel := by
  obtain ⟨hnd, hpc, hw⟩ := srcFuncs_calls f hf
  obtain ⟨_, _, hfind⟩ := srcFuncs_forward f hf
  cases hs : parseStmt f.body with
  | none => simp [hs] at hpc
  | some p =>
    obtain ⟨isRet, e⟩ := p
    simp only [hs, Option.some_bind] at hpc
    exact wrapper_loops eng E hE depth f.name hF f hfind rfl hw isRet e _ hs hpc vs
      (evalAtoms_params eng f.params vs hnd hlen) fuel s

set_option maxRecDepth 100000 in
/-- C11 (fails on the code at `duk_peval_file`, `duk_peval_file_noresult` and
`duk_pcompile_file`).  When these three names are not macros of the engine headers, as
`duk_v1_compat.h` has them, none of the three exported functions returns the status
that the engine's entry point of that name reports on the same handle, path and state
(for a path that names no file: the error status), whatever the call depth allowed:
the call does not complete. -/
theorem file_wrappers_report_no_status {σ Val Err : Type} (eng : Engine σ Val Err)
    (E : MacroTable) (hE : Plain E) (hF : ∀ x ∈ protectedFileEntryPoints, E x = none)
    (depth fuel : Nat) (ctx flags path : Val) (s : σ) :
    callWrapper eng E depth fuel "duk_peval_file" [ctx, path] s ≠
        Res.done (eng.lib "duk_peval_file" [ctx, path] s) ∧
      callWrapper eng E depth fuel "duk_peval_file_noresult" [ctx, path] s ≠
        Res.done (eng.lib "duk_peval_file_noresult" [ctx, path] s) ∧
      callWrapper eng E depth fuel "duk_pcompile_file" [ctx, flags, path] s ≠
        Res.done (eng.lib "duk_pcompile_file" [ctx, flags, path] s) := by
  have h1 := wrapper_without_macro_loops eng E hE depth
    ⟨"duk_peval_file", ["ctx", "path"],
      [Tok.w "return", Tok.w "duk_peval_file", Tok.p "(", Tok.w "ctx", Tok.p ",", Tok.w "path",
        Tok.p ")", Tok.p ";"]⟩
    (by decide) (hF _ (by decide)) [ctx, path] rfl fuel s
  have h2 := wrapper_without_macro_loops eng E hE depth
    ⟨"duk_peval_file_noresult", ["ctx", "path"],
      [Tok.w "return", Tok.w "duk_peval_file_noresult", Tok.p "(", Tok.w "ctx", Tok.p ",",
        Tok.w "path", Tok.p ")", Tok.p ";"]⟩
    (by decide) (hF _ (by decide)) [ctx, path] rfl fuel s
  have h3 := wrapper_without_macro_loops eng E hE depth
    ⟨"duk_pcompile_file", ["ctx", "flags", "path"],
      [Tok.w "return", Tok.w "duk_pcompile_file", Tok.p "(", Tok.w "ctx", Tok.p ",",
        Tok.w "flags", Tok.p ",", Tok.w "path", Tok.p ")", Tok.p ";"]⟩
    (by decide) (hF _ (by decide)) [ctx, flags, path] rfl fuel s
  simp only at h1 h2 h3
  rw [h1, h2, h3]
  exact ⟨fun h => Res.noConfusion h, fun h => Res.noConfusion h, fun h => Res.noConfusion h⟩

/-- The macro table of `duk_v1_compat.h` satisfies the hypotheses; the sample engine
signals error 2 for the path 0. -/
theorem file_wrappers_report_no_status_witness :
    Plain compatTable ∧ (∀ x ∈ protectedFileEntryPoints, compatTable x = none) ∧
      (callWrapper sampleEngine compatTable 4 1000 "duk_peval_file" [7, 0] 0 ≠
          Res.done (sampleEngine.lib "duk_peval_file" [7, 0] 0) ∧
        callWrapper sampleEngine compatTable 4 1000 "duk_peval_file_noresult" [7, 0] 0 ≠
          Res.done (sampleEngine.lib "duk_peval_file_noresult" [7, 0] 0) ∧
        callWrapper sampleEngine compatTable 4 1000 "duk_pcompile_file" [7, 5, 0] 0 ≠
          Res.done (sampleEngine.lib "duk_pcompile_file" [7, 5, 0] 0)) :=
  ⟨by decide, by decide,
    file_wrappers_report_no_status sampleEngine compatTable (by decide) (by decide)
      4 1000 7 5 0 0⟩

set_option maxRecDepth 100000 in
/-- C12.  `wrapper.c` defines `duk_create_heap_default` with an empty parameter list and
return type `duk_context *`.  When `duk_create_heap_default` is a macro without
parameters of the engine headers whose replacement list is not a call of a function of
`wrapper.c`, the invocation `duk_create_heap_default()` in the wrapper's body expands to
the macro's rescanned replacement list, and a call of the exported function yields
exactly what the engine yields for that replacement list, which is what the direct
invocation `duk_create_heap_default()` of the macro yields in a unit without the shim:
the same handle and the same resulting state (or the same error).  In particular, when
the macro-based call returns a handle that is not null, the exported call returns that
handle, which is not null. -/
theorem create_heap_default_returns_macro_handle {σ Val Err : Type} (eng : Engine σ Val Err)
    (E : MacroTable) (hE : Plain E) (body : List Tok)
    (hF : E "duk_create_heap_default" = some (.fn [] body)) (d fuel : Nat)
    (hns : callsNoWrapper (expand E d ["duk_create_heap_default"] body) = true) (s : σ) :
    (∃ dcl ∈ funDefs_c, dcl.name = "duk_create_heap_default" ∧ dcl.params = some [] ∧
        dcl.type = [Tok.w "duk_context", Tok.p "*"]) ∧
      expand E (d + 1) [] [Tok.w "duk_create_heap_default", Tok.p "(", Tok.p ")"] =
        expand E d ["duk_create_heap_default"] body ∧
      invokeMacro eng E (d + 1) "duk_create_heap_default" [] (bindArgs [] []) s =
        engineEval eng (expand E d ["duk_create_heap_default"] body) (bindArgs [] []) s ∧
      callWrapper eng E (d + 1) (fuel + 1) "duk_create_heap_default" [] s =
        Res.done (invokeMacro eng E (d + 1) "duk_create_heap_default" [] (bindArgs [] []) s) ∧
      ∀ (null h : Val) (s1 : σ), h ≠ null →
        invokeMacro eng E (d + 1) "duk_create_heap_default" [] (bindArgs [] []) s =
          Outcome.ret (some h) s1 →
        ∃ h1, h1 ≠ null ∧
          callWrapper eng E (d + 1) (fuel + 1) "duk_create_heap_default" [] s =
            Res.done (Outcome.ret (some h1) s1) := by
  have hf : (⟨"duk_create_heap_default", [],
      [Tok.w "return", Tok.w "duk_create_heap_default", Tok.p "(", Tok.p ")", Tok.p ";"]⟩ :
      FuncDef) ∈ srcFuncs := by decide
  have hx := invocation_expands E hE d _ hf [] body hF rfl
  simp only [argToks, List.nil_append, map_renameTok_nil] at hx
  have hns2 : callsNoWrapper (expand E d ["duk_create_heap_default"]
      (body.map (renameTok [] []))) = true := by
    rw [map_renameTok_nil]
    exact hns
  have key := callWrapper_forwards eng E hE d fuel _ hf (by decide) [] body hF rfl hns2 [] s
  simp only [map_renameTok_nil] at key
  have hinv : invokeMacro eng E (d + 1) "duk_create_heap_default" [] (bindArgs [] []) s =
      engineEval eng (expand E d ["duk_create_heap_default"] body) (bindArgs [] []) s := by
    unfold invokeMacro
    simp only [argToks, List.nil_append]
    rw [hx]
  refine ⟨by decide, hx, hinv, ?_, ?_⟩
  · rw [hinv]
    exact key
  · intro null h s1 hne hret
    refine ⟨h, hne, ?_⟩
    rw [← hret, hinv]
    exact key

set_option maxRecDepth 100000 in
/-- The sample table defines `duk_create_heap_default` as a macro without parameters that
calls `duk_create_heap`; on the second sample engine the exported call returns the
handle 100000 the engine's `duk_create_heap` returns on five null pointers, and leaves
the state in which one library call is counted. -/
theorem create_heap_default_returns_macro_handle_witness :
    Plain sampleTable ∧
      sampleTable "duk_create_heap_default" =
        some (.fn []
          [Tok.w "duk_create_heap", Tok.p "(", Tok.n "0", Tok.p ",", Tok.n "0", Tok.p ",",
            Tok.n "0", Tok.p ",", Tok.n "0", Tok.p ",", Tok.n "0", Tok.p ")"]) ∧
      invokeMacro echoEngine sampleTable 4 "duk_create_heap_default" [] (bindArgs [] []) 0 =
        Outcome.ret (some 100000) 1 ∧
      callWrapper echoEngine sampleTable 4 1000 "duk_create_heap_default" [] 0 =
        Res.done (Outcome.ret (some 100000) 1) :=
  ⟨by decide, by decide, by rfl,
    ((create_heap_default_returns_macro_handle echoEngine sampleTable (by decide)
      [Tok.w "duk_create_heap", Tok.p "(", Tok.n "0", Tok.p ",", Tok.n "0", Tok.p ",",
        Tok.n "0", Tok.p ",", Tok.n "0", Tok.p ",", Tok.n "0", Tok.p ")"]
      (by decide) 3 999 (by decide) 0).2.2.2.1).trans (congrArg Res.done (by rfl))⟩

set_option maxRecDepth 100000 in
/-- C13.  Every constant that `wrapper.h` declares or `wrapper.c` defines has a type that
starts with `const`, and each `DUK_GIT_*` constant has type `const char *const` (a
constant pointer to constant characters); the body of every function `wrapper.c`
defines uses no word but `return`, the function's own name and its own parameters, so
it names no exported constant and no other object. -/
theorem shim_owns_no_mutable_state :
    (∀ d ∈ constDecls_h ++ constDefs_c, d.type.head? = some (Tok.w "const")) ∧
      (∀ d ∈ constDecls_h ++ constDefs_c, d.name ∈ gitNames →
        d.type = [Tok.w "const", Tok.w "char", Tok.p "*", Tok.w "const"]) ∧
      (∀ x ∈ gitNames, (∃ d ∈ constDecls_h, d.name = x) ∧ ∃ d ∈ constDefs_c, d.name = x) ∧
      (∀ f ∈ srcFuncs, ∀ x ∈ wordsOf f.body, x = "return" ∨ x = f.name ∨ x ∈ f.params) ∧
      (∀ f ∈ srcFuncs, ∀ c ∈ constDecls_h, c.name ≠ f.name ∧ c.name ∉ f.params) := by
  decide

set_option maxRecDepth 100000 in
/-- The functions `wrapper.c` defines, as declarations and as definitions. -/
theorem srcFuncs_decls :
    srcFuncs.map (fun f => (f.name, f.params)) =
      funDefs_c.map (fun d => (d.name, (d.params.getD []).map Prod.snd)) := by
  decide

set_option maxRecDepth 100000 in
/-- C14.  For each of the 58 functions `wrapper.c` defines, the parameters are distinct
and the body is one statement whose expression is the call of the function's own name
on exactly the function's parameters, each once, in declaration order, each a bare
parameter name (so `duk_xmove_top` passes `to_ctx`, `from_ctx`, `count`); under any
values a call binds to the parameters, the values of the forwarded arguments are
those values, in order. -/
theorem forwarded_arguments_are_the_parameters :
    srcFuncs.length = 58 ∧
      srcFuncs.map (fun f => (f.name, f.params)) =
        funDefs_c.map (fun d => (d.name, (d.params.getD []).map Prod.snd)) ∧
      (parseStmt
          [Tok.w "duk_xmove_top", Tok.p "(", Tok.w "to_ctx", Tok.p ",", Tok.w "from_ctx",
            Tok.p ",", Tok.w "count", Tok.p ")", Tok.p ";"]).bind (fun p => parseCall p.2) =
        some ("duk_xmove_top", [Atom.var "to_ctx", Atom.var "from_ctx", Atom.var "count"]) ∧
      ∀ f ∈ srcFuncs,
        f.params.Nodup ∧
          (parseStmt f.body).bind (fun p => parseCall p.2) =
            some (f.name, f.params.map Atom.var) ∧
          ∀ (σ Val Err : Type) (eng : Engine σ Val Err) (vs : List Val),
            vs.length = f.params.length →
              allSome ((f.params.map Atom.var).map (evalAtom eng (bindArgs f.params vs))) =
                some vs := by
  refine ⟨by decide, srcFuncs_decls, by decide, ?_⟩
  intro f hf
  obtain ⟨hnd, hpc, _⟩ := srcFuncs_calls f hf
  exact ⟨hnd, hpc, fun _ _ _ eng vs hlen => evalAtoms_params eng f.params vs hnd hlen⟩

set_option maxRecDepth 100000 in
/-- C15.  In each of the 58 function blocks of `wrapper.c` the lines between the
declarator and the closing brace are one line, the forwarding statement: the call of
the function's own name on its parameters, behind `return` when the return type is not
`void` and alone when it is `void`.  That line holds one `(`, one `)`, one `;`, no
brace, and no word but `return`, the function's name and its parameters. -/
theorem body_is_one_forwarding_statement :
    funDefs_c.length = 58 ∧
      (∀ b ∈ blocks_c, ∀ d ∈ (parseDecl b.pre).toList, d.params.isSome = true →
        b.post = [forwardBody d, [Tok.p "\x7d"]] ∧
        (d.type = [Tok.w "void"] → (forwardBody d).head? = some (Tok.w d.name)) ∧
        (d.type ≠ [Tok.w "void"] → (forwardBody d).head? = some (Tok.w "return"))) ∧
      ∀ f ∈ srcFuncs,
        f.body.count (Tok.p "(") = 1 ∧ f.body.count (Tok.p ")") = 1 ∧
          f.body.count (Tok.p ";") = 1 ∧ f.body.count (Tok.p "\x7b") = 0 ∧
          f.body.count (Tok.p "\x7d") = 0 ∧
          ∀ x ∈ wordsOf f.body, x = "return" ∨ x = f.name ∨ x ∈ f.params := by
  decide

set_option maxRecDepth 100000 in
/-- Where the name of a block stands in its lines. -/
theorem block_positions :
    (∀ b ∈ blocks_h, b.post = [] ∧ b.pre.getLast? = some (Tok.p ";") ∧
        b.undefd ∈ wordsOf b.pre) ∧
      (∀ b ∈ blocks_c,
        (b.pre.getLast? = some (Tok.p "=") ∨ b.pre.getLast? = some (Tok.p "\x7b")) ∧
          b.undefd ∈ wordsOf b.pre ∧ b.undefd ∈ wordsOf (b.post.headD [])) := by
  decide

/-- In every block of `wrapper.h` the whole declaration (up to its `;`) stands between
`#undef` and `pop_macro` and nothing follows `pop_macro`; in every block of `wrapper.c`
the declarator line, which names the symbol and ends in `=` or in the opening brace,
stands between `#undef` and `pop_macro`, and the initialiser or body, which names the
symbol again, follows `pop_macro`.  From every preprocessor state, the declarator line
is expanded under the table in which the block's name is undefined (under a table that
leaves the shim's plain words alone it is emitted as written), and the lines after
`pop_macro` are expanded under the table as it was before the block: the name is a
macro there exactly if it was one before the block. -/
theorem pop_macro_position :
    (∀ b ∈ blocks_h, b.post = [] ∧ b.pre.getLast? = some (Tok.p ";") ∧
        b.undefd ∈ wordsOf b.pre) ∧
      (∀ b ∈ blocks_c,
        (b.pre.getLast? = some (Tok.p "=") ∨ b.pre.getLast? = some (Tok.p "\x7b")) ∧
          b.undefd ∈ wordsOf b.pre ∧ b.undefd ∈ wordsOf (b.post.headD [])) ∧
      ∀ (hdr : String → MacroTable → MacroTable) (depth : Nat) (s : PP), s.active = true →
        ∀ b ∈ blocks_h ++ blocks_c,
          (run hdr depth s b.lines).out =
              s.out ++ (expand (upd s.defs b.undefd none) depth [] b.pre ::
                b.post.map (expand s.defs depth [])) ∧
            upd s.defs b.undefd none b.undefd = none ∧
            (run hdr depth s b.lines).defs b.undefd = s.defs b.undefd ∧
            (Plain s.defs → expand (upd s.defs b.undefd none) depth [] b.pre = b.pre) := by
  refine ⟨block_positions.1, block_positions.2, ?_⟩
  intro hdr depth s ha b hb
  obtain ⟨h1, h2⟩ := block_names b hb
  have hin : b.inertOK = true := by
    rcases List.mem_append.1 hb with h | h
    · exact (shape_h b h).1
    · exact (shape_c b h).1
  obtain ⟨a, u, pre, c, post⟩ := b
  simp only at h1 h2
  subst h1 h2
  rw [run_block]
  refine ⟨by simp [ha], by simp [upd], rfl, ?_⟩
  intro hP
  have := emit_of_inertOK s.defs depth hP ⟨a, a, pre, a, post⟩ hin
  simp only [Block.emit] at this
  exact (List.cons.inj this).1

set_option maxRecDepth 100000 in
/-- The blocks of `wrapper.c` around `duk_eval_file_noresult` and around
`duk_create_heap_default`. -/
theorem blocks_c_at :
    (∀ b ∈ blocks_c, b.undefd = "duk_eval_file_noresult" →
      b = ⟨"duk_eval_file_noresult", "duk_eval_file_noresult",
        [Tok.w "void", Tok.w "duk_eval_file_noresult", Tok.p "(", Tok.w "duk_context",
          Tok.p "*", Tok.w "ctx", Tok.p ",", Tok.w "const", Tok.w "char", Tok.p "*",
          Tok.w "path", Tok.p ")", Tok.p "\x7b"],
        "duk_eval_file_noresult",
        [[Tok.w "duk_eval_file_noresult", Tok.p "(", Tok.w "ctx", Tok.p ",", Tok.w "path",
            Tok.p ")", Tok.p ";"], [Tok.p "\x7d"]]⟩) ∧
      (∀ b ∈ blocks_c, b.undefd = "duk_create_heap_default" →
        b = ⟨"duk_create_heap_default", "duk_create_heap_default",
          [Tok.w "duk_context", Tok.p "*", Tok.w "duk_create_heap_default", Tok.p "(",
            Tok.p ")", Tok.p "\x7b"],
          "duk_create_heap_default",
          [[Tok.w "return", Tok.w "duk_create_heap_default", Tok.p "(", Tok.p ")", Tok.p ";"],
            [Tok.p "\x7d"]]⟩) := by
  decide

set_option maxRecDepth 100000 in
/-- C16 (fails on the code at the block of `duk_eval_file_noresult`, as at the blocks of
the other names that are no macros of the unit).  From every preprocessor state in
which `duk_eval_file_noresult` is not a macro, as `duk_v1_compat.h` has it by declaring
a real function of that name, the block of `wrapper.c` around that name emits its
declarator and its body as written: the name in the body, read after `pop_macro`, is
not macro-expanded, and no macro of that name is defined after the block, because
`pop_macro` restores what `push_macro` saved, that there is no definition.  In the
sibling block around `duk_create_heap_default`, by contrast, when that name is a macro
without parameters, the name in the body expands to the macro's rescanned replacement
list and the macro is defined again after the block. -/
theorem eval_file_noresult_name_is_not_expanded (hdr : String → MacroTable → MacroTable)
    (depth : Nat) (s : PP) (ha : s.active = true) (hE : Plain s.defs)
    (hF : s.defs "duk_eval_file_noresult" = none) :
    (∃ b ∈ blocks_c, b.undefd = "duk_eval_file_noresult") ∧
      (∀ b ∈ blocks_c, b.undefd = "duk_eval_file_noresult" →
        (run hdr depth s b.lines).out = s.out ++
          [[Tok.w "void", Tok.w "duk_eval_file_noresult", Tok.p "(", Tok.w "duk_context",
              Tok.p "*", Tok.w "ctx", Tok.p ",", Tok.w "const", Tok.w "char", Tok.p "*",
              Tok.w "path", Tok.p ")", Tok.p "\x7b"],
            [Tok.w "duk_eval_file_noresult", Tok.p "(", Tok.w "ctx", Tok.p ",", Tok.w "path",
              Tok.p ")", Tok.p ";"],
            [Tok.p "\x7d"]] ∧
          (run hdr depth s b.lines).defs "duk_eval_file_noresult" = none) ∧
      ∀ b ∈ blocks_c, b.undefd = "duk_create_heap_default" →
        ∀ (d : Nat) (body : List Tok), depth = d + 1 →
          s.defs "duk_create_heap_default" = some (.fn [] body) →
          (run hdr depth s b.lines).out = s.out ++
            [[Tok.w "duk_context", Tok.p "*", Tok.w "duk_create_heap_default", Tok.p "(",
                Tok.p ")", Tok.p "\x7b"],
              Tok.w "return" ::
                (expand s.defs d ["duk_create_heap_default"] body ++ [Tok.p ";"]),
              [Tok.p "\x7d"]] ∧
            (run hdr depth s b.lines).defs "duk_create_heap_default" =
              some (.fn [] body) := by
  refine ⟨by decide, ?_, ?_⟩
  · intro b hb hn
    have hin := (shape_c b hb).1
    rw [blocks_c_at.1 b hb hn] at hin ⊢
    rw [run_block]
    have hemit := emit_of_inertOK s.defs depth hE _ hin
    simp only [Block.emit] at hemit
    have hbody : expand s.defs depth []
        [Tok.w "duk_eval_file_noresult", Tok.p "(", Tok.w "ctx", Tok.p ",", Tok.w "path",
          Tok.p ")", Tok.p ";"] =
        [Tok.w "duk_eval_file_noresult", Tok.p "(", Tok.w "ctx", Tok.p ",", Tok.w "path",
          Tok.p ")", Tok.p ";"] :=
      forward_inert s.defs hE depth ⟨"duk_eval_file_noresult", ["ctx", "path"], []⟩ false hF
        (by decide)
    rw [hbody] at hemit
    refine ⟨?_, hF⟩
    simp only [ha, if_true]
    rw [hemit]
  · intro b hb hn d body hd hM
    subst hd
    have hin := (shape_c b hb).1
    rw [blocks_c_at.2 b hb hn] at hin ⊢
    rw [run_block]
    have hemit := emit_of_inertOK s.defs (d + 1) hE _ hin
    simp only [Block.emit] at hemit
    have hbody := forward_expands s.defs hE d ⟨"duk_create_heap_default", [], []⟩ true []
      body hM rfl (by decide)
    simp only [FuncDef.forward, if_true, argToks, List.nil_append, List.singleton_append,
      List.map_nil] at hbody
    have hsub : subst [] [] body = body := by
      have := subst_words [] [] body
      simp only [List.map_nil, map_renameTok_nil] at this
      exact this
    rw [hsub] at hbody
    rw [hbody] at hemit
    refine ⟨?_, hM⟩
    simp only [ha, if_true]
    rw [hemit]
    simp

set_option maxRecDepth 100000 in
/-- The state in which the sample table is in force satisfies the hypotheses: the body of
the `duk_eval_file_noresult` block is emitted as written, while the body of the
`duk_create_heap_default` block is emitted with the name replaced by the replacement
list the sample table gives it. -/
theorem eval_file_noresult_name_is_not_expanded_witness :
    (PP.start sampleTable).active = true ∧ Plain (PP.start sampleTable).defs ∧
      (PP.start sampleTable).defs "duk_eval_file_noresult" = none ∧
      (run (fun _ T => T) 4 (PP.start sampleTable)
          (Block.lines ⟨"duk_eval_file_noresult", "duk_eval_file_noresult",
            [Tok.w "void", Tok.w "duk_eval_file_noresult", Tok.p "(", Tok.w "duk_context",
              Tok.p "*", Tok.w "ctx", Tok.p ",", Tok.w "const", Tok.w "char", Tok.p "*",
              Tok.w "path", Tok.p ")", Tok.p "\x7b"],
            "duk_eval_file_noresult",
            [[Tok.w "duk_eval_file_noresult", Tok.p "(", Tok.w "ctx", Tok.p ",",
                Tok.w "path", Tok.p ")", Tok.p ";"], [Tok.p "\x7d"]]⟩)).out =
        [[Tok.w "void", Tok.w "duk_eval_file_noresult", Tok.p "(", Tok.w "duk_context",
            Tok.p "*", Tok.w "ctx", Tok.p ",", Tok.w "const", Tok.w "char", Tok.p "*",
            Tok.w "path", Tok.p ")", Tok.p "\x7b"],
          [Tok.w "duk_eval_file_noresult", Tok.p "(", Tok.w "ctx", Tok.p ",", Tok.w "path",
            Tok.p ")", Tok.p ";"],
          [Tok.p "\x7d"]] ∧
      (run (fun _ T => T) 4 (PP.start sampleTable)
          (Block.lines ⟨"duk_create_heap_default", "duk_create_heap_default",
            [Tok.w "duk_context", Tok.p "*", Tok.w "duk_create_heap_default", Tok.p "(",
              Tok.p ")", Tok.p "\x7b"],
            "duk_create_heap_default",
            [[Tok.w "return", Tok.w "duk_create_heap_default", Tok.p "(", Tok.p ")",
                Tok.p ";"], [Tok.p "\x7d"]]⟩)).out =
        [[Tok.w "duk_context", Tok.p "*", Tok.w "duk_create_heap_default", Tok.p "(",
            Tok.p ")", Tok.p "\x7b"],
          [Tok.w "return", Tok.w "duk_create_heap", Tok.p "(", Tok.n "0", Tok.p ",",
            Tok.n "0", Tok.p ",", Tok.n "0", Tok.p ",", Tok.n "0", Tok.p ",", Tok.n "0",
            Tok.p ")", Tok.p ";"],
          [Tok.p "\x7d"]] :=
  ⟨rfl, by decide, by decide,
    ((eval_file_noresult_name_is_not_expanded (fun _ T => T) 4 (PP.start sampleTable) rfl
      (by decide) (by decide)).2.1 _ (by decide) rfl).1,
    (((eval_file_noresult_name_is_not_expanded (fun _ T => T) 4 (PP.start sampleTable) rfl
      (by decide) (by decide)).2.2 _ (by decide) rfl 3
      [Tok.w "duk_create_heap", Tok.p "(", Tok.n "0", Tok.p ",", Tok.n "0", Tok.p ",",
        Tok.n "0", Tok.p ",", Tok.n "0", Tok.p ",", Tok.n "0", Tok.p ")"]
      rfl (by decide)).1).trans (by decide)⟩

set_option maxRecDepth 100000 in
/-- The eight entry points have definitions in `wrapper.c`. -/
theorem fileEntryPoints_defined :
    fileEntryPoints.length = 8 ∧ ∀ x ∈ fileEntryPoints, ∃ f ∈ srcFuncs, f.name = x := by
  decide

/-- C17 (fails on the code at the eight entry points that `duk_v1_compat.h` declares as
real functions).  When those eight names are not macros of the engine headers, then for
each function `F` that `wrapper.c` defines under one of them the definition of `F` in
the preprocessed unit has the body as written, a call of the name `F`, and that name
resolves to the function `F` being defined: the wrapper calls itself, and a call of it
performs no engine call and does not return, whatever the call depth allowed. -/
theorem file_wrappers_call_themselves (E : MacroTable) (hE : Plain E)
    (hF : ∀ x ∈ fileEntryPoints, E x = none) (depth : Nat) (f : FuncDef)
    (hf : f ∈ srcFuncs) (hn : f.name ∈ fileEntryPoints) :
    lookupFun E depth f.name = some f ∧
      (parseStmt f.body).bind (fun p => parseCall p.2) =
        some (f.name, f.params.map Atom.var) ∧
      ∀ (σ Val Err : Type) (eng : Engine σ Val Err) (vs : List Val) (fuel : Nat) (s : σ),
        vs.length = f.params.length →
          callWrapper eng E depth fuel f.name vs s = Res.outOfFuel := by
  refine ⟨?_, (srcFuncs_calls f hf).2.1, ?_⟩
  · exact lookupFun_of_no_macro E hE depth f hf (hF _ hn)
  · intro _ _ _ eng vs fuel s hlen
    exact wrapper_without_macro_loops eng E hE depth f hf (hF _ hn) vs hlen fuel s

set_option maxRecDepth 100000 in
/-- The macro table of `duk_v1_compat.h` satisfies the hypotheses: the exported
`duk_dump_context_stdout` calls itself. -/
theorem file_wrappers_call_themselves_witness :
    Plain compatTable ∧ (∀ x ∈ fileEntryPoints, compatTable x = none) ∧
      lookupFun compatTable 4 "duk_dump_context_stdout" =
        some ⟨"duk_dump_context_stdout", ["ctx"],
          [Tok.w "duk_dump_context_stdout", Tok.p "(", Tok.w "ctx", Tok.p ")", Tok.p ";"]⟩ ∧
      callWrapper sampleEngine compatTable 4 1000 "duk_dump_context_stdout" [7] 0 =
        Res.outOfFuel :=
  ⟨by decide, by decide,
    (file_wrappers_call_themselves compatTable (by decide) (by decide) 4
      ⟨"duk_dump_context_stdout", ["ctx"],
        [Tok.w "duk_dump_context_stdout", Tok.p "(", Tok.w "ctx", Tok.p ")", Tok.p ";"]⟩
      (by decide) (by decide)).1,
    (file_wrappers_call_themselves compatTable (by decide) (by decide) 4
      ⟨"duk_dump_context_stdout", ["ctx"],
        [Tok.w "duk_dump_context_stdout", Tok.p "(", Tok.w "ctx", Tok.p ")", Tok.p ";"]⟩
      (by decide) (by decide)).2.2 Nat Nat Nat sampleEngine [7] 1000 0 rfl⟩

set_option maxRecDepth 100000 in
/-- The unit defines no function named `duk_push_string_file_raw`. -/
theorem no_push_string_file_raw :
    srcFuncs.find? (fun f => f.name = "duk_push_string_file_raw") = none := by
  decide

set_option maxRecDepth 100000 in
/-- With the macro `duk_push_string_file` of `duk_v1_compat.h` in force and
`duk_push_string_file_raw` the real function that header declares (no macro), a call of
the exported `duk_push_string_file(ctx, path)` returns the result of the engine's
`duk_push_string_file_raw` on `ctx`, `path` and the value of the literal `0`, from the
same state. -/
theorem push_string_file_under_compat_table {σ Val Err : Type} (eng : Engine σ Val Err)
    (E : MacroTable) (hE : Plain E)
    (hF : E "duk_push_string_file" = compatTable "duk_push_string_file")
    (hR : E "duk_push_string_file_raw" = none) (d fuel : Nat) (ctx path : Val) (s : σ) :
    callWrapper eng E (d + 1) (fuel + 1) "duk_push_string_file" [ctx, path] s =
      Res.done (eng.lib "duk_push_string_file_raw" [ctx, path, eng.num "0"] s) := by
  have hc : compatTable "duk_push_string_file" =
      some (.fn ["ctx", "path"]
        [Tok.w "duk_push_string_file_raw", Tok.p "(", Tok.p "(", Tok.w "ctx", Tok.p ")",
          Tok.p ",", Tok.p "(", Tok.w "path", Tok.p ")", Tok.p ",", Tok.n "0", Tok.p ")"]) := by
    decide
  rw [hc] at hF
  have hf : (⟨"duk_push_string_file", ["ctx", "path"],
      [Tok.w "return", Tok.w "duk_push_string_file", Tok.p "(", Tok.w "ctx", Tok.p ",",
        Tok.w "path", Tok.p ")", Tok.p ";"]⟩ : FuncDef) ∈ srcFuncs := by decide
  have hren : List.map (renameTok ["ctx", "path"] ["ctx", "path"])
      [Tok.w "duk_push_string_file_raw", Tok.p "(", Tok.p "(", Tok.w "ctx", Tok.p ")",
        Tok.p ",", Tok.p "(", Tok.w "path", Tok.p ")", Tok.p ",", Tok.n "0", Tok.p ")"] =
      [Tok.w "duk_push_string_file_raw", Tok.p "(", Tok.p "(", Tok.w "ctx", Tok.p ")",
        Tok.p ",", Tok.p "(", Tok.w "path", Tok.p ")", Tok.p ",", Tok.n "0", Tok.p ")"] := by
    decide
  have hbody : expand E d ["duk_push_string_file"]
      [Tok.w "duk_push_string_file_raw", Tok.p "(", Tok.p "(", Tok.w "ctx", Tok.p ")",
        Tok.p ",", Tok.p "(", Tok.w "path", Tok.p ")", Tok.p ",", Tok.n "0", Tok.p ")"] =
      [Tok.w "duk_push_string_file_raw", Tok.p "(", Tok.p "(", Tok.w "ctx", Tok.p ")",
        Tok.p ",", Tok.p "(", Tok.w "path", Tok.p ")", Tok.p ",", Tok.n "0", Tok.p ")"] :=
    expand_inert E _ d _ (by
      intro t ht x hx
      subst hx
      right
      simp at ht
      rcases ht with rfl | rfl | rfl
      · exact hR
      · exact hE _ (by decide)
      · exact hE _ (by decide))
  have key := callWrapper_forwards eng E hE d fuel _ hf (by decide) _ _ hF rfl
    (by
      simp only [hren, hbody]
      decide) [ctx, path] s
  simp only [hren, hbody] at key
  rw [key]
  have hpc : parseCall
      [Tok.w "duk_push_string_file_raw", Tok.p "(", Tok.p "(", Tok.w "ctx", Tok.p ")",
        Tok.p ",", Tok.p "(", Tok.w "path", Tok.p ")", Tok.p ",", Tok.n "0", Tok.p ")"] =
      some ("duk_push_string_file_raw", [Atom.var "ctx", Atom.var "path", Atom.lit "0"]) := by
    decide
  simp [engineEval, hpc, allSome, evalAtom, bindArgs, List.lookup]

set_option maxRecDepth 100000 in
/-- C18 (fails on the code at `duk_push_string_file`).  `wrapper.h` includes `duktape.h`
and `duk_logging.h` and nothing else, and `wrapper.c` includes `wrapper.h` and nothing
else: `duk_v1_compat.h`, which defines the macro `duk_push_string_file`, is not read.
When the two engine headers leave `duk_push_string_file` undefined, the definition of
`duk_push_string_file` in the preprocessed unit has the body as written,
`return duk_push_string_file(ctx, path);`, a call of the function being defined: a call
of the exported function never reaches `duk_push_string_file_raw` and does not return,
whatever the call depth allowed.  Were the macro of `duk_v1_compat.h` in force, the call
would return the result of `duk_push_string_file_raw(ctx, path, 0)`. -/
theorem push_string_file_wrapper_calls_itself {σ Val Err : Type} (eng : Engine σ Val Err)
    (hdr : String → MacroTable → MacroTable) (hE : Plain (unitTable hdr))
    (hF : unitTable hdr "duk_push_string_file" = none) (depth fuel : Nat) (ctx path : Val)
    (s : σ) :
    (includesOf wrapper_h = ["duktape.h", "duk_logging.h"] ∧
        includesOf wrapper_c = ["wrapper.h"] ∧
        "duk_push_string_file" ∈ macroFunctions duk_v1_compat_h) ∧
      lookupFun (unitTable hdr) depth "duk_push_string_file" =
        some ⟨"duk_push_string_file", ["ctx", "path"],
          [Tok.w "return", Tok.w "duk_push_string_file", Tok.p "(", Tok.w "ctx", Tok.p ",",
            Tok.w "path", Tok.p ")", Tok.p ";"]⟩ ∧
      callWrapper eng (unitTable hdr) depth fuel "duk_push_string_file" [ctx, path] s =
        Res.outOfFuel ∧
      callWrapper eng (unitTable hdr) depth fuel "duk_push_string_file" [ctx, path] s ≠
        Res.done (eng.lib "duk_push_string_file_raw" [ctx, path, eng.num "0"] s) ∧
      ∀ (E : MacroTable) (d k : Nat), Plain E →
        E "duk_push_string_file" = compatTable "duk_push_string_file" →
        E "duk_push_string_file_raw" = none →
        callWrapper eng E (d + 1) (k + 1) "duk_push_string_file" [ctx, path] s =
          Res.done (eng.lib "duk_push_string_file_raw" [ctx, path, eng.num "0"] s) := by
  have hf : (⟨"duk_push_string_file", ["ctx", "path"],
      [Tok.w "return", Tok.w "duk_push_string_file", Tok.p "(", Tok.w "ctx", Tok.p ",",
        Tok.w "path", Tok.p ")", Tok.p ";"]⟩ : FuncDef) ∈ srcFuncs := by decide
  have hl := lookupFun_of_no_macro (unitTable hdr) hE depth _ hf hF
  have hloop := wrapper_without_macro_loops eng (unitTable hdr) hE depth _ hf hF [ctx, path]
    rfl fuel s
  refine ⟨by decide, hl, hloop, ?_, ?_⟩
  · rw [hloop]
    intro h
    cases h
  · intro E d k hP hM hR
    exact push_string_file_under_compat_table eng E hP hM hR d k ctx path s

set_option maxRecDepth 100000 in
/-- Engine headers that define no macro at all satisfy the hypotheses: in the unit as
`wrapper.h` builds it the exported `duk_push_string_file` does not return. -/
theorem push_string_file_wrapper_calls_itself_witness :
    Plain (unitTable fun _ T => T) ∧
      unitTable (fun _ T => T) "duk_push_string_file" = none ∧
      callWrapper sampleEngine (unitTable fun _ T => T) 4 1000 "duk_push_string_file" [7, 1] 0 =
        Res.outOfFuel :=
  ⟨by decide, by decide,
    (push_string_file_wrapper_calls_itself sampleEngine (fun _ T => T) (by decide) (by decide)
      4 1000 7 1 0).2.2.1⟩

set_option maxRecDepth 100000 in
set_option maxHeartbeats 4000000 in
/-- No two blocks of `wrapper.h` are around the same name. -/
theorem nodup_h : (blocks_h.map fun b => b.undefd).Nodup := by
  decide

set_option maxRecDepth 100000 in
/-- The names of the blocks of `wrapper.c` are names of blocks of `wrapper.h`, in the
same order. -/
theorem names_sublist :
    List.Sublist (blocks_c.map fun b => b.undefd) (blocks_h.map fun b => b.undefd) := by
  decide

/-- No two blocks of `wrapper.c` are around the same name. -/
theorem nodup_c : (blocks_c.map fun b => b.undefd).Nodup :=
  List.Nodup.sublist names_sublist nodup_h

set_option maxRecDepth 100000 in
set_option maxHeartbeats 4000000 in
/-- The names of the blocks are the names they declare; constants and functions have
different names. -/
theorem block_decl_names :
    blocks_h.length = 149 ∧ blocks_c.length = 148 ∧
      (declsOf exports_h).map (fun d => d.name) = blocks_h.map (fun b => b.undefd) ∧
      (declsOf exports_c).map (fun d => d.name) = blocks_c.map (fun b => b.undefd) ∧
      ∀ c ∈ constDecls_h ++ constDefs_c, ∀ f ∈ funDecls_h ++ funDefs_c, c.name ≠ f.name := by
  decide

/-- C19.  The 149 blocks of `wrapper.h` are around 149 different names and declare 149
different symbols; the 148 blocks of `wrapper.c` are around 148 different names and
define 148 different symbols; no constant of either file has the name of a function of
either file. -/
theorem each_symbol_exported_once :
    blocks_h.length = 149 ∧ blocks_c.length = 148 ∧
      (blocks_h.map fun b => b.undefd).Nodup ∧ (blocks_c.map fun b => b.undefd).Nodup ∧
      ((declsOf exports_h).map fun d => d.name).Nodup ∧
      ((declsOf exports_c).map fun d => d.name).Nodup ∧
      ∀ c ∈ constDecls_h ++ constDefs_c, ∀ f ∈ funDecls_h ++ funDefs_c, c.name ≠ f.name := by
  obtain ⟨h1, h2, h3, h4, h5⟩ := block_decl_names
  exact ⟨h1, h2, nodup_h, nodup_c, h3 ▸ nodup_h, h4 ▸ nodup_c, h5⟩

set_option maxRecDepth 100000 in
/-- C20.  `wrapper.c` defines and `wrapper.h` declares `duk_push_error_object` with
exactly the three parameters `duk_context * ctx`, `duk_errcode_t err_code`,
`const char * fmt`; its body is `return duk_push_error_object(ctx, err_code, fmt);`,
the three parameters in that order and nothing more.  When `duk_push_error_object` is a
function-like macro of the engine headers taking three arguments (a variadic macro
invoked with one trailing argument is the macro whose third parameter is
`__VA_ARGS__`) and its replacement list is not a call of a function of `wrapper.c`, the
invocation in the wrapper's body expands to the macro's replacement list with the first
parameter replaced by `ctx`, the second by `err_code` and the third by `fmt`, rescanned;
a call of the exported function on three values yields exactly what the engine yields
for that expression under these values, which is what the direct invocation
`duk_push_error_object(ctx, err_code, fmt)` of the macro yields in a unit without the
shim: the same index, the same resulting state. -/
theorem push_error_object_forwards_three {σ Val Err : Type} (eng : Engine σ Val Err)
    (E : MacroTable) (hE : Plain E) (ps : List String) (body : List Tok)
    (hF : E "duk_push_error_object" = some (.fn ps body)) (hlen : ps.length = 3)
    (d fuel : Nat)
    (hns : callsNoWrapper (expand E d ["duk_push_error_object"]
      (body.map (renameTok ps ["ctx", "err_code", "fmt"]))) = true)
    (ctx errCode fmt : Val) (s : σ) :
    (∃ dcl ∈ funDefs_c, ∃ h ∈ funDecls_h,
        dcl.name = "duk_push_error_object" ∧ h.name = "duk_push_error_object" ∧
        h.params = dcl.params ∧ h.type = dcl.type ∧ dcl.type = [Tok.w "duk_idx_t"] ∧
        dcl.params = some
          [([Tok.w "duk_context", Tok.p "*"], "ctx"), ([Tok.w "duk_errcode_t"], "err_code"),
           ([Tok.w "const", Tok.w "char", Tok.p "*"], "fmt")]) ∧
      srcFuncs.find? (fun f => f.name = "duk_push_error_object") =
        some ⟨"duk_push_error_object", ["ctx", "err_code", "fmt"],
          [Tok.w "return", Tok.w "duk_push_error_object", Tok.p "(", Tok.w "ctx", Tok.p ",",
            Tok.w "err_code", Tok.p ",", Tok.w "fmt", Tok.p ")", Tok.p ";"]⟩ ∧
      expand E (d + 1) []
          [Tok.w "duk_push_error_object", Tok.p "(", Tok.w "ctx", Tok.p ",", Tok.w "err_code",
            Tok.p ",", Tok.w "fmt", Tok.p ")"] =
        expand E d ["duk_push_error_object"]
          (body.map (renameTok ps ["ctx", "err_code", "fmt"])) ∧
      invokeMacro eng E (d + 1) "duk_push_error_object" ["ctx", "err_code", "fmt"]
          (bindArgs ["ctx", "err_code", "fmt"] [ctx, errCode, fmt]) s =
        engineEval eng
          (expand E d ["duk_push_error_object"]
            (body.map (renameTok ps ["ctx", "err_code", "fmt"])))
          (bindArgs ["ctx", "err_code", "fmt"] [ctx, errCode, fmt]) s ∧
      callWrapper eng E (d + 1) (fuel + 1) "duk_push_error_object" [ctx, errCode, fmt] s =
        Res.done
          (invokeMacro eng E (d + 1) "duk_push_error_object" ["ctx", "err_code", "fmt"]
            (bindArgs ["ctx", "err_code", "fmt"] [ctx, errCode, fmt]) s) := by
  have hf : (⟨"duk_push_error_object", ["ctx", "err_code", "fmt"],
      [Tok.w "return", Tok.w "duk_push_error_object", Tok.p "(", Tok.w "ctx", Tok.p ",",
        Tok.w "err_code", Tok.p ",", Tok.w "fmt", Tok.p ")", Tok.p ";"]⟩ : FuncDef) ∈
      srcFuncs := by decide
  have hx := invocation_expands E hE d _ hf ps body hF hlen.symm
  simp only [argToks, List.cons_append, List.nil_append] at hx
  have key := callWrapper_forwards eng E hE d fuel _ hf (by decide) ps body hF hlen.symm hns
    [ctx, errCode, fmt] s
  have hinv : invokeMacro eng E (d + 1) "duk_push_error_object" ["ctx", "err_code", "fmt"]
      (bindArgs ["ctx", "err_code", "fmt"] [ctx, errCode, fmt]) s =
      engineEval eng
        (expand E d ["duk_push_error_object"]
          (body.map (renameTok ps ["ctx", "err_code", "fmt"])))
        (bindArgs ["ctx", "err_code", "fmt"] [ctx, errCode, fmt]) s := by
    unfold invokeMacro
    simp only [argToks, List.cons_append, List.nil_append]
    rw [hx]
  refine ⟨by decide, by decide, hx, hinv, ?_⟩
  rw [hinv]
  exact key

set_option maxRecDepth 100000 in
/-- The sample table defines `duk_push_error_object` with the three parameters `ctx`,
`err_code` and `__VA_ARGS__` as a call of `duk_push_error_object_raw`; on the second
sample engine the exported call on the values 7, 3 and 9 returns 1739, what the
engine's `duk_push_error_object_raw` returns on 7, 3 and 9 in that order. -/
theorem push_error_object_forwards_three_witness :
    Plain sampleTable ∧
      sampleTable "duk_push_error_object" =
        some (.fn ["ctx", "err_code", "__VA_ARGS__"]
          [Tok.w "duk_push_error_object_raw", Tok.p "(", Tok.p "(", Tok.w "ctx", Tok.p ")",
            Tok.p ",", Tok.p "(", Tok.w "err_code", Tok.p ")", Tok.p ",", Tok.w "__VA_ARGS__",
            Tok.p ")"]) ∧
      expand sampleTable 4 []
          [Tok.w "duk_push_error_object", Tok.p "(", Tok.w "ctx", Tok.p ",", Tok.w "err_code",
            Tok.p ",", Tok.w "fmt", Tok.p ")"] =
        [Tok.w "duk_push_error_object_raw", Tok.p "(", Tok.p "(", Tok.w "ctx", Tok.p ")",
          Tok.p ",", Tok.p "(", Tok.w "err_code", Tok.p ")", Tok.p ",", Tok.w "fmt",
          Tok.p ")"] ∧
      echoEngine.lib "duk_push_error_object_raw" [7, 3, 9] 0 = Outcome.ret (some 1739) 1 ∧
      callWrapper echoEngine sampleTable 4 1000 "duk_push_error_object" [7, 3, 9] 0 =
        Res.done (Outcome.ret (some 1739) 1) :=
  ⟨by decide, by decide, by decide, by rfl,
    ((push_error_object_forwards_three echoEngine sampleTable (by decide)
      ["ctx", "err_code", "__VA_ARGS__"]
      [Tok.w "duk_push_error_object_raw", Tok.p "(", Tok.p "(", Tok.w "ctx", Tok.p ")",
        Tok.p ",", Tok.p "(", Tok.w "err_code", Tok.p ")", Tok.p ",", Tok.w "__VA_ARGS__",
        Tok.p ")"] (by decide) rfl 3 999 (by decide) 7 3 9 0).2.2.2.2).trans
      (congrArg Res.done (by rfl))⟩

set_option maxRecDepth 100000 in
/-- C21.  In `wrapper.h` and in `wrapper.c` alike: each of the 8 `DUK_COMPILE_*` constants
has type `const duk_uint_t`, and every parameter named `flags` (those of `duk_compile`,
`duk_pcompile` and their string, lstring and file variants, 12 functions) has type
`duk_uint_t`; each of the 11 `DUK_TYPE_MASK_*` constants has type `const duk_uint_t`,
and the one parameter named `mask`, that of `duk_require_type_mask`, has type
`duk_uint_t`; each of the 8 `DUK_ERR_*` constants has type `const duk_errcode_t`, and
the one parameter named `err_code`, that of `duk_push_error_object`, has type
`duk_errcode_t`; `DUK_EXEC_SUCCESS` and `DUK_EXEC_ERROR` have type `const duk_int_t`, and
each of the 14 protected wrappers (`duk_peval*`, `duk_pcompile*`) has return type
`duk_int_t`. -/
theorem constant_types_match_their_use :
    ((constDecls_h.filter fun c => startsWith "DUK_COMPILE_" c.name).length = 8 ∧
        (constDecls_h.filter fun c => startsWith "DUK_TYPE_MASK_" c.name).length = 11 ∧
        (constDecls_h.filter fun c => startsWith "DUK_ERR_" c.name).length = 8 ∧
        (constDecls_h.filter fun c => startsWith "DUK_EXEC_" c.name).map (fun c => c.name) =
          ["DUK_EXEC_SUCCESS", "DUK_EXEC_ERROR"]) ∧
      (∀ c ∈ constDecls_h ++ constDefs_c,
        (startsWith "DUK_COMPILE_" c.name = true → c.type = [Tok.w "const", Tok.w "duk_uint_t"]) ∧
        (startsWith "DUK_TYPE_MASK_" c.name = true →
          c.type = [Tok.w "const", Tok.w "duk_uint_t"]) ∧
        (startsWith "DUK_ERR_" c.name = true → c.type = [Tok.w "const", Tok.w "duk_errcode_t"]) ∧
        (startsWith "DUK_EXEC_" c.name = true → c.type = [Tok.w "const", Tok.w "duk_int_t"])) ∧
      ((paramsNamed funDecls_h "flags").map Prod.fst =
          ["duk_compile", "duk_pcompile", "duk_compile_string", "duk_compile_string_filename",
           "duk_pcompile_string", "duk_pcompile_string_filename", "duk_compile_lstring",
           "duk_compile_lstring_filename", "duk_pcompile_lstring",
           "duk_pcompile_lstring_filename", "duk_compile_file", "duk_pcompile_file"] ∧
        paramsNamed funDecls_h "mask" = [("duk_require_type_mask", [Tok.w "duk_uint_t"])] ∧
        paramsNamed funDecls_h "err_code" =
          [("duk_push_error_object", [Tok.w "duk_errcode_t"])]) ∧
      (∀ ds ∈ [funDecls_h, funDefs_c],
        (∀ p ∈ paramsNamed ds "flags", p.2 = [Tok.w "duk_uint_t"]) ∧
        (∀ p ∈ paramsNamed ds "mask", p.2 = [Tok.w "duk_uint_t"]) ∧
        (∀ p ∈ paramsNamed ds "err_code", p.2 = [Tok.w "duk_errcode_t"]) ∧
        (ds.filter fun f => isProtected f.name).map (fun f => f.name) =
          ["duk_peval", "duk_peval_noresult", "duk_pcompile", "duk_peval_string",
           "duk_peval_string_noresult", "duk_pcompile_string", "duk_pcompile_string_filename",
           "duk_peval_lstring", "duk_peval_lstring_noresult", "duk_pcompile_lstring",
           "duk_pcompile_lstring_filename", "duk_peval_file", "duk_peval_file_noresult",
           "duk_pcompile_file"] ∧
        ∀ f ∈ ds, isProtected f.name = true → f.type = [Tok.w "duk_int_t"]) := by
  decide

set_option maxRecDepth 100000 in
/-- C22 (fails on the code at `duk_dump_context_stderr`, as at the other exports whose
names are no macros of the unit).  When `duk_dump_context_stderr` is not a macro of the
engine headers, as `duk_v1_compat.h` has it by declaring a real function of that name,
the exported `duk_dump_context_stderr(ctx)` forwards nothing: a call yields no result
from any engine state, whatever the call depth allowed, and what it yields is the same
for every engine, whatever the engine's `duk_dump_context_stderr` does. -/
theorem dump_context_stderr_forwards_nothing {σ Val Err : Type} (eng : Engine σ Val Err)
    (E : MacroTable) (hE : Plain E) (hF : E "duk_dump_context_stderr" = none)
    (depth fuel : Nat) (ctx : Val) (s : σ) :
    callWrapper eng E depth fuel "duk_dump_context_stderr" [ctx] s = Res.outOfFuel ∧
      (∀ o, callWrapper eng E depth fuel "duk_dump_context_stderr" [ctx] s ≠ Res.done o) ∧
      ∀ eng2 : Engine σ Val Err,
        callWrapper eng2 E depth fuel "duk_dump_context_stderr" [ctx] s =
          callWrapper eng E depth fuel "duk_dump_context_stderr" [ctx] s := by
  have hf : (⟨"duk_dump_context_stderr", ["ctx"],
      [Tok.w "duk_dump_context_stderr", Tok.p "(", Tok.w "ctx", Tok.p ")", Tok.p ";"]⟩ :
      FuncDef) ∈ srcFuncs := by decide
  have hloop : ∀ e : Engine σ Val Err,
      callWrapper e E depth fuel "duk_dump_context_stderr" [ctx] s = Res.outOfFuel :=
    fun e => wrapper_without_macro_loops e E hE depth _ hf hF [ctx] rfl fuel s
  refine ⟨hloop eng, ?_, ?_⟩
  · intro o h
    rw [hloop eng] at h
    cases h
  · intro eng2
    rw [hloop eng2, hloop eng]

set_option maxRecDepth 100000 in
/-- The macro table of `duk_v1_compat.h` and the sample engine satisfy the hypotheses: the
engine's `duk_dump_context_stderr` returns, the exported function does not. -/
theorem dump_context_stderr_forwards_nothing_witness :
    Plain compatTable ∧ compatTable "duk_dump_context_stderr" = none ∧
      sampleEngine.lib "duk_dump_context_stderr" [7] 0 = Outcome.ret (some 7) 1 ∧
      callWrapper sampleEngine compatTable 4 1000 "duk_dump_context_stderr" [7] 0 =
        Res.outOfFuel :=
  ⟨by decide, by decide, by rfl,
    (dump_context_stderr_forwards_nothing sampleEngine compatTable (by decide) (by decide)
      4 1000 7 0).1⟩

end Duk
